import Mathlib

/-!
# liblandlock: policy negotiation and validation above Landlock

A shallow embedding of `liblandlock.c`.  The library talks to the kernel through
system calls; here every call goes through one oracle, `Kernel`, which answers a
call from the history of all earlier calls and answers.  A library function takes
the history (`Trace`) it starts from and returns the history it leaves, so both the
result code and the calls that were made can be stated.

Machine integers: `int` values are `Int`, `__u64`/`__u32` values are `Nat`
(theorems that depend on the width say so with a bound such as `x < 2 ^ 64`).
Pointers that may be `NULL` are `Option`s.
-/

namespace Liblandlock

/-! ## Constants of the kernel interface (`linux/landlock.h`, `errno.h`, `sys/stat.h`) -/

/-- Modelled from the spec: `linux/landlock.h` is not among the sources; bit `1 << 0`. -/
def LANDLOCK_ACCESS_FS_EXECUTE : Nat := 1
/-- Modelled from the spec: `linux/landlock.h` is not among the sources; bit `1 << 1`. -/
def LANDLOCK_ACCESS_FS_WRITE_FILE : Nat := 2
/-- Modelled from the spec: `linux/landlock.h` is not among the sources; bit `1 << 2`. -/
def LANDLOCK_ACCESS_FS_READ_FILE : Nat := 4
/-- Modelled from the spec: `linux/landlock.h` is not among the sources; bit `1 << 3`
(directory listing, a directory-only right). -/
def LANDLOCK_ACCESS_FS_READ_DIR : Nat := 8
/-- Modelled from the spec: `linux/landlock.h` is not among the sources; bit `1 << 4`
(directory removal, a directory-only right). -/
def LANDLOCK_ACCESS_FS_REMOVE_DIR : Nat := 16
/-- Modelled from the spec: `linux/landlock.h` is not among the sources; bit `1 << 5`. -/
def LANDLOCK_ACCESS_FS_REMOVE_FILE : Nat := 32
/-- Modelled from the spec: `linux/landlock.h` is not among the sources; bit `1 << 6`. -/
def LANDLOCK_ACCESS_FS_MAKE_CHAR : Nat := 64
/-- Modelled from the spec: `linux/landlock.h` is not among the sources; bit `1 << 7`
(directory creation, a directory-only right). -/
def LANDLOCK_ACCESS_FS_MAKE_DIR : Nat := 128
/-- Modelled from the spec: `linux/landlock.h` is not among the sources; bit `1 << 8`. -/
def LANDLOCK_ACCESS_FS_MAKE_REG : Nat := 256
/-- Modelled from the spec: `linux/landlock.h` is not among the sources; bit `1 << 9`. -/
def LANDLOCK_ACCESS_FS_MAKE_SOCK : Nat := 512
/-- Modelled from the spec: `linux/landlock.h` is not among the sources; bit `1 << 10`. -/
def LANDLOCK_ACCESS_FS_MAKE_FIFO : Nat := 1024
/-- Modelled from the spec: `linux/landlock.h` is not among the sources; bit `1 << 11`. -/
def LANDLOCK_ACCESS_FS_MAKE_BLOCK : Nat := 2048
/-- Modelled from the spec: `linux/landlock.h` is not among the sources; bit `1 << 12`. -/
def LANDLOCK_ACCESS_FS_MAKE_SYM : Nat := 4096
/-- Modelled from the spec: `linux/landlock.h` is not among the sources; bit `1 << 13`
(the refer right, ABI 2). -/
def LANDLOCK_ACCESS_FS_REFER : Nat := 8192
/-- Modelled from the spec: `linux/landlock.h` is not among the sources; bit `1 << 14`
(the truncate right, ABI 3). -/
def LANDLOCK_ACCESS_FS_TRUNCATE : Nat := 16384
/-- Modelled from the spec: `linux/landlock.h` is not among the sources; bit `1 << 15`
(the device-ioctl right, ABI 5). -/
def LANDLOCK_ACCESS_FS_IOCTL_DEV : Nat := 32768

/-- Modelled from the spec: `linux/landlock.h` is not among the sources; bit `1 << 0`. -/
def LANDLOCK_ACCESS_NET_BIND_TCP : Nat := 1
/-- Modelled from the spec: `linux/landlock.h` is not among the sources; bit `1 << 1`. -/
def LANDLOCK_ACCESS_NET_CONNECT_TCP : Nat := 2

/-- Modelled from the spec: `linux/landlock.h` is not among the sources; bit `1 << 0`. -/
def LANDLOCK_SCOPE_ABSTRACT_UNIX_SOCKET : Nat := 1
/-- Modelled from the spec: `linux/landlock.h` is not among the sources; bit `1 << 1`. -/
def LANDLOCK_SCOPE_SIGNAL : Nat := 2

/-- Modelled from the spec: `linux/landlock.h` is not among the sources; bit `1 << 0`. -/
def LANDLOCK_RESTRICT_SELF_LOG_SAME_EXEC_OFF : Nat := 1
/-- Modelled from the spec: `linux/landlock.h` is not among the sources; bit `1 << 1`. -/
def LANDLOCK_RESTRICT_SELF_LOG_NEW_EXEC_ON : Nat := 2
/-- Modelled from the spec: `linux/landlock.h` is not among the sources; bit `1 << 2`. -/
def LANDLOCK_RESTRICT_SELF_LOG_SUBDOMAINS_OFF : Nat := 4

/-- Modelled from the spec: `linux/landlock.h` is not among the sources; the flag that
turns `landlock_create_ruleset` into the ABI version probe, `1 << 0`. -/
def LANDLOCK_CREATE_RULESET_VERSION : Nat := 1
/-- Modelled from the spec: `linux/landlock.h` is not among the sources; the flag that
turns `landlock_create_ruleset` into the errata probe, `1 << 1`. -/
def LANDLOCK_CREATE_RULESET_ERRATA : Nat := 2

/-- Modelled from the spec: `errno.h` is not among the sources; Linux value. -/
def EPERM : Int := 1
/-- Modelled from the spec: `errno.h` is not among the sources; Linux value. -/
def E2BIG : Int := 7
/-- Modelled from the spec: `errno.h` is not among the sources; Linux value. -/
def EBADF : Int := 9
/-- Modelled from the spec: `errno.h` is not among the sources; Linux value. -/
def ENOMEM : Int := 12
/-- Modelled from the spec: `errno.h` is not among the sources; Linux value. -/
def EFAULT : Int := 14
/-- Modelled from the spec: `errno.h` is not among the sources; Linux value. -/
def EINVAL : Int := 22
/-- Modelled from the spec: `errno.h` is not among the sources; Linux value. -/
def ENOSYS : Int := 38
/-- Modelled from the spec: `errno.h` is not among the sources; Linux value. -/
def ENOMSG : Int := 42
/-- Modelled from the spec: `errno.h` is not among the sources; Linux value. -/
def EBADFD : Int := 77
/-- Modelled from the spec: `errno.h` is not among the sources; Linux value. -/
def EPROTONOSUPPORT : Int := 93
/-- Modelled from the spec: `errno.h` is not among the sources; Linux value. -/
def EOPNOTSUPP : Int := 95
/-- Modelled from the spec: `errno.h` is not among the sources; Linux value. -/
def EAFNOSUPPORT : Int := 97

/-- Modelled from the spec: `sys/stat.h` is not among the sources; the file-type mask
`S_IFMT = 0170000`. -/
def S_IFMT : Nat := 61440
/-- Modelled from the spec: `sys/stat.h` is not among the sources; the directory type
`S_IFDIR = 0040000`. -/
def S_IFDIR : Nat := 16384
/-- Modelled from the spec: `sys/stat.h` is not among the sources; the macro
`S_ISDIR(m)`, that is `(m & S_IFMT) == S_IFDIR`. -/
def S_ISDIR (st_mode : Nat) : Bool := (st_mode &&& S_IFMT) == S_IFDIR

/-! ## Types of `liblandlock.h` -/

/-- The type `ll_abi_t` is `int`. -/
abbrev ll_abi_t := Int

/-- The selector `LL_ABI_LATEST`. -/
def LL_ABI_LATEST : ll_abi_t := 0

/-- The enumeration `ll_abi_compat_mode_t`. -/
inductive ll_abi_compat_mode_t where
  | LL_ABI_COMPAT_STRICT
  | LL_ABI_COMPAT_BEST_EFFORT
  deriving DecidableEq, Repr

/-- The enumeration `ll_error_t`. -/
inductive ll_error_t where
  | LL_ERROR_OK
  | LL_ERROR_OK_PARTIAL_SANDBOX
  | LL_ERROR_SYSTEM
  | LL_ERROR_INVALID_ARGUMENT
  | LL_ERROR_OUT_OF_MEMORY
  | LL_ERROR_UNSUPPORTED_SYSCALL
  | LL_ERROR_RULESET_INCOMPATIBLE
  | LL_ERROR_RULESET_CREATE_DISABLED
  | LL_ERROR_RULESET_CREATE_INVALID
  | LL_ERROR_RULESET_CREATE_SIZE_TOO_BIG
  | LL_ERROR_RULESET_CREATE_BAD_ADDRESS
  | LL_ERROR_RULESET_CREATE_EMPTY_ACCESS
  | LL_ERROR_ADD_RULE_TCP_UNSUPPORTED
  | LL_ERROR_ADD_RULE_DISABLED
  | LL_ERROR_ADD_RULE_FLAGS_INVALID
  | LL_ERROR_ADD_RULE_INCONSISTENT_ACCESS
  | LL_ERROR_ADD_RULE_ACCESS_NOT_APPLICABLE
  | LL_ERROR_ADD_RULE_PORT_OUT_OF_RANGE
  | LL_ERROR_ADD_RULE_EMPTY_ACCESS
  | LL_ERROR_ADD_RULE_BAD_FD
  | LL_ERROR_ADD_RULE_BAD_FD_TYPE
  | LL_ERROR_ADD_RULE_NO_WRITE
  | LL_ERROR_ADD_RULE_BAD_ADDRESS
  | LL_ERROR_RESTRICT_DISABLED
  | LL_ERROR_RESTRICT_FLAGS_INVALID
  | LL_ERROR_RESTRICT_BAD_FD
  | LL_ERROR_RESTRICT_BAD_FD_TYPE
  | LL_ERROR_RESTRICT_NOT_PERMITTED
  | LL_ERROR_RESTRICT_LIMIT_REACHED
  | LL_ERROR_RESTRICT_PARTIAL_SANDBOX_STRICT
  deriving DecidableEq, Repr

open ll_error_t ll_abi_compat_mode_t

/-- The numeric value of each enumerator of `ll_error_t`. -/
def ll_error_t.code : ll_error_t → Int
  | LL_ERROR_OK => 0
  | LL_ERROR_OK_PARTIAL_SANDBOX => 1
  | LL_ERROR_SYSTEM => -1
  | LL_ERROR_INVALID_ARGUMENT => -2
  | LL_ERROR_OUT_OF_MEMORY => -3
  | LL_ERROR_UNSUPPORTED_SYSCALL => -5
  | LL_ERROR_RULESET_INCOMPATIBLE => -6
  | LL_ERROR_RULESET_CREATE_DISABLED => -100
  | LL_ERROR_RULESET_CREATE_INVALID => -101
  | LL_ERROR_RULESET_CREATE_SIZE_TOO_BIG => -102
  | LL_ERROR_RULESET_CREATE_BAD_ADDRESS => -103
  | LL_ERROR_RULESET_CREATE_EMPTY_ACCESS => -104
  | LL_ERROR_ADD_RULE_TCP_UNSUPPORTED => -120
  | LL_ERROR_ADD_RULE_DISABLED => -121
  | LL_ERROR_ADD_RULE_FLAGS_INVALID => -122
  | LL_ERROR_ADD_RULE_INCONSISTENT_ACCESS => -123
  | LL_ERROR_ADD_RULE_ACCESS_NOT_APPLICABLE => -124
  | LL_ERROR_ADD_RULE_PORT_OUT_OF_RANGE => -125
  | LL_ERROR_ADD_RULE_EMPTY_ACCESS => -126
  | LL_ERROR_ADD_RULE_BAD_FD => -127
  | LL_ERROR_ADD_RULE_BAD_FD_TYPE => -128
  | LL_ERROR_ADD_RULE_NO_WRITE => -129
  | LL_ERROR_ADD_RULE_BAD_ADDRESS => -130
  | LL_ERROR_RESTRICT_DISABLED => -140
  | LL_ERROR_RESTRICT_FLAGS_INVALID => -141
  | LL_ERROR_RESTRICT_BAD_FD => -142
  | LL_ERROR_RESTRICT_BAD_FD_TYPE => -143
  | LL_ERROR_RESTRICT_NOT_PERMITTED => -144
  | LL_ERROR_RESTRICT_LIMIT_REACHED => -145
  | LL_ERROR_RESTRICT_PARTIAL_SANDBOX_STRICT => -146

/-- The macro `LL_ERRORED(err)`, that is `(err) < LL_ERROR_OK`. -/
def LL_ERRORED (err : ll_error_t) : Bool := decide (err.code < LL_ERROR_OK.code)

/-- Modelled from the spec: `struct landlock_ruleset_attr` of `linux/landlock.h`, which is
not among the sources: the three per-class handled-access masks, each a `__u64`. -/
structure landlock_ruleset_attr where
  handled_access_fs : Nat
  handled_access_net : Nat
  /-- The member `scoped` (a reserved word here, hence the underscore). -/
  scoped_ : Nat
  deriving DecidableEq, Repr

/-- Modelled from the spec: `sizeof(struct landlock_ruleset_attr)`, three `__u64` fields. -/
def sizeof_landlock_ruleset_attr : Nat := 24

/-- The structure `ll_ruleset_attr_t`.  The embedded kernel attribute is the member
that `liblandlock.c` reads as `ruleset_attr.access`. -/
structure ll_ruleset_attr_t where
  abi : ll_abi_t
  compat_mode : ll_abi_compat_mode_t
  access : landlock_ruleset_attr
  flags : Nat
  deriving DecidableEq, Repr

/-- The structure `struct ll_ruleset` of `liblandlock.c`. -/
structure ll_ruleset where
  ruleset_fd : Int
  abi : ll_abi_t
  compat_mode : ll_abi_compat_mode_t
  handled_access_fs : Nat
  handled_access_net : Nat
  handled_access_scope : Nat
  deriving DecidableEq, Repr

/-- The enumerator `LL_RULESET_ACCESS_CLASS_FS` of `ll_ruleset_access_class_t`.  A class
is the integer the caller passes; a value other than the three enumerators is an
unrecognised class. -/
def LL_RULESET_ACCESS_CLASS_FS : Int := 0

/-- The enumerator `LL_RULESET_ACCESS_CLASS_NET`. -/
def LL_RULESET_ACCESS_CLASS_NET : Int := 1

/-- The enumerator `LL_RULESET_ACCESS_CLASS_SCOPE`. -/
def LL_RULESET_ACCESS_CLASS_SCOPE : Int := 2

/-- The macro `LL_ACCESS_GROUP_FS_READ`. -/
def LL_ACCESS_GROUP_FS_READ : Nat :=
  LANDLOCK_ACCESS_FS_READ_FILE ||| LANDLOCK_ACCESS_FS_READ_DIR

/-- The macro `LL_ACCESS_GROUP_FS_WRITE`. -/
def LL_ACCESS_GROUP_FS_WRITE : Nat :=
  LANDLOCK_ACCESS_FS_WRITE_FILE ||| LANDLOCK_ACCESS_FS_REMOVE_DIR |||
  LANDLOCK_ACCESS_FS_REMOVE_FILE ||| LANDLOCK_ACCESS_FS_MAKE_CHAR |||
  LANDLOCK_ACCESS_FS_MAKE_DIR ||| LANDLOCK_ACCESS_FS_MAKE_REG |||
  LANDLOCK_ACCESS_FS_MAKE_SOCK ||| LANDLOCK_ACCESS_FS_MAKE_FIFO |||
  LANDLOCK_ACCESS_FS_MAKE_BLOCK ||| LANDLOCK_ACCESS_FS_MAKE_SYM |||
  LANDLOCK_ACCESS_FS_REFER

/-- The macro `LL_ACCESS_GROUP_FS_EXECUTE`. -/
def LL_ACCESS_GROUP_FS_EXECUTE : Nat :=
  LANDLOCK_ACCESS_FS_EXECUTE ||| LL_ACCESS_GROUP_FS_READ

/-- The macro `LL_ACCESS_GROUP_FS_ALL`. -/
def LL_ACCESS_GROUP_FS_ALL : Nat :=
  LL_ACCESS_GROUP_FS_READ ||| LL_ACCESS_GROUP_FS_WRITE ||| LL_ACCESS_GROUP_FS_EXECUTE

/-! ## The kernel as an oracle -/

/-- The attribute of a rule handed to `landlock_add_rule`; the constructor is the rule
type (`LANDLOCK_RULE_PATH_BENEATH` with a `struct landlock_path_beneath_attr`,
`LANDLOCK_RULE_NET_PORT` with a `struct landlock_net_port_attr`). -/
inductive rule_attr where
  | path_beneath (allowed_access : Nat) (parent_fd : Int)
  | net_port (allowed_access : Nat) (port : Nat)
  deriving DecidableEq, Repr

/-- The calls `liblandlock.c` makes outside itself, with their arguments. -/
inductive Syscall where
  /-- The call `landlock_create_ruleset(attr, size, flags)`; `attr` may be `NULL`. -/
  | landlock_create_ruleset (attr : Option landlock_ruleset_attr) (size : Nat) (flags : Nat)
  /-- The call `landlock_add_rule(ruleset_fd, rule_type, rule_attr, flags)`. -/
  | landlock_add_rule (ruleset_fd : Int) (rule : rule_attr) (flags : Nat)
  /-- The call `landlock_restrict_self(ruleset_fd, flags)`. -/
  | landlock_restrict_self (ruleset_fd : Int) (flags : Nat)
  /-- The call `prctl(PR_SET_NO_NEW_PRIVS, 1, 0, 0, 0)`. -/
  | prctl_set_no_new_privs
  /-- The call `socket(AF_NETLINK, SOCK_RAW, NETLINK_SOCKET)`. -/
  | socket_netlink
  /-- The call `fstat(fd, &st)`. -/
  | fstat (fd : Int)
  /-- The call `open(path, O_PATH | O_CLOEXEC)`. -/
  | open_path (path : String)
  /-- The call `close(fd)`. -/
  | close (fd : Int)
  /-- The call `malloc(sizeof(struct ll_ruleset))`. -/
  | malloc
  /-- The call `free(ruleset)`. -/
  | free
  deriving DecidableEq, Repr

/-- What a call leaves behind: its return value, the value of `errno` after it, and
(for `fstat`) the `st_mode` it stored.  For `malloc`, `ret = 0` is the `NULL` pointer. -/
structure Reply where
  ret : Int
  errno : Int
  st_mode : Nat
  deriving DecidableEq, Repr

/-- One recorded call together with its answer. -/
structure Event where
  call : Syscall
  reply : Reply
  deriving DecidableEq, Repr

/-- The history of calls, oldest first. -/
abbrev Trace := List Event

/-- The environment: it answers each call from the history so far. -/
abbrev Kernel := Trace → Syscall → Reply

/-- Make one call: ask the environment and record call and answer. -/
def sys (K : Kernel) (c : Syscall) (t : Trace) : Reply × Trace :=
  (K t c, t ++ [⟨c, K t c⟩])

/-! ## Machine arithmetic -/

/-- Bitwise complement of a `__u64`. -/
def not_u64 (x : Nat) : Nat := x ^^^ (2 ^ 64 - 1)

/-- Bitwise complement of a `__u32`. -/
def not_u32 (x : Nat) : Nat := x ^^^ (2 ^ 32 - 1)

/-- The conversion `(int)x` of a `__u32`. -/
def int_of_u32 (x : Nat) : Int :=
  if x % 2 ^ 32 < 2 ^ 31 then ((x % 2 ^ 32 : Nat) : Int) else ((x % 2 ^ 32 : Nat) : Int) - 2 ^ 32

/-- The conversion of an `int` to `__u32` when it is passed as a `__u32` argument. -/
def u32_of_int (x : Int) : Nat := (x % 2 ^ 32).toNat

/-! ## `liblandlock.c` -/

/-- The function `ll_error_with_errno`. -/
def ll_error_with_errno (_err : Int) (code : ll_error_t) : ll_error_t := code

/-- The function `ll_error_system`. -/
def ll_error_system (err : Int) : ll_error_t := ll_error_with_errno err LL_ERROR_SYSTEM

/-- The function `ll_error_from_create_ruleset_errno`. -/
def ll_error_from_create_ruleset_errno (err : Int) : ll_error_t :=
  if err = EOPNOTSUPP then ll_error_with_errno err LL_ERROR_RULESET_CREATE_DISABLED
  else if err = EINVAL then ll_error_with_errno err LL_ERROR_RULESET_CREATE_INVALID
  else if err = E2BIG then ll_error_with_errno err LL_ERROR_RULESET_CREATE_SIZE_TOO_BIG
  else if err = EFAULT then ll_error_with_errno err LL_ERROR_RULESET_CREATE_BAD_ADDRESS
  else if err = ENOMSG then ll_error_with_errno err LL_ERROR_RULESET_CREATE_EMPTY_ACCESS
  else if err = ENOSYS then ll_error_with_errno err LL_ERROR_UNSUPPORTED_SYSCALL
  else ll_error_system err

/-- The function `ll_error_from_add_rule_errno`. -/
def ll_error_from_add_rule_errno (err : Int) : ll_error_t :=
  if err = EAFNOSUPPORT then ll_error_with_errno err LL_ERROR_ADD_RULE_TCP_UNSUPPORTED
  else if err = EOPNOTSUPP then ll_error_with_errno err LL_ERROR_ADD_RULE_DISABLED
  else if err = EINVAL then ll_error_with_errno err LL_ERROR_ADD_RULE_INCONSISTENT_ACCESS
  else if err = ENOMSG then ll_error_with_errno err LL_ERROR_ADD_RULE_EMPTY_ACCESS
  else if err = EBADF then ll_error_with_errno err LL_ERROR_ADD_RULE_BAD_FD
  else if err = EBADFD then ll_error_with_errno err LL_ERROR_ADD_RULE_BAD_FD_TYPE
  else if err = EPERM then ll_error_with_errno err LL_ERROR_ADD_RULE_NO_WRITE
  else if err = EFAULT then ll_error_with_errno err LL_ERROR_ADD_RULE_BAD_ADDRESS
  else if err = ENOSYS then ll_error_with_errno err LL_ERROR_UNSUPPORTED_SYSCALL
  else ll_error_system err

/-- The function `ll_error_from_restrict_errno`. -/
def ll_error_from_restrict_errno (err : Int) : ll_error_t :=
  if err = EOPNOTSUPP then ll_error_with_errno err LL_ERROR_RESTRICT_DISABLED
  else if err = EINVAL then ll_error_with_errno err LL_ERROR_RESTRICT_FLAGS_INVALID
  else if err = EBADF then ll_error_with_errno err LL_ERROR_RESTRICT_BAD_FD
  else if err = EBADFD then ll_error_with_errno err LL_ERROR_RESTRICT_BAD_FD_TYPE
  else if err = EPERM then ll_error_with_errno err LL_ERROR_RESTRICT_NOT_PERMITTED
  else if err = E2BIG then ll_error_with_errno err LL_ERROR_RESTRICT_LIMIT_REACHED
  else if err = ENOSYS then ll_error_with_errno err LL_ERROR_UNSUPPORTED_SYSCALL
  else ll_error_system err

/-- The function `ll_resolve_abi`: the `latest` selector is resolved by the version probe,
with 1 as the fallback when the probe fails; any other value is returned unchanged. -/
def ll_resolve_abi (K : Kernel) (abi : ll_abi_t) (t : Trace) : ll_abi_t × Trace :=
  if abi = LL_ABI_LATEST then
    let r := sys K (.landlock_create_ruleset none 0 LANDLOCK_CREATE_RULESET_VERSION) t
    if r.1.ret < 0 then (1, r.2) else (r.1.ret, r.2)
  else (abi, t)

/-- The function `ll_supported_access_fs`. -/
def ll_supported_access_fs (abi : ll_abi_t) : Nat :=
  let mask : Nat := 0
  let mask := mask ||| LANDLOCK_ACCESS_FS_EXECUTE
  let mask := mask ||| LANDLOCK_ACCESS_FS_WRITE_FILE
  let mask := mask ||| LANDLOCK_ACCESS_FS_READ_FILE
  let mask := mask ||| LANDLOCK_ACCESS_FS_READ_DIR
  let mask := mask ||| LANDLOCK_ACCESS_FS_REMOVE_DIR
  let mask := mask ||| LANDLOCK_ACCESS_FS_REMOVE_FILE
  let mask := mask ||| LANDLOCK_ACCESS_FS_MAKE_CHAR
  let mask := mask ||| LANDLOCK_ACCESS_FS_MAKE_DIR
  let mask := mask ||| LANDLOCK_ACCESS_FS_MAKE_REG
  let mask := mask ||| LANDLOCK_ACCESS_FS_MAKE_SOCK
  let mask := mask ||| LANDLOCK_ACCESS_FS_MAKE_FIFO
  let mask := mask ||| LANDLOCK_ACCESS_FS_MAKE_BLOCK
  let mask := if abi ≥ 2 then mask ||| LANDLOCK_ACCESS_FS_REFER else mask
  let mask := if abi ≥ 3 then mask ||| LANDLOCK_ACCESS_FS_TRUNCATE else mask
  let mask := if abi ≥ 5 then mask ||| LANDLOCK_ACCESS_FS_IOCTL_DEV else mask
  mask

/-- The function `ll_supported_access_net`. -/
def ll_supported_access_net (abi : ll_abi_t) : Nat :=
  if abi < 4 then 0
  else LANDLOCK_ACCESS_NET_BIND_TCP ||| LANDLOCK_ACCESS_NET_CONNECT_TCP

/-- The function `ll_supported_scopes`. -/
def ll_supported_scopes (abi : ll_abi_t) : Nat :=
  if abi < 6 then 0
  else LANDLOCK_SCOPE_ABSTRACT_UNIX_SOCKET ||| LANDLOCK_SCOPE_SIGNAL

/-- The function `ll_supported_restrict_self_flags`. -/
def ll_supported_restrict_self_flags (abi : ll_abi_t) : Nat :=
  if abi < 7 then 0
  else LANDLOCK_RESTRICT_SELF_LOG_SAME_EXEC_OFF |||
       LANDLOCK_RESTRICT_SELF_LOG_NEW_EXEC_ON |||
       LANDLOCK_RESTRICT_SELF_LOG_SUBDOMAINS_OFF

/-- The function `ll_audit_supported`, in the branch compiled with `NETLINK_SOCKET`:
the result is 0 exactly when opening the netlink socket fails with `EPROTONOSUPPORT`. -/
def ll_audit_supported (K : Kernel) (t : Trace) : Int × Trace :=
  let r := sys K .socket_netlink t
  let audit_fd := r.1.ret
  if audit_fd < 0 then
    if r.1.errno = EPROTONOSUPPORT then (0, r.2) else (1, r.2)
  else
    let c := sys K (.close audit_fd) r.2
    (1, c.2)

/-- The function `ll_get_abi_version`; `out_abi` is `none` for a `NULL` pointer and
otherwise holds the pointed-to value. -/
def ll_get_abi_version (K : Kernel) (out_abi : Option ll_abi_t) (t : Trace) :
    ll_error_t × Option ll_abi_t × Trace :=
  match out_abi with
  | none => (ll_error_with_errno EINVAL LL_ERROR_INVALID_ARGUMENT, none, t)
  | some old =>
    let r := sys K (.landlock_create_ruleset none 0 LANDLOCK_CREATE_RULESET_VERSION) t
    if r.1.ret < 0 then (ll_error_from_create_ruleset_errno r.1.errno, some old, r.2)
    else (LL_ERROR_OK, some r.1.ret, r.2)

/-- The function `ll_get_errata`; `out_errata` is `none` for a `NULL` pointer and
otherwise holds the pointed-to value. -/
def ll_get_errata (K : Kernel) (out_errata : Option Int) (t : Trace) :
    ll_error_t × Option Int × Trace :=
  match out_errata with
  | none => (ll_error_with_errno EINVAL LL_ERROR_INVALID_ARGUMENT, none, t)
  | some old =>
    let r := sys K (.landlock_create_ruleset none 0 LANDLOCK_CREATE_RULESET_ERRATA) t
    if r.1.ret < 0 then (ll_error_from_create_ruleset_errno r.1.errno, some old, r.2)
    else (LL_ERROR_OK, some r.1.ret, r.2)

/-- The function `ll_ruleset_attr_create` (declared as `ll_ruleset_attr_make` in the
header): everything zeroed by `memset`, then the resolved ABI and the mode stored. -/
def ll_ruleset_attr_create (K : Kernel) (abi : ll_abi_t) (compat_mode : ll_abi_compat_mode_t)
    (t : Trace) : ll_ruleset_attr_t × Trace :=
  let r := ll_resolve_abi K abi t
  ({ abi := r.1, compat_mode := compat_mode, access := ⟨0, 0, 0⟩, flags := 0 }, r.2)

/-- The function `ll_ruleset_attr_add_flags`; `ruleset_attr` is `none` for `NULL`. -/
def ll_ruleset_attr_add_flags (ruleset_attr : Option ll_ruleset_attr_t) (flags : Nat) :
    ll_error_t × Option ll_ruleset_attr_t :=
  match ruleset_attr with
  | none => (ll_error_with_errno EINVAL LL_ERROR_INVALID_ARGUMENT, none)
  | some a => (LL_ERROR_OK, some { a with flags := a.flags ||| flags })

/-- The function `ll_ruleset_close`; `ruleset` is `none` for `NULL`. -/
def ll_ruleset_close (K : Kernel) (ruleset : Option ll_ruleset) (t : Trace) : Trace :=
  match ruleset with
  | none => t
  | some r =>
    let t1 := if r.ruleset_fd ≥ 0 then (sys K (.close r.ruleset_fd) t).2 else t
    (sys K .free t1).2

/-- The function `ll_ruleset_create`.  `out_ruleset` is `none` for a `NULL` pointer and
otherwise holds what `*out_ruleset` points to (`none` for `NULL`); the second component
of the result is `*out_ruleset` after the call. -/
def ll_ruleset_create (K : Kernel) (ruleset_attr : ll_ruleset_attr_t)
    (out_ruleset : Option (Option ll_ruleset)) (t : Trace) :
    ll_error_t × Option (Option ll_ruleset) × Trace :=
  match out_ruleset with
  | none => (ll_error_with_errno EINVAL LL_ERROR_INVALID_ARGUMENT, none, t)
  | some _ =>
    -- `*out_ruleset = NULL;`
    let p := ll_resolve_abi K ruleset_attr.abi t
    let policy_abi := p.1
    let k := sys K (.landlock_create_ruleset none 0 LANDLOCK_CREATE_RULESET_VERSION) p.2
    let kernel_abi := k.1.ret
    if kernel_abi < 0 then
      (ll_error_from_create_ruleset_errno k.1.errno, some none, k.2)
    else if ruleset_attr.compat_mode = LL_ABI_COMPAT_STRICT ∧ kernel_abi < policy_abi then
      (ll_error_with_errno EOPNOTSUPP LL_ERROR_RULESET_INCOMPATIBLE, some none, k.2)
    else
      let effective_abi :=
        if ruleset_attr.compat_mode = LL_ABI_COMPAT_BEST_EFFORT ∧ kernel_abi < policy_abi
        then kernel_abi else policy_abi
      let attr := ruleset_attr.access
      let fs_mask := ll_supported_access_fs effective_abi
      let net_mask := ll_supported_access_net effective_abi
      let scope_mask := ll_supported_scopes effective_abi
      let fs_before := attr.handled_access_fs
      let net_before := attr.handled_access_net
      let scope_before := attr.scoped_
      let attr : landlock_ruleset_attr :=
        { handled_access_fs := attr.handled_access_fs &&& fs_mask
          handled_access_net := attr.handled_access_net &&& net_mask
          scoped_ := attr.scoped_ &&& scope_mask }
      if attr.handled_access_fs = 0 ∧ attr.handled_access_net = 0 ∧ attr.scoped_ = 0 then
        (ll_error_with_errno ENOMSG LL_ERROR_RULESET_CREATE_EMPTY_ACCESS, some none, k.2)
      else
        let create_flags := int_of_u32 ruleset_attr.flags
        let c := sys K (.landlock_create_ruleset (some attr) sizeof_landlock_ruleset_attr
                    (u32_of_int create_flags)) k.2
        let ruleset_fd := c.1.ret
        if ruleset_fd < 0 then
          (ll_error_from_create_ruleset_errno c.1.errno, some none, c.2)
        else
          let m := sys K .malloc c.2
          if m.1.ret = 0 then
            let cl := sys K (.close ruleset_fd) m.2
            (ll_error_with_errno ENOMEM LL_ERROR_OUT_OF_MEMORY, some none, cl.2)
          else
            let ruleset : ll_ruleset :=
              { ruleset_fd := ruleset_fd
                abi := effective_abi
                compat_mode := ruleset_attr.compat_mode
                handled_access_fs := attr.handled_access_fs
                handled_access_net := attr.handled_access_net
                handled_access_scope := attr.scoped_ }
            if ruleset_attr.compat_mode = LL_ABI_COMPAT_STRICT then
              if fs_before ≠ ruleset.handled_access_fs ∨
                 net_before ≠ ruleset.handled_access_net ∨
                 scope_before ≠ ruleset.handled_access_scope then
                let t5 := ll_ruleset_close K (some ruleset) m.2
                (ll_error_with_errno EOPNOTSUPP LL_ERROR_RESTRICT_PARTIAL_SANDBOX_STRICT,
                  some none, t5)
              else
                (LL_ERROR_OK, some (some ruleset), m.2)
            else
              if fs_before ≠ ruleset.handled_access_fs ∨
                 net_before ≠ ruleset.handled_access_net ∨
                 scope_before ≠ ruleset.handled_access_scope then
                (LL_ERROR_OK_PARTIAL_SANDBOX, some (some ruleset), m.2)
              else
                (LL_ERROR_OK, some (some ruleset), m.2)

/-- The function `ll_ruleset_add_path_fd`; `ruleset` is `none` for `NULL`. -/
def ll_ruleset_add_path_fd (K : Kernel) (ruleset : Option ll_ruleset) (dir_fd : Int)
    (access_masks : Nat) (flags : Nat) (t : Trace) : ll_error_t × Trace :=
  match ruleset with
  | none => (ll_error_with_errno EINVAL LL_ERROR_INVALID_ARGUMENT, t)
  | some ruleset =>
    if ruleset.ruleset_fd < 0 ∨ dir_fd < 0 then
      (ll_error_with_errno EBADF LL_ERROR_ADD_RULE_BAD_FD, t)
    else if flags ≠ 0 then
      (ll_error_with_errno EINVAL LL_ERROR_ADD_RULE_FLAGS_INVALID, t)
    else if access_masks = 0 then
      (ll_error_with_errno ENOMSG LL_ERROR_ADD_RULE_EMPTY_ACCESS, t)
    else if access_masks &&& not_u64 ruleset.handled_access_fs ≠ 0 then
      (ll_error_with_errno EINVAL LL_ERROR_ADD_RULE_INCONSISTENT_ACCESS, t)
    else
      let dir_only_bits := LANDLOCK_ACCESS_FS_READ_DIR |||
                           LANDLOCK_ACCESS_FS_REMOVE_DIR |||
                           LANDLOCK_ACCESS_FS_MAKE_DIR
      let submit (t1 : Trace) : ll_error_t × Trace :=
        let r := sys K (.landlock_add_rule ruleset.ruleset_fd
                    (.path_beneath access_masks dir_fd) flags) t1
        if r.1.ret < 0 then (ll_error_from_add_rule_errno r.1.errno, r.2)
        else (LL_ERROR_OK, r.2)
      if access_masks &&& dir_only_bits ≠ 0 then
        let s := sys K (.fstat dir_fd) t
        if s.1.ret ≠ 0 then (ll_error_system s.1.errno, s.2)
        else if ¬ S_ISDIR s.1.st_mode then
          (ll_error_with_errno EINVAL LL_ERROR_ADD_RULE_ACCESS_NOT_APPLICABLE, s.2)
        else submit s.2
      else submit t

/-- The function `ll_ruleset_add_path`; `ruleset` and `path` are `none` for `NULL`. -/
def ll_ruleset_add_path (K : Kernel) (ruleset : Option ll_ruleset) (path : Option String)
    (access_masks : Nat) (flags : Nat) (t : Trace) : ll_error_t × Trace :=
  match ruleset, path with
  | some ruleset, some path =>
    if ruleset.ruleset_fd < 0 then
      (ll_error_with_errno EINVAL LL_ERROR_INVALID_ARGUMENT, t)
    else
      let o := sys K (.open_path path) t
      let dir_fd := o.1.ret
      if dir_fd < 0 then (ll_error_system o.1.errno, o.2)
      else
        let r := ll_ruleset_add_path_fd K (some ruleset) dir_fd access_masks flags o.2
        let c := sys K (.close dir_fd) r.2
        (r.1, c.2)
  | _, _ => (ll_error_with_errno EINVAL LL_ERROR_INVALID_ARGUMENT, t)

/-- The function `ll_ruleset_add_net_port`; `ruleset` is `none` for `NULL`. -/
def ll_ruleset_add_net_port (K : Kernel) (ruleset : Option ll_ruleset) (port : Nat)
    (access_masks : Nat) (flags : Nat) (t : Trace) : ll_error_t × Trace :=
  match ruleset with
  | none => (ll_error_with_errno EINVAL LL_ERROR_INVALID_ARGUMENT, t)
  | some ruleset =>
    if ruleset.ruleset_fd < 0 then
      (ll_error_with_errno EBADF LL_ERROR_ADD_RULE_BAD_FD, t)
    else if flags ≠ 0 then
      (ll_error_with_errno EINVAL LL_ERROR_ADD_RULE_FLAGS_INVALID, t)
    else if access_masks = 0 then
      (ll_error_with_errno ENOMSG LL_ERROR_ADD_RULE_EMPTY_ACCESS, t)
    else if port > 65535 then
      (ll_error_with_errno EINVAL LL_ERROR_ADD_RULE_PORT_OUT_OF_RANGE, t)
    else if ruleset.handled_access_net = 0 then
      (ll_error_with_errno EAFNOSUPPORT LL_ERROR_ADD_RULE_TCP_UNSUPPORTED, t)
    else if access_masks &&& not_u64 ruleset.handled_access_net ≠ 0 then
      (ll_error_with_errno EINVAL LL_ERROR_ADD_RULE_INCONSISTENT_ACCESS, t)
    else
      let r := sys K (.landlock_add_rule ruleset.ruleset_fd
                  (.net_port access_masks port) flags) t
      if r.1.ret < 0 then (ll_error_from_add_rule_errno r.1.errno, r.2)
      else (LL_ERROR_OK, r.2)

/-- The function `ll_ruleset_enforce`; `ruleset` is `none` for `NULL`. -/
def ll_ruleset_enforce (K : Kernel) (ruleset : Option ll_ruleset) (flags : Nat) (t : Trace) :
    ll_error_t × Trace :=
  match ruleset with
  | none => (ll_error_with_errno EINVAL LL_ERROR_INVALID_ARGUMENT, t)
  | some ruleset =>
    if ruleset.ruleset_fd < 0 then
      (ll_error_with_errno EBADF LL_ERROR_RESTRICT_BAD_FD, t)
    else
      let known_flags := LANDLOCK_RESTRICT_SELF_LOG_SAME_EXEC_OFF |||
                         LANDLOCK_RESTRICT_SELF_LOG_NEW_EXEC_ON |||
                         LANDLOCK_RESTRICT_SELF_LOG_SUBDOMAINS_OFF
      if flags &&& not_u32 known_flags ≠ 0 then
        (ll_error_with_errno EINVAL LL_ERROR_RESTRICT_FLAGS_INVALID, t)
      else
        let supported := ll_supported_restrict_self_flags ruleset.abi
        let masked_flags := flags &&& supported
        if ruleset.compat_mode = LL_ABI_COMPAT_STRICT ∧ masked_flags ≠ flags then
          (ll_error_with_errno EOPNOTSUPP LL_ERROR_RESTRICT_PARTIAL_SANDBOX_STRICT, t)
        else
          let finish (masked_flags : Nat) (t1 : Trace) : ll_error_t × Trace :=
            let pr := sys K .prctl_set_no_new_privs t1
            if pr.1.ret ≠ 0 then (ll_error_system pr.1.errno, pr.2)
            else
              let r := sys K (.landlock_restrict_self ruleset.ruleset_fd masked_flags) pr.2
              if r.1.ret < 0 then (ll_error_from_restrict_errno r.1.errno, r.2)
              else (LL_ERROR_OK, r.2)
          if masked_flags ≠ 0 then
            let a := ll_audit_supported K t
            if a.1 = 0 then
              if ruleset.compat_mode = LL_ABI_COMPAT_STRICT then
                (ll_error_with_errno EOPNOTSUPP LL_ERROR_RESTRICT_PARTIAL_SANDBOX_STRICT, a.2)
              else finish 0 a.2
            else finish masked_flags a.2
          else finish masked_flags t

/-! ## Declared in `liblandlock.h`, without a body in `liblandlock.c` -/

/-- Modelled from the spec: the body of `ll_ruleset_attr_handle`, which `liblandlock.h`
declares and `liblandlock.c` does not define.  The requested bits are ORed into the
accumulator of the class; a `NULL` attribute (`none`) or a class that is none of the
three enumerators gives `LL_ERROR_INVALID_ARGUMENT`; nothing is compared with a
supported set. -/
def ll_ruleset_attr_handle (ruleset_attr : Option ll_ruleset_attr_t) (access_class : Int)
    (access_requested : Nat) : ll_error_t × Option ll_ruleset_attr_t :=
  match ruleset_attr with
  | none => (ll_error_with_errno EINVAL LL_ERROR_INVALID_ARGUMENT, none)
  | some a =>
    if access_class = LL_RULESET_ACCESS_CLASS_FS then
      (LL_ERROR_OK, some { a with access :=
        { a.access with handled_access_fs := a.access.handled_access_fs ||| access_requested } })
    else if access_class = LL_RULESET_ACCESS_CLASS_NET then
      (LL_ERROR_OK, some { a with access :=
        { a.access with handled_access_net := a.access.handled_access_net ||| access_requested } })
    else if access_class = LL_RULESET_ACCESS_CLASS_SCOPE then
      (LL_ERROR_OK, some { a with access :=
        { a.access with scoped_ := a.access.scoped_ ||| access_requested } })
    else (ll_error_with_errno EINVAL LL_ERROR_INVALID_ARGUMENT, some a)

/-! ## Observations on a history -/

/-- The calls of the ruleset-creation channel in a history: the
`landlock_create_ruleset` calls with a non-`NULL` attribute, each as
(attribute, size, flags).  The probes (`NULL` attribute) are not creation calls. -/
def creation_calls (t : Trace) : List (landlock_ruleset_attr × Nat × Nat) :=
  t.filterMap fun e =>
    match e.call with
    | .landlock_create_ruleset (some a) size flags => some (a, size, flags)
    | _ => none

/-- The calls of the rule-submission channel in a history, each as
(ruleset handle, rule, flags). -/
def rule_calls (t : Trace) : List (Int × rule_attr × Nat) :=
  t.filterMap fun e =>
    match e.call with
    | .landlock_add_rule fd rule flags => some (fd, rule, flags)
    | _ => none

/-- Every bit of `a` is a bit of `b`. -/
def bits_subset (a b : Nat) : Prop := a &&& b = a

instance (a b : Nat) : Decidable (bits_subset a b) := by
  unfold bits_subset; infer_instance

/-! ## Names for the steps of `ll_ruleset_create` -/

/-- The version probe: `landlock_create_ruleset(NULL, 0, LANDLOCK_CREATE_RULESET_VERSION)`. -/
def version_probe : Syscall :=
  .landlock_create_ruleset none 0 LANDLOCK_CREATE_RULESET_VERSION

/-- The requested ABI as `ll_ruleset_create` uses it (`policy_abi`): the attribute's ABI
after `ll_resolve_abi`. -/
def policy_abi (K : Kernel) (a : ll_ruleset_attr_t) (t : Trace) : ll_abi_t :=
  (ll_resolve_abi K a.abi t).1

/-- The kernel's answer to the version probe of `ll_ruleset_create` (`kernel_abi` is its
return value); the probe is issued right after the ABI has been resolved. -/
def probe_reply (K : Kernel) (a : ll_ruleset_attr_t) (t : Trace) : Reply :=
  K (ll_resolve_abi K a.abi t).2 version_probe

/-- The effective ABI of `ll_ruleset_create` (`effective_abi`): the kernel ABI when the
mode is best-effort and the kernel ABI is below the requested one, else the requested one. -/
def effective_abi (K : Kernel) (a : ll_ruleset_attr_t) (t : Trace) : ll_abi_t :=
  if a.compat_mode = LL_ABI_COMPAT_BEST_EFFORT ∧ (probe_reply K a t).ret < policy_abi K a t
  then (probe_reply K a t).ret else policy_abi K a t

/-- The requested masks intersected, class by class, with the masks supported at `v`. -/
def masked_access (a : landlock_ruleset_attr) (v : ll_abi_t) : landlock_ruleset_attr :=
  { handled_access_fs := a.handled_access_fs &&& ll_supported_access_fs v
    handled_access_net := a.handled_access_net &&& ll_supported_access_net v
    scoped_ := a.scoped_ &&& ll_supported_scopes v }

/-- The history at the moment `ll_ruleset_create` calls the creation channel: the
resolution, then the version probe. -/
def trace_at_creation (K : Kernel) (a : ll_ruleset_attr_t) (t : Trace) : Trace :=
  (sys K version_probe (ll_resolve_abi K a.abi t).2).2

/-- The call `ll_ruleset_create` makes on the creation channel. -/
def creation_call (K : Kernel) (a : ll_ruleset_attr_t) (t : Trace) : Syscall :=
  .landlock_create_ruleset (some (masked_access a.access (effective_abi K a t)))
    sizeof_landlock_ruleset_attr (u32_of_int (int_of_u32 a.flags))

/-- The kernel's answer to the creation call of `ll_ruleset_create`. -/
def creation_reply (K : Kernel) (a : ll_ruleset_attr_t) (t : Trace) : Reply :=
  K (trace_at_creation K a t) (creation_call K a t)

/-- The answer to the `malloc` that follows a successful creation call. -/
def alloc_reply (K : Kernel) (a : ll_ruleset_attr_t) (t : Trace) : Reply :=
  K (sys K (creation_call K a t) (trace_at_creation K a t)).2 .malloc

/-- The ruleset object `ll_ruleset_create` fills in after a successful allocation. -/
def created_ruleset (K : Kernel) (a : ll_ruleset_attr_t) (t : Trace) : ll_ruleset :=
  { ruleset_fd := (creation_reply K a t).ret
    abi := effective_abi K a t
    compat_mode := a.compat_mode
    handled_access_fs := (masked_access a.access (effective_abi K a t)).handled_access_fs
    handled_access_net := (masked_access a.access (effective_abi K a t)).handled_access_net
    handled_access_scope := (masked_access a.access (effective_abi K a t)).scoped_ }

/-- The history after the creation call. -/
def trace_after_creation (K : Kernel) (a : ll_ruleset_attr_t) (t : Trace) : Trace :=
  (sys K (creation_call K a t) (trace_at_creation K a t)).2

/-- The history after the `malloc` of the ruleset object. -/
def trace_after_alloc (K : Kernel) (a : ll_ruleset_attr_t) (t : Trace) : Trace :=
  (sys K .malloc (trace_after_creation K a t)).2

/-- All three masks are zero after the intersection at ABI `v`. -/
def masks_empty (a : landlock_ruleset_attr) (v : ll_abi_t) : Prop :=
  (masked_access a v).handled_access_fs = 0 ∧
  (masked_access a v).handled_access_net = 0 ∧
  (masked_access a v).scoped_ = 0

instance (a : landlock_ruleset_attr) (v : ll_abi_t) : Decidable (masks_empty a v) := by
  unfold masks_empty; infer_instance

/-- The intersection at ABI `v` removes a bit from at least one class. -/
def masks_shrink (a : landlock_ruleset_attr) (v : ll_abi_t) : Prop :=
  a.handled_access_fs ≠ (masked_access a v).handled_access_fs ∨
  a.handled_access_net ≠ (masked_access a v).handled_access_net ∨
  a.scoped_ ≠ (masked_access a v).scoped_

instance (a : landlock_ruleset_attr) (v : ll_abi_t) : Decidable (masks_shrink a v) := by
  unfold masks_shrink; infer_instance

/-! ## Names for the steps of the rule functions -/

/-- The last step of `ll_ruleset_add_path_fd` and of `ll_ruleset_add_net_port`: the call
on the rule channel and the translation of its failure. -/
def submit_rule (K : Kernel) (ruleset_fd : Int) (rule : rule_attr) (flags : Nat) (t : Trace) :
    ll_error_t × Trace :=
  if (K t (.landlock_add_rule ruleset_fd rule flags)).ret < 0 then
    (ll_error_from_add_rule_errno (K t (.landlock_add_rule ruleset_fd rule flags)).errno,
      t ++ [⟨.landlock_add_rule ruleset_fd rule flags,
        K t (.landlock_add_rule ruleset_fd rule flags)⟩])
  else
    (LL_ERROR_OK,
      t ++ [⟨.landlock_add_rule ruleset_fd rule flags,
        K t (.landlock_add_rule ruleset_fd rule flags)⟩])

/-- The directory-only rights of `ll_ruleset_add_path_fd` (`dir_only_bits`). -/
def dir_only_bits : Nat :=
  LANDLOCK_ACCESS_FS_READ_DIR ||| LANDLOCK_ACCESS_FS_REMOVE_DIR ||| LANDLOCK_ACCESS_FS_MAKE_DIR

/-! ## Names for the steps of `ll_ruleset_enforce` -/

/-- The calls of the self-restriction channel in a history, each as
(ruleset handle, flags). -/
def restrict_calls (t : Trace) : List (Int × Nat) :=
  t.filterMap fun e =>
    match e.call with
    | .landlock_restrict_self fd flags => some (fd, flags)
    | _ => none

/-- The calls of the no-new-privileges toggle in a history, each with its answer. -/
def toggle_calls (t : Trace) : List Reply :=
  t.filterMap fun e =>
    match e.call with
    | .prctl_set_no_new_privs => some e.reply
    | _ => none

/-- The opening attempts of the diagnostic probe in a history, each with its answer. -/
def audit_probe_calls (t : Trace) : List Reply :=
  t.filterMap fun e =>
    match e.call with
    | .socket_netlink => some e.reply
    | _ => none

/-- The flags `ll_ruleset_enforce` knows (`known_flags`). -/
def known_flags : Nat :=
  LANDLOCK_RESTRICT_SELF_LOG_SAME_EXEC_OFF |||
  LANDLOCK_RESTRICT_SELF_LOG_NEW_EXEC_ON |||
  LANDLOCK_RESTRICT_SELF_LOG_SUBDOMAINS_OFF

/-- The history after the no-new-privileges toggle called at history `t`. -/
def trace_after_toggle (K : Kernel) (t : Trace) : Trace :=
  t ++ [⟨.prctl_set_no_new_privs, K t .prctl_set_no_new_privs⟩]

/-- The kernel's answer to the self-restriction call made right after the toggle that
was called at history `t`. -/
def restrict_reply (K : Kernel) (ruleset_fd : Int) (flags : Nat) (t : Trace) : Reply :=
  K (trace_after_toggle K t) (.landlock_restrict_self ruleset_fd flags)

/-- The last steps of `ll_ruleset_enforce`, from history `t` with the flags that are
left: the toggle, then the self-restriction call and the translation of its failure. -/
def enforce_finish (K : Kernel) (ruleset_fd : Int) (masked_flags : Nat) (t : Trace) :
    ll_error_t × Trace :=
  if (K t .prctl_set_no_new_privs).ret ≠ 0 then
    (LL_ERROR_SYSTEM, trace_after_toggle K t)
  else if (restrict_reply K ruleset_fd masked_flags t).ret < 0 then
    (ll_error_from_restrict_errno (restrict_reply K ruleset_fd masked_flags t).errno,
      trace_after_toggle K t ++ [⟨.landlock_restrict_self ruleset_fd masked_flags,
        restrict_reply K ruleset_fd masked_flags t⟩])
  else
    (LL_ERROR_OK,
      trace_after_toggle K t ++ [⟨.landlock_restrict_self ruleset_fd masked_flags,
        restrict_reply K ruleset_fd masked_flags t⟩])

/-! ## Names used by the table and end-to-end statements -/

/-- The twelve rights `ll_supported_access_fs` grants at every ABI. -/
def baseline_access_fs : Nat :=
  LANDLOCK_ACCESS_FS_EXECUTE ||| LANDLOCK_ACCESS_FS_WRITE_FILE |||
  LANDLOCK_ACCESS_FS_READ_FILE ||| LANDLOCK_ACCESS_FS_READ_DIR |||
  LANDLOCK_ACCESS_FS_REMOVE_DIR ||| LANDLOCK_ACCESS_FS_REMOVE_FILE |||
  LANDLOCK_ACCESS_FS_MAKE_CHAR ||| LANDLOCK_ACCESS_FS_MAKE_DIR |||
  LANDLOCK_ACCESS_FS_MAKE_REG ||| LANDLOCK_ACCESS_FS_MAKE_SOCK |||
  LANDLOCK_ACCESS_FS_MAKE_FIFO ||| LANDLOCK_ACCESS_FS_MAKE_BLOCK

/-- The errata probe: `landlock_create_ruleset(NULL, 0, LANDLOCK_CREATE_RULESET_ERRATA)`. -/
def errata_probe : Syscall :=
  .landlock_create_ruleset none 0 LANDLOCK_CREATE_RULESET_ERRATA

/-- The attribute `a` with its requested filesystem mask replaced by `fs`. -/
def set_access_fs (a : ll_ruleset_attr_t) (fs : Nat) : ll_ruleset_attr_t :=
  { abi := a.abi, compat_mode := a.compat_mode,
    access := ⟨fs, a.access.handled_access_net, a.access.scoped_⟩, flags := a.flags }

/-- The calls of the self-restriction channel in a history with their answers, each as
(ruleset handle, flags, answer). -/
def restrict_events (t : Trace) : List (Int × Nat × Reply) :=
  t.filterMap fun e =>
    match e.call with
    | .landlock_restrict_self fd flags => some (fd, flags, e.reply)
    | _ => none

/-- The number of rulesets composed on the thread according to a history: the
self-restriction calls in it that did not fail. -/
def composed_rulesets (t : Trace) : Nat :=
  t.countP fun e =>
    match e.call with
    | .landlock_restrict_self _ _ => decide (0 ≤ e.reply.ret)
    | _ => false

/-- Call `ll_ruleset_enforce` `n` times in a row with the same arguments, each call
starting from the history the previous one left; the results in order, and the final
history. -/
def enforce_repeat (K : Kernel) (ruleset : Option ll_ruleset) (flags : Nat) :
    Nat → Trace → List ll_error_t × Trace
  | 0, t => ([], t)
  | n + 1, t =>
    ((ll_ruleset_enforce K ruleset flags t).1 ::
        (enforce_repeat K ruleset flags n (ll_ruleset_enforce K ruleset flags t).2).1,
      (enforce_repeat K ruleset flags n (ll_ruleset_enforce K ruleset flags t).2).2)

/-! ## Names used by the taxonomy, ordering and resource statements -/

/-- The codes of the creation phase: the enumerators `LL_ERROR_RULESET_*`. -/
def creation_codes : List ll_error_t :=
  [LL_ERROR_RULESET_INCOMPATIBLE, LL_ERROR_RULESET_CREATE_DISABLED,
   LL_ERROR_RULESET_CREATE_INVALID, LL_ERROR_RULESET_CREATE_SIZE_TOO_BIG,
   LL_ERROR_RULESET_CREATE_BAD_ADDRESS, LL_ERROR_RULESET_CREATE_EMPTY_ACCESS]

/-- The codes of the rule-addition phase: the enumerators `LL_ERROR_ADD_RULE_*`. -/
def rule_codes : List ll_error_t :=
  [LL_ERROR_ADD_RULE_TCP_UNSUPPORTED, LL_ERROR_ADD_RULE_DISABLED,
   LL_ERROR_ADD_RULE_FLAGS_INVALID, LL_ERROR_ADD_RULE_INCONSISTENT_ACCESS,
   LL_ERROR_ADD_RULE_ACCESS_NOT_APPLICABLE, LL_ERROR_ADD_RULE_PORT_OUT_OF_RANGE,
   LL_ERROR_ADD_RULE_EMPTY_ACCESS, LL_ERROR_ADD_RULE_BAD_FD, LL_ERROR_ADD_RULE_BAD_FD_TYPE,
   LL_ERROR_ADD_RULE_NO_WRITE, LL_ERROR_ADD_RULE_BAD_ADDRESS]

/-- The codes of the restriction phase: the enumerators `LL_ERROR_RESTRICT_*`. -/
def restriction_codes : List ll_error_t :=
  [LL_ERROR_RESTRICT_DISABLED, LL_ERROR_RESTRICT_FLAGS_INVALID, LL_ERROR_RESTRICT_BAD_FD,
   LL_ERROR_RESTRICT_BAD_FD_TYPE, LL_ERROR_RESTRICT_NOT_PERMITTED,
   LL_ERROR_RESTRICT_LIMIT_REACHED, LL_ERROR_RESTRICT_PARTIAL_SANDBOX_STRICT]

/-- Every enumerator of `ll_error_t`, in the order of the header. -/
def all_codes : List ll_error_t :=
  [LL_ERROR_OK, LL_ERROR_OK_PARTIAL_SANDBOX, LL_ERROR_SYSTEM, LL_ERROR_INVALID_ARGUMENT,
   LL_ERROR_OUT_OF_MEMORY, LL_ERROR_UNSUPPORTED_SYSCALL] ++
  creation_codes ++ rule_codes ++ restriction_codes

/-- The effect of one recorded call on the list of open descriptors: a creation call, a
netlink socket or an `open` that did not fail adds the descriptor it returned, and
`close(fd)` removes one occurrence of `fd`. -/
def handles_step (l : List Int) (e : Event) : List Int :=
  match e.call with
  | .landlock_create_ruleset (some _) _ _ => if 0 ≤ e.reply.ret then e.reply.ret :: l else l
  | .socket_netlink => if 0 ≤ e.reply.ret then e.reply.ret :: l else l
  | .open_path _ => if 0 ≤ e.reply.ret then e.reply.ret :: l else l
  | .close fd => l.erase fd
  | _ => l

/-- The descriptors open after a history, the most recent first. -/
def open_handles (t : Trace) : List Int := t.foldl handles_step []

/-- The handles the creation channel returned in a history, oldest first. -/
def returned_handles (t : Trace) : List Int :=
  t.filterMap fun e =>
    match e.call with
    | .landlock_create_ruleset (some _) _ _ => if 0 ≤ e.reply.ret then some e.reply.ret else none
    | _ => none

/-- The descriptors passed to `close` in a history, oldest first. -/
def close_calls (t : Trace) : List Int :=
  t.filterMap fun e =>
    match e.call with
    | .close fd => some fd
    | _ => none

/-! ## Sample environments and inputs -/

/-- A sample environment: every version or errata probe answers `abi`, the creation
channel returns descriptor 3, `malloc` returns `ptr` (0 is `NULL`), `fstat` succeeds and
stores `st_mode`, and every other call returns 0. -/
def sample_kernel (abi : Int) (ptr : Int) (st_mode : Nat) : Kernel := fun _ c =>
  match c with
  | .landlock_create_ruleset none _ _ => ⟨abi, 0, 0⟩
  | .landlock_create_ruleset (some _) _ _ => ⟨3, 0, 0⟩
  | .malloc => ⟨ptr, 0, 0⟩
  | .fstat _ => ⟨0, 0, st_mode⟩
  | _ => ⟨0, 0, 0⟩

/-- A sample attribute: the given ABI and mode, a filesystem mask, nothing else. -/
def sample_attr (abi : ll_abi_t) (mode : ll_abi_compat_mode_t) (fs : Nat) : ll_ruleset_attr_t :=
  { abi := abi, compat_mode := mode, access := ⟨fs, 0, 0⟩, flags := 0 }

/-- A sample environment without the audit subsystem: opening the netlink socket fails
with `EPROTONOSUPPORT`; every other call returns 0. -/
def no_audit_kernel : Kernel := fun _ c =>
  match c with
  | .socket_netlink => ⟨-1, EPROTONOSUPPORT, 0⟩
  | _ => ⟨0, 0, 0⟩

/-- A sample environment in which no path can be opened: `open` fails with `ENOENT` (2);
every other call returns 0. -/
def no_open_kernel : Kernel := fun _ c =>
  match c with
  | .open_path _ => ⟨-1, 2, 0⟩
  | _ => ⟨0, 0, 0⟩

/-- A sample ruleset: descriptor 3, the given ABI and mode, `handled_access_fs = 12`
(`READ_FILE`, `READ_DIR`), `handled_access_net = net`, no scope. -/
def sample_ruleset (abi : ll_abi_t) (mode : ll_abi_compat_mode_t) (net : Nat) : ll_ruleset :=
  { ruleset_fd := 3, abi := abi, compat_mode := mode,
    handled_access_fs := 12, handled_access_net := net, handled_access_scope := 0 }

/-- A sample environment with the composition ceiling: the self-restriction call
returns 0 while fewer than 64 rulesets are composed and fails with `E2BIG` from then
on; every other call returns 0. -/
def limit_kernel : Kernel := fun h c =>
  match c with
  | .landlock_restrict_self _ _ =>
    if composed_rulesets h < 64 then ⟨0, 0, 0⟩ else ⟨-1, E2BIG, 0⟩
  | _ => ⟨0, 0, 0⟩

/-- A sample environment in which every call fails with the reason `e`. -/
def failing_kernel (e : Int) : Kernel := fun _ _ => ⟨-1, e, 0⟩

/-- A sample environment in which the probes answer `abi` and every other call, the
creation call included, fails with the reason `e`. -/
def creation_failing_kernel (abi : Int) (e : Int) : Kernel := fun _ c =>
  match c with
  | .landlock_create_ruleset none _ _ => ⟨abi, 0, 0⟩
  | _ => ⟨-1, e, 0⟩

/-- A sample environment in which the rule channel fails with the reason `e`, `fstat`
reports a directory, and every other call returns 0. -/
def rule_failing_kernel (e : Int) : Kernel := fun _ c =>
  match c with
  | .landlock_add_rule _ _ _ => ⟨-1, e, 0⟩
  | .fstat _ => ⟨0, 0, S_IFDIR⟩
  | _ => ⟨0, 0, 0⟩

/-! ## Basic facts -/

theorem sys_fst (K : Kernel) (c : Syscall) (t : Trace) : (sys K c t).1 = K t c := rfl

theorem sys_snd (K : Kernel) (c : Syscall) (t : Trace) :
    (sys K c t).2 = t ++ [⟨c, K t c⟩] := rfl

theorem creation_calls_append (t u : Trace) :
    creation_calls (t ++ u) = creation_calls t ++ creation_calls u := by
  simp [creation_calls, List.filterMap_append]

theorem rule_calls_append (t u : Trace) :
    rule_calls (t ++ u) = rule_calls t ++ rule_calls u := by
  simp [rule_calls, List.filterMap_append]

theorem resolve_trace (K : Kernel) (abi : ll_abi_t) (t : Trace) :
    (ll_resolve_abi K abi t).2 =
      if abi = LL_ABI_LATEST then t ++ [⟨version_probe, K t version_probe⟩] else t := by
  unfold ll_resolve_abi
  by_cases h : abi = LL_ABI_LATEST
  · simp only [h, if_true]
    split_ifs <;> rfl
  · simp only [h, if_false]

theorem creation_calls_resolve (K : Kernel) (abi : ll_abi_t) (t : Trace) :
    creation_calls (ll_resolve_abi K abi t).2 = creation_calls t := by
  rw [resolve_trace]
  split_ifs
  · simp [creation_calls_append]; simp [creation_calls, version_probe]
  · rfl

theorem creation_calls_at_creation (K : Kernel) (a : ll_ruleset_attr_t) (t : Trace) :
    creation_calls (trace_at_creation K a t) = creation_calls t := by
  simp only [trace_at_creation, sys_snd, creation_calls_append, creation_calls_resolve]
  simp [creation_calls, version_probe]

/-- The body of `ll_ruleset_create` for a non-null `out_ruleset`, step by step. -/
theorem ll_ruleset_create_steps (K : Kernel) (a : ll_ruleset_attr_t)
    (slot : Option ll_ruleset) (t : Trace) :
    ll_ruleset_create K a (some slot) t =
      if (probe_reply K a t).ret < 0 then
        (ll_error_from_create_ruleset_errno (probe_reply K a t).errno, some none,
          trace_at_creation K a t)
      else if a.compat_mode = LL_ABI_COMPAT_STRICT ∧
          (probe_reply K a t).ret < policy_abi K a t then
        (LL_ERROR_RULESET_INCOMPATIBLE, some none, trace_at_creation K a t)
      else if masks_empty a.access (effective_abi K a t) then
        (LL_ERROR_RULESET_CREATE_EMPTY_ACCESS, some none, trace_at_creation K a t)
      else if (creation_reply K a t).ret < 0 then
        (ll_error_from_create_ruleset_errno (creation_reply K a t).errno, some none,
          trace_after_creation K a t)
      else if (alloc_reply K a t).ret = 0 then
        (LL_ERROR_OUT_OF_MEMORY, some none,
          (sys K (.close (creation_reply K a t).ret) (trace_after_alloc K a t)).2)
      else if a.compat_mode = LL_ABI_COMPAT_STRICT then
        if masks_shrink a.access (effective_abi K a t) then
          (LL_ERROR_RESTRICT_PARTIAL_SANDBOX_STRICT, some none,
            ll_ruleset_close K (some (created_ruleset K a t)) (trace_after_alloc K a t))
        else (LL_ERROR_OK, some (some (created_ruleset K a t)), trace_after_alloc K a t)
      else
        if masks_shrink a.access (effective_abi K a t) then
          (LL_ERROR_OK_PARTIAL_SANDBOX, some (some (created_ruleset K a t)),
            trace_after_alloc K a t)
        else (LL_ERROR_OK, some (some (created_ruleset K a t)), trace_after_alloc K a t) := by
  rfl

theorem creation_calls_close (K : Kernel) (r : Option ll_ruleset) (t : Trace) :
    creation_calls (ll_ruleset_close K r t) = creation_calls t := by
  cases r with
  | none => rfl
  | some r =>
    simp only [ll_ruleset_close, sys_snd]
    split_ifs <;> simp [creation_calls_append] <;> simp [creation_calls]

theorem creation_calls_after_creation (K : Kernel) (a : ll_ruleset_attr_t) (t : Trace) :
    creation_calls (trace_after_creation K a t) =
      creation_calls t ++ [(masked_access a.access (effective_abi K a t),
        sizeof_landlock_ruleset_attr, u32_of_int (int_of_u32 a.flags))] := by
  simp only [trace_after_creation, sys_snd, creation_calls_append, creation_calls_at_creation]
  simp [creation_calls, creation_call]

theorem creation_calls_after_alloc (K : Kernel) (a : ll_ruleset_attr_t) (t : Trace) :
    creation_calls (trace_after_alloc K a t) =
      creation_calls t ++ [(masked_access a.access (effective_abi K a t),
        sizeof_landlock_ruleset_attr, u32_of_int (int_of_u32 a.flags))] := by
  simp only [trace_after_alloc, sys_snd, creation_calls_append, creation_calls_after_creation]
  simp [creation_calls]

theorem u32_of_int_of_u32 (x : Nat) : u32_of_int (int_of_u32 x) = x % 2 ^ 32 := by
  unfold u32_of_int int_of_u32
  have h : x % 2 ^ 32 < 2 ^ 32 := Nat.mod_lt _ (by norm_num)
  norm_num at h ⊢
  split_ifs <;> omega

/-! ## Bit masks -/

theorem testBit_of_lt_u64 {x i : Nat} (hx : x < 2 ^ 64) (hi : x.testBit i = true) : i < 64 := by
  by_contra h
  have h64 : 64 ≤ i := Nat.le_of_not_lt h
  have : x < 2 ^ i := lt_of_lt_of_le hx (Nat.pow_le_pow_right (by norm_num) h64)
  rw [Nat.testBit_lt_two_pow this] at hi
  exact Bool.noConfusion hi

theorem bits_subset_iff_testBit (a b : Nat) :
    bits_subset a b ↔ ∀ i, a.testBit i = true → b.testBit i = true := by
  unfold bits_subset
  constructor
  · intro h i hi
    have := congrArg (fun n => n.testBit i) h
    simp only [Nat.testBit_and, hi, Bool.true_and] at this
    exact this
  · intro h
    apply Nat.eq_of_testBit_eq
    intro i
    rw [Nat.testBit_and]
    cases hi : a.testBit i with
    | false => rfl
    | true => simp [h i hi]

theorem and_not_u64_eq_zero_iff (a b : Nat) (ha : a < 2 ^ 64) :
    a &&& not_u64 b = 0 ↔ bits_subset a b := by
  rw [bits_subset_iff_testBit]
  unfold not_u64
  constructor
  · intro h i hi
    have h1 := congrArg (fun n => n.testBit i) h
    have hlt : i < 64 := testBit_of_lt_u64 ha hi
    simp only [Nat.testBit_and, Nat.testBit_xor, Nat.testBit_two_pow_sub_one, hi, hlt,
      decide_True, Bool.true_and, Nat.zero_testBit] at h1
    cases hb : b.testBit i with
    | true => rfl
    | false => rw [hb] at h1; exact Bool.noConfusion h1
  · intro h
    apply Nat.eq_of_testBit_eq
    intro i
    rw [Nat.testBit_and, Nat.testBit_xor, Nat.testBit_two_pow_sub_one, Nat.zero_testBit]
    cases hi : a.testBit i with
    | false => rfl
    | true =>
      have hlt : i < 64 := testBit_of_lt_u64 ha hi
      simp [h i hi, hlt]

theorem or_eq_zero_iff_both (a b : Nat) : a ||| b = 0 ↔ a = 0 ∧ b = 0 := by
  constructor
  · intro h
    constructor
    · apply Nat.eq_of_testBit_eq
      intro i
      have := congrArg (fun n => n.testBit i) h
      simp only [Nat.testBit_or, Nat.zero_testBit, Bool.or_eq_false_iff] at this
      simp [this.1]
    · apply Nat.eq_of_testBit_eq
      intro i
      have := congrArg (fun n => n.testBit i) h
      simp only [Nat.testBit_or, Nat.zero_testBit, Bool.or_eq_false_iff] at this
      simp [this.2]
  · rintro ⟨rfl, rfl⟩
    rfl

theorem and_dir_only_ne_zero_iff (a x y z : Nat) :
    a &&& (x ||| y ||| z) ≠ 0 ↔ (a &&& x ≠ 0 ∨ a &&& y ≠ 0 ∨ a &&& z ≠ 0) := by
  rw [Nat.and_or_distrib_left, Nat.and_or_distrib_left, Ne, or_eq_zero_iff_both,
    or_eq_zero_iff_both]
  tauto

/-! ## Ruleset creation -/

/-- C1: in strict mode, whatever the kernel answers, a ruleset handed back by
`ll_ruleset_create` comes with the result `LL_ERROR_OK` and its three committed masks
are the requested masks of the attribute. -/
theorem strict_create_returns_requested_masks (K : Kernel) (a : ll_ruleset_attr_t)
    (out : Option (Option ll_ruleset)) (t : Trace) (r : ll_ruleset)
    (hstrict : a.compat_mode = LL_ABI_COMPAT_STRICT)
    (hret : (ll_ruleset_create K a out t).2.1 = some (some r)) :
    (ll_ruleset_create K a out t).1 = LL_ERROR_OK ∧
    r.handled_access_fs = a.access.handled_access_fs ∧
    r.handled_access_net = a.access.handled_access_net ∧
    r.handled_access_scope = a.access.scoped_ := by
  cases out with
  | none => simp [ll_ruleset_create] at hret
  | some slot =>
    rw [ll_ruleset_create_steps] at hret ⊢
    split_ifs at hret ⊢ <;> simp at hret
    rename_i hkeep
    subst hret
    simp only [masks_shrink, not_or, not_not] at hkeep
    exact ⟨rfl, hkeep.1.symm, hkeep.2.1.symm, hkeep.2.2.symm⟩

/-- C1, at a concrete input: strict mode at ABI 1 asking for `READ_FILE` under a kernel
of ABI 1; the ruleset handed back carries exactly that mask. -/
theorem strict_create_returns_requested_masks_witness :
    ll_ruleset_create (sample_kernel 1 1 0)
        (sample_attr 1 LL_ABI_COMPAT_STRICT LANDLOCK_ACCESS_FS_READ_FILE) (some none) []
      = (LL_ERROR_OK, some (some ⟨3, 1, LL_ABI_COMPAT_STRICT, 4, 0, 0⟩),
          [⟨version_probe, ⟨1, 0, 0⟩⟩,
           ⟨.landlock_create_ruleset (some ⟨4, 0, 0⟩) 24 0, ⟨3, 0, 0⟩⟩,
           ⟨.malloc, ⟨1, 0, 0⟩⟩]) ∧
    ((ll_ruleset_create (sample_kernel 1 1 0)
        (sample_attr 1 LL_ABI_COMPAT_STRICT LANDLOCK_ACCESS_FS_READ_FILE) (some none) []).1
      = LL_ERROR_OK ∧
    (⟨3, 1, LL_ABI_COMPAT_STRICT, 4, 0, 0⟩ : ll_ruleset).handled_access_fs =
      (sample_attr 1 LL_ABI_COMPAT_STRICT LANDLOCK_ACCESS_FS_READ_FILE).access.handled_access_fs ∧
    (⟨3, 1, LL_ABI_COMPAT_STRICT, 4, 0, 0⟩ : ll_ruleset).handled_access_net =
      (sample_attr 1 LL_ABI_COMPAT_STRICT LANDLOCK_ACCESS_FS_READ_FILE).access.handled_access_net ∧
    (⟨3, 1, LL_ABI_COMPAT_STRICT, 4, 0, 0⟩ : ll_ruleset).handled_access_scope =
      (sample_attr 1 LL_ABI_COMPAT_STRICT LANDLOCK_ACCESS_FS_READ_FILE).access.scoped_) :=
  ⟨by decide,
    strict_create_returns_requested_masks (sample_kernel 1 1 0)
      (sample_attr 1 LL_ABI_COMPAT_STRICT LANDLOCK_ACCESS_FS_READ_FILE) (some none) []
      ⟨3, 1, LL_ABI_COMPAT_STRICT, 4, 0, 0⟩ rfl (by decide)⟩

/-- C2 as stated fails, twice over.  Strict mode at ABI 1 asking for `REFER` alone under
a kernel of ABI 1 (the first witness named by the claim): the probe succeeds, the kernel
ABI is not below the requested one, no creation call is made, the intersection removes
the `REFER` bit, and the result is `LL_ERROR_RULESET_CREATE_EMPTY_ACCESS`.  Asking for
`READ_FILE` and `REFER` with `malloc` failing after a successful creation call: the
result is `LL_ERROR_OUT_OF_MEMORY`.  Neither is `LL_ERROR_RESTRICT_PARTIAL_SANDBOX_STRICT`. -/
theorem strict_create_lost_bits_counterexample :
    ((sample_attr 1 LL_ABI_COMPAT_STRICT LANDLOCK_ACCESS_FS_REFER).compat_mode
        = LL_ABI_COMPAT_STRICT ∧
      0 ≤ (probe_reply (sample_kernel 1 1 0)
          (sample_attr 1 LL_ABI_COMPAT_STRICT LANDLOCK_ACCESS_FS_REFER) []).ret ∧
      policy_abi (sample_kernel 1 1 0)
          (sample_attr 1 LL_ABI_COMPAT_STRICT LANDLOCK_ACCESS_FS_REFER) [] ≤
        (probe_reply (sample_kernel 1 1 0)
          (sample_attr 1 LL_ABI_COMPAT_STRICT LANDLOCK_ACCESS_FS_REFER) []).ret ∧
      masks_shrink (sample_attr 1 LL_ABI_COMPAT_STRICT LANDLOCK_ACCESS_FS_REFER).access
        (effective_abi (sample_kernel 1 1 0)
          (sample_attr 1 LL_ABI_COMPAT_STRICT LANDLOCK_ACCESS_FS_REFER) []) ∧
      creation_calls (ll_ruleset_create (sample_kernel 1 1 0)
          (sample_attr 1 LL_ABI_COMPAT_STRICT LANDLOCK_ACCESS_FS_REFER) (some none) []).2.2 = [] ∧
      (ll_ruleset_create (sample_kernel 1 1 0)
          (sample_attr 1 LL_ABI_COMPAT_STRICT LANDLOCK_ACCESS_FS_REFER) (some none) []).1
        = LL_ERROR_RULESET_CREATE_EMPTY_ACCESS) ∧
    (0 ≤ (probe_reply (sample_kernel 1 0 0)
          (sample_attr 1 LL_ABI_COMPAT_STRICT 8196) []).ret ∧
      policy_abi (sample_kernel 1 0 0) (sample_attr 1 LL_ABI_COMPAT_STRICT 8196) [] ≤
        (probe_reply (sample_kernel 1 0 0) (sample_attr 1 LL_ABI_COMPAT_STRICT 8196) []).ret ∧
      0 ≤ (creation_reply (sample_kernel 1 0 0)
          (sample_attr 1 LL_ABI_COMPAT_STRICT 8196) []).ret ∧
      masks_shrink (sample_attr 1 LL_ABI_COMPAT_STRICT 8196).access
        (effective_abi (sample_kernel 1 0 0) (sample_attr 1 LL_ABI_COMPAT_STRICT 8196) []) ∧
      (ll_ruleset_create (sample_kernel 1 0 0)
          (sample_attr 1 LL_ABI_COMPAT_STRICT 8196) (some none) []).1
        = LL_ERROR_OUT_OF_MEMORY) := by
  decide

/-- C2, amended: in strict mode, when the probe succeeds with a kernel ABI not below the
requested one, at least one mask is non-zero after the intersection, the creation call
succeeds and the ruleset object is allocated, a request that loses a bit in some class
fails with `LL_ERROR_RESTRICT_PARTIAL_SANDBOX_STRICT` and hands back no ruleset. -/
theorem strict_create_lost_bits_fails (K : Kernel) (a : ll_ruleset_attr_t)
    (slot : Option ll_ruleset) (t : Trace)
    (hstrict : a.compat_mode = LL_ABI_COMPAT_STRICT)
    (hprobe : 0 ≤ (probe_reply K a t).ret)
    (habi : policy_abi K a t ≤ (probe_reply K a t).ret)
    (hnonempty : ¬ masks_empty a.access (effective_abi K a t))
    (hcreate : 0 ≤ (creation_reply K a t).ret)
    (halloc : (alloc_reply K a t).ret ≠ 0)
    (hlost : masks_shrink a.access (effective_abi K a t)) :
    (ll_ruleset_create K a (some slot) t).1 = LL_ERROR_RESTRICT_PARTIAL_SANDBOX_STRICT ∧
    (ll_ruleset_create K a (some slot) t).2.1 = some none := by
  have h1 : ¬ (probe_reply K a t).ret < 0 := not_lt.mpr hprobe
  have h2 : ¬ (a.compat_mode = LL_ABI_COMPAT_STRICT ∧
      (probe_reply K a t).ret < policy_abi K a t) := fun h => absurd h.2 (not_lt.mpr habi)
  have h4 : ¬ (creation_reply K a t).ret < 0 := not_lt.mpr hcreate
  rw [ll_ruleset_create_steps, if_neg h1, if_neg h2, if_neg hnonempty, if_neg h4,
    if_neg halloc, if_pos hstrict, if_pos hlost]
  exact ⟨rfl, rfl⟩

/-- C2 amended, at a concrete input: strict mode at ABI 1 asking for `READ_FILE` and
`REFER` (8196) under a kernel of ABI 1. -/
theorem strict_create_lost_bits_fails_witness :
    masks_shrink (sample_attr 1 LL_ABI_COMPAT_STRICT 8196).access
      (effective_abi (sample_kernel 1 1 0) (sample_attr 1 LL_ABI_COMPAT_STRICT 8196) []) ∧
    (ll_ruleset_create (sample_kernel 1 1 0) (sample_attr 1 LL_ABI_COMPAT_STRICT 8196)
        (some none) []).1 = LL_ERROR_RESTRICT_PARTIAL_SANDBOX_STRICT ∧
    (ll_ruleset_create (sample_kernel 1 1 0) (sample_attr 1 LL_ABI_COMPAT_STRICT 8196)
        (some none) []).2.1 = some none :=
  ⟨by decide,
    strict_create_lost_bits_fails (sample_kernel 1 1 0) (sample_attr 1 LL_ABI_COMPAT_STRICT 8196)
      none [] rfl (by decide) (by decide) (by decide) (by decide) (by decide) (by decide)⟩

/-- C3 as stated fails: best-effort mode at ABI 1 asking for `READ_FILE` under a kernel
of ABI 1, with the probe and the creation call succeeding and a non-zero mask left, but
`malloc` returning `NULL`: no ruleset is handed back and the result is
`LL_ERROR_OUT_OF_MEMORY`. -/
theorem best_effort_create_counterexample :
    (sample_attr 1 LL_ABI_COMPAT_BEST_EFFORT LANDLOCK_ACCESS_FS_READ_FILE).compat_mode
      = LL_ABI_COMPAT_BEST_EFFORT ∧
    0 ≤ (probe_reply (sample_kernel 1 0 0)
        (sample_attr 1 LL_ABI_COMPAT_BEST_EFFORT LANDLOCK_ACCESS_FS_READ_FILE) []).ret ∧
    ¬ masks_empty (sample_attr 1 LL_ABI_COMPAT_BEST_EFFORT LANDLOCK_ACCESS_FS_READ_FILE).access
        (effective_abi (sample_kernel 1 0 0)
          (sample_attr 1 LL_ABI_COMPAT_BEST_EFFORT LANDLOCK_ACCESS_FS_READ_FILE) []) ∧
    0 ≤ (creation_reply (sample_kernel 1 0 0)
        (sample_attr 1 LL_ABI_COMPAT_BEST_EFFORT LANDLOCK_ACCESS_FS_READ_FILE) []).ret ∧
    ll_ruleset_create (sample_kernel 1 0 0)
        (sample_attr 1 LL_ABI_COMPAT_BEST_EFFORT LANDLOCK_ACCESS_FS_READ_FILE) (some none) []
      = (LL_ERROR_OUT_OF_MEMORY, some none,
          [⟨version_probe, ⟨1, 0, 0⟩⟩,
           ⟨.landlock_create_ruleset (some ⟨4, 0, 0⟩) 24 0, ⟨3, 0, 0⟩⟩,
           ⟨.malloc, ⟨0, 0, 0⟩⟩,
           ⟨.close 3, ⟨0, 0, 0⟩⟩]) := by
  decide

/-- C3, amended: in best-effort mode, when the probe succeeds, at least one mask is
non-zero after the intersection, the creation call succeeds and the ruleset object is
allocated, `ll_ruleset_create` hands back a ruleset; the result is
`LL_ERROR_OK_PARTIAL_SANDBOX` exactly when some committed mask differs from the
requested one, and `LL_ERROR_OK` exactly when none does. -/
theorem best_effort_create_tags_partial (K : Kernel) (a : ll_ruleset_attr_t)
    (slot : Option ll_ruleset) (t : Trace)
    (hmode : a.compat_mode = LL_ABI_COMPAT_BEST_EFFORT)
    (hprobe : 0 ≤ (probe_reply K a t).ret)
    (hnonempty : ¬ masks_empty a.access (effective_abi K a t))
    (hcreate : 0 ≤ (creation_reply K a t).ret)
    (halloc : (alloc_reply K a t).ret ≠ 0) :
    ∃ r : ll_ruleset,
      (ll_ruleset_create K a (some slot) t).2.1 = some (some r) ∧
      ((ll_ruleset_create K a (some slot) t).1 = LL_ERROR_OK_PARTIAL_SANDBOX ↔
        (r.handled_access_fs ≠ a.access.handled_access_fs ∨
         r.handled_access_net ≠ a.access.handled_access_net ∨
         r.handled_access_scope ≠ a.access.scoped_)) ∧
      ((ll_ruleset_create K a (some slot) t).1 = LL_ERROR_OK ↔
        ¬ (r.handled_access_fs ≠ a.access.handled_access_fs ∨
           r.handled_access_net ≠ a.access.handled_access_net ∨
           r.handled_access_scope ≠ a.access.scoped_)) := by
  have h1 : ¬ (probe_reply K a t).ret < 0 := not_lt.mpr hprobe
  have h2 : ¬ (a.compat_mode = LL_ABI_COMPAT_STRICT ∧
      (probe_reply K a t).ret < policy_abi K a t) := by
    rw [hmode]; exact fun h => absurd h.1 (by decide)
  have h4 : ¬ (creation_reply K a t).ret < 0 := not_lt.mpr hcreate
  have h6 : ¬ a.compat_mode = LL_ABI_COMPAT_STRICT := by rw [hmode]; decide
  have hshrink : masks_shrink a.access (effective_abi K a t) ↔
      ((created_ruleset K a t).handled_access_fs ≠ a.access.handled_access_fs ∨
       (created_ruleset K a t).handled_access_net ≠ a.access.handled_access_net ∨
       (created_ruleset K a t).handled_access_scope ≠ a.access.scoped_) := by
    simp only [masks_shrink, created_ruleset, ne_comm]
  refine ⟨created_ruleset K a t, ?_⟩
  rw [ll_ruleset_create_steps, if_neg h1, if_neg h2, if_neg hnonempty, if_neg h4,
    if_neg halloc, if_neg h6, ← hshrink]
  by_cases hs : masks_shrink a.access (effective_abi K a t)
  · rw [if_pos hs]; simp [hs]
  · rw [if_neg hs]; simp [hs]

/-- C3 amended, at a concrete input: best-effort mode at ABI 1 asking for `READ_FILE`
and `REFER` (8196) under a kernel of ABI 1; the ruleset keeps `READ_FILE` only and the
result is tagged partial. -/
theorem best_effort_create_tags_partial_witness :
    ll_ruleset_create (sample_kernel 1 1 0) (sample_attr 1 LL_ABI_COMPAT_BEST_EFFORT 8196)
        (some none) []
      = (LL_ERROR_OK_PARTIAL_SANDBOX, some (some ⟨3, 1, LL_ABI_COMPAT_BEST_EFFORT, 4, 0, 0⟩),
          [⟨version_probe, ⟨1, 0, 0⟩⟩,
           ⟨.landlock_create_ruleset (some ⟨4, 0, 0⟩) 24 0, ⟨3, 0, 0⟩⟩,
           ⟨.malloc, ⟨1, 0, 0⟩⟩]) ∧
    ∃ r : ll_ruleset,
      (ll_ruleset_create (sample_kernel 1 1 0) (sample_attr 1 LL_ABI_COMPAT_BEST_EFFORT 8196)
        (some none) []).2.1 = some (some r) ∧
      ((ll_ruleset_create (sample_kernel 1 1 0) (sample_attr 1 LL_ABI_COMPAT_BEST_EFFORT 8196)
          (some none) []).1 = LL_ERROR_OK_PARTIAL_SANDBOX ↔
        (r.handled_access_fs ≠ 8196 ∨ r.handled_access_net ≠ 0 ∨
          r.handled_access_scope ≠ 0)) ∧
      ((ll_ruleset_create (sample_kernel 1 1 0) (sample_attr 1 LL_ABI_COMPAT_BEST_EFFORT 8196)
          (some none) []).1 = LL_ERROR_OK ↔
        ¬ (r.handled_access_fs ≠ 8196 ∨ r.handled_access_net ≠ 0 ∨
          r.handled_access_scope ≠ 0)) :=
  ⟨by decide,
    best_effort_create_tags_partial (sample_kernel 1 1 0)
      (sample_attr 1 LL_ABI_COMPAT_BEST_EFFORT 8196) none [] rfl (by decide) (by decide)
      (by decide) (by decide)⟩

/-- C4: in either mode, when the probe succeeds, the strict ABI check passes and all three
masks are zero after the intersection at the effective ABI, `ll_ruleset_create` fails
with `LL_ERROR_RULESET_CREATE_EMPTY_ACCESS`, hands back no ruleset and makes no call on
the creation channel. -/
theorem create_empty_access (K : Kernel) (a : ll_ruleset_attr_t)
    (slot : Option ll_ruleset) (t : Trace)
    (hprobe : 0 ≤ (probe_reply K a t).ret)
    (hpass : ¬ (a.compat_mode = LL_ABI_COMPAT_STRICT ∧
      (probe_reply K a t).ret < policy_abi K a t))
    (hempty : masks_empty a.access (effective_abi K a t)) :
    (ll_ruleset_create K a (some slot) t).1 = LL_ERROR_RULESET_CREATE_EMPTY_ACCESS ∧
    (ll_ruleset_create K a (some slot) t).2.1 = some none ∧
    creation_calls (ll_ruleset_create K a (some slot) t).2.2 = creation_calls t := by
  have h1 : ¬ (probe_reply K a t).ret < 0 := not_lt.mpr hprobe
  rw [ll_ruleset_create_steps, if_neg h1, if_neg hpass, if_pos hempty]
  exact ⟨rfl, rfl, creation_calls_at_creation K a t⟩

/-- C4, at concrete inputs: ABI 1 asking for `REFER` alone under a kernel of ABI 1, in
strict mode. -/
theorem create_empty_access_witness :
    masks_empty (sample_attr 1 LL_ABI_COMPAT_STRICT LANDLOCK_ACCESS_FS_REFER).access
      (effective_abi (sample_kernel 1 1 0)
        (sample_attr 1 LL_ABI_COMPAT_STRICT LANDLOCK_ACCESS_FS_REFER) []) ∧
    (ll_ruleset_create (sample_kernel 1 1 0)
        (sample_attr 1 LL_ABI_COMPAT_STRICT LANDLOCK_ACCESS_FS_REFER) (some none) []).1
      = LL_ERROR_RULESET_CREATE_EMPTY_ACCESS ∧
    (ll_ruleset_create (sample_kernel 1 1 0)
        (sample_attr 1 LL_ABI_COMPAT_STRICT LANDLOCK_ACCESS_FS_REFER) (some none) []).2.1
      = some none ∧
    creation_calls (ll_ruleset_create (sample_kernel 1 1 0)
        (sample_attr 1 LL_ABI_COMPAT_STRICT LANDLOCK_ACCESS_FS_REFER) (some none) []).2.2
      = creation_calls [] :=
  ⟨by decide,
    create_empty_access (sample_kernel 1 1 0)
      (sample_attr 1 LL_ABI_COMPAT_STRICT LANDLOCK_ACCESS_FS_REFER) none []
      (by decide) (by decide) (by decide)⟩

/-- C5: in strict mode, when the probe succeeds with a kernel ABI below the requested
(resolved) ABI, `ll_ruleset_create` fails with `LL_ERROR_RULESET_INCOMPATIBLE` whatever
masks were requested, hands back no ruleset and makes no call on the creation channel. -/
theorem strict_create_incompatible (K : Kernel) (a : ll_ruleset_attr_t)
    (slot : Option ll_ruleset) (t : Trace)
    (hstrict : a.compat_mode = LL_ABI_COMPAT_STRICT)
    (hprobe : 0 ≤ (probe_reply K a t).ret)
    (hbelow : (probe_reply K a t).ret < policy_abi K a t) :
    (ll_ruleset_create K a (some slot) t).1 = LL_ERROR_RULESET_INCOMPATIBLE ∧
    (ll_ruleset_create K a (some slot) t).2.1 = some none ∧
    creation_calls (ll_ruleset_create K a (some slot) t).2.2 = creation_calls t := by
  have h1 : ¬ (probe_reply K a t).ret < 0 := not_lt.mpr hprobe
  rw [ll_ruleset_create_steps, if_neg h1, if_pos ⟨hstrict, hbelow⟩]
  exact ⟨rfl, rfl, creation_calls_at_creation K a t⟩

/-- C5, at a concrete input: strict mode asking for ABI 6 and `READ_FILE` under a kernel
of ABI 3. -/
theorem strict_create_incompatible_witness :
    (probe_reply (sample_kernel 3 1 0) (sample_attr 6 LL_ABI_COMPAT_STRICT 4) []).ret = 3 ∧
    policy_abi (sample_kernel 3 1 0) (sample_attr 6 LL_ABI_COMPAT_STRICT 4) [] = 6 ∧
    (ll_ruleset_create (sample_kernel 3 1 0) (sample_attr 6 LL_ABI_COMPAT_STRICT 4)
        (some none) []).1 = LL_ERROR_RULESET_INCOMPATIBLE ∧
    (ll_ruleset_create (sample_kernel 3 1 0) (sample_attr 6 LL_ABI_COMPAT_STRICT 4)
        (some none) []).2.1 = some none ∧
    creation_calls (ll_ruleset_create (sample_kernel 3 1 0) (sample_attr 6 LL_ABI_COMPAT_STRICT 4)
        (some none) []).2.2 = creation_calls [] :=
  ⟨by decide, by decide,
    strict_create_incompatible (sample_kernel 3 1 0) (sample_attr 6 LL_ABI_COMPAT_STRICT 4)
      none [] rfl (by decide) (by decide)⟩

theorem create_errno_not_success (err : Int) :
    ¬ (ll_error_from_create_ruleset_errno err = LL_ERROR_OK ∨
      ll_error_from_create_ruleset_errno err = LL_ERROR_OK_PARTIAL_SANDBOX) := by
  unfold ll_error_from_create_ruleset_errno ll_error_system ll_error_with_errno
  split_ifs <;> decide

/-- C6: whenever `ll_ruleset_create` succeeds (`LL_ERROR_OK` or
`LL_ERROR_OK_PARTIAL_SANDBOX`) it hands back a ruleset that records the attribute's
mode, and as its ABI the kernel ABI when the mode is best-effort and the kernel ABI is
below the requested (resolved) ABI, and the requested ABI in every other case; the
requested ABI is the attribute's own ABI unless that is the `latest` selector. -/
theorem create_records_mode_and_effective_abi (K : Kernel) (a : ll_ruleset_attr_t)
    (out : Option (Option ll_ruleset)) (t : Trace)
    (hok : (ll_ruleset_create K a out t).1 = LL_ERROR_OK ∨
      (ll_ruleset_create K a out t).1 = LL_ERROR_OK_PARTIAL_SANDBOX) :
    ∃ r : ll_ruleset, (ll_ruleset_create K a out t).2.1 = some (some r) ∧
      r.compat_mode = a.compat_mode ∧
      (a.compat_mode = LL_ABI_COMPAT_BEST_EFFORT ∧
          (probe_reply K a t).ret < policy_abi K a t → r.abi = (probe_reply K a t).ret) ∧
      (¬ (a.compat_mode = LL_ABI_COMPAT_BEST_EFFORT ∧
          (probe_reply K a t).ret < policy_abi K a t) → r.abi = policy_abi K a t) ∧
      (a.abi ≠ LL_ABI_LATEST → policy_abi K a t = a.abi) := by
  have hpol : a.abi ≠ LL_ABI_LATEST → policy_abi K a t = a.abi := by
    intro h
    simp only [policy_abi, ll_resolve_abi, if_neg h]
  have hcr : (created_ruleset K a t).compat_mode = a.compat_mode ∧
      (a.compat_mode = LL_ABI_COMPAT_BEST_EFFORT ∧
        (probe_reply K a t).ret < policy_abi K a t →
          (created_ruleset K a t).abi = (probe_reply K a t).ret) ∧
      (¬ (a.compat_mode = LL_ABI_COMPAT_BEST_EFFORT ∧
        (probe_reply K a t).ret < policy_abi K a t) →
          (created_ruleset K a t).abi = policy_abi K a t) := by
    refine ⟨rfl, fun h => ?_, fun h => ?_⟩
    · simp only [created_ruleset, effective_abi, if_pos h]
    · simp only [created_ruleset, effective_abi, if_neg h]
  cases out with
  | none =>
    exfalso
    rcases hok with h | h <;> exact ll_error_t.noConfusion h
  | some slot =>
    rw [ll_ruleset_create_steps] at hok ⊢
    split_ifs at hok ⊢
    · exact absurd hok (create_errno_not_success _)
    · exact absurd hok (by decide)
    · exact absurd hok (by decide)
    · exact absurd hok (create_errno_not_success _)
    · exact absurd hok (by decide)
    · exact absurd hok (by decide)
    · exact ⟨_, rfl, hcr.1, hcr.2.1, hcr.2.2, hpol⟩
    · exact ⟨_, rfl, hcr.1, hcr.2.1, hcr.2.2, hpol⟩
    · exact ⟨_, rfl, hcr.1, hcr.2.1, hcr.2.2, hpol⟩

/-- C6, at a concrete input: best-effort mode asking for ABI 6 and `READ_FILE` under a
kernel of ABI 3; the call succeeds with `LL_ERROR_OK` and the ruleset records ABI 3 and
the best-effort mode. -/
theorem create_records_mode_and_effective_abi_witness :
    ll_ruleset_create (sample_kernel 3 1 0) (sample_attr 6 LL_ABI_COMPAT_BEST_EFFORT 4)
        (some none) []
      = (LL_ERROR_OK, some (some ⟨3, 3, LL_ABI_COMPAT_BEST_EFFORT, 4, 0, 0⟩),
          [⟨version_probe, ⟨3, 0, 0⟩⟩,
           ⟨.landlock_create_ruleset (some ⟨4, 0, 0⟩) 24 0, ⟨3, 0, 0⟩⟩,
           ⟨.malloc, ⟨1, 0, 0⟩⟩]) ∧
    ∃ r : ll_ruleset,
      (ll_ruleset_create (sample_kernel 3 1 0) (sample_attr 6 LL_ABI_COMPAT_BEST_EFFORT 4)
        (some none) []).2.1 = some (some r) ∧
      r.compat_mode = (sample_attr 6 LL_ABI_COMPAT_BEST_EFFORT 4).compat_mode ∧
      ((sample_attr 6 LL_ABI_COMPAT_BEST_EFFORT 4).compat_mode = LL_ABI_COMPAT_BEST_EFFORT ∧
          (probe_reply (sample_kernel 3 1 0) (sample_attr 6 LL_ABI_COMPAT_BEST_EFFORT 4) []).ret
            < policy_abi (sample_kernel 3 1 0) (sample_attr 6 LL_ABI_COMPAT_BEST_EFFORT 4) [] →
        r.abi =
          (probe_reply (sample_kernel 3 1 0) (sample_attr 6 LL_ABI_COMPAT_BEST_EFFORT 4) []).ret) ∧
      (¬ ((sample_attr 6 LL_ABI_COMPAT_BEST_EFFORT 4).compat_mode = LL_ABI_COMPAT_BEST_EFFORT ∧
          (probe_reply (sample_kernel 3 1 0) (sample_attr 6 LL_ABI_COMPAT_BEST_EFFORT 4) []).ret
            < policy_abi (sample_kernel 3 1 0) (sample_attr 6 LL_ABI_COMPAT_BEST_EFFORT 4) []) →
        r.abi =
          policy_abi (sample_kernel 3 1 0) (sample_attr 6 LL_ABI_COMPAT_BEST_EFFORT 4) []) ∧
      ((sample_attr 6 LL_ABI_COMPAT_BEST_EFFORT 4).abi ≠ LL_ABI_LATEST →
        policy_abi (sample_kernel 3 1 0) (sample_attr 6 LL_ABI_COMPAT_BEST_EFFORT 4) [] =
          (sample_attr 6 LL_ABI_COMPAT_BEST_EFFORT 4).abi) :=
  ⟨by decide,
    create_records_mode_and_effective_abi (sample_kernel 3 1 0)
      (sample_attr 6 LL_ABI_COMPAT_BEST_EFFORT 4) (some none) [] (Or.inl (by decide))⟩

/-- C7: whatever the kernel answers, `ll_ruleset_create` makes at most one call on the
creation channel, and that call submits, class by class, the requested mask intersected
with the mask supported at the effective ABI (filesystem, network and scope tables),
the size of the attribute, and the attribute's flags as a 32-bit value; a ruleset handed
back records those same three masks. -/
theorem create_submits_intersected_masks (K : Kernel) (a : ll_ruleset_attr_t)
    (out : Option (Option ll_ruleset)) (t : Trace) :
    (creation_calls (ll_ruleset_create K a out t).2.2 = creation_calls t ∨
      creation_calls (ll_ruleset_create K a out t).2.2 = creation_calls t ++
        [(⟨a.access.handled_access_fs &&& ll_supported_access_fs (effective_abi K a t),
           a.access.handled_access_net &&& ll_supported_access_net (effective_abi K a t),
           a.access.scoped_ &&& ll_supported_scopes (effective_abi K a t)⟩,
          sizeof_landlock_ruleset_attr, a.flags % 2 ^ 32)]) ∧
    ∀ r : ll_ruleset, (ll_ruleset_create K a out t).2.1 = some (some r) →
      (creation_calls (ll_ruleset_create K a out t).2.2 = creation_calls t ++
        [(⟨r.handled_access_fs, r.handled_access_net, r.handled_access_scope⟩,
          sizeof_landlock_ruleset_attr, a.flags % 2 ^ 32)]) ∧
      r.handled_access_fs =
        a.access.handled_access_fs &&& ll_supported_access_fs (effective_abi K a t) ∧
      r.handled_access_net =
        a.access.handled_access_net &&& ll_supported_access_net (effective_abi K a t) ∧
      r.handled_access_scope =
        a.access.scoped_ &&& ll_supported_scopes (effective_abi K a t) := by
  cases out with
  | none => simp [ll_ruleset_create]
  | some slot =>
    have hA := creation_calls_at_creation K a t
    have hB := creation_calls_after_creation K a t
    have hC := creation_calls_after_alloc K a t
    rw [u32_of_int_of_u32] at hB hC
    rw [ll_ruleset_create_steps]
    split_ifs
    · exact ⟨Or.inl hA, by simp⟩
    · exact ⟨Or.inl hA, by simp⟩
    · exact ⟨Or.inl hA, by simp⟩
    · exact ⟨Or.inr hB, by simp⟩
    · refine ⟨Or.inr ?_, by simp⟩
      simp only [sys_snd, creation_calls_append, hC]
      simp [creation_calls]
      rfl
    · refine ⟨Or.inr ?_, by simp⟩
      simp only [creation_calls_close, hC]
      rfl
    · refine ⟨Or.inr hC, ?_⟩
      intro r hr
      simp at hr
      subst hr
      exact ⟨hC, rfl, rfl, rfl⟩
    · refine ⟨Or.inr hC, ?_⟩
      intro r hr
      simp at hr
      subst hr
      exact ⟨hC, rfl, rfl, rfl⟩
    · refine ⟨Or.inr hC, ?_⟩
      intro r hr
      simp at hr
      subst hr
      exact ⟨hC, rfl, rfl, rfl⟩

/-- C7, at a concrete input: best-effort mode asking for ABI 6, `READ_FILE` and `REFER`
(8196) under a kernel of ABI 1; the one creation call submits `READ_FILE` alone, which is
what the ruleset records. -/
theorem create_submits_intersected_masks_witness :
    creation_calls (ll_ruleset_create (sample_kernel 1 1 0)
        (sample_attr 6 LL_ABI_COMPAT_BEST_EFFORT 8196) (some none) []).2.2
      = [(⟨4, 0, 0⟩, 24, 0)] ∧
    (creation_calls (ll_ruleset_create (sample_kernel 1 1 0)
        (sample_attr 6 LL_ABI_COMPAT_BEST_EFFORT 8196) (some none) []).2.2
      = creation_calls [] ++ [(⟨4, 0, 0⟩, sizeof_landlock_ruleset_attr,
          (sample_attr 6 LL_ABI_COMPAT_BEST_EFFORT 8196).flags % 2 ^ 32)] ∧
    (4 : Nat) = (sample_attr 6 LL_ABI_COMPAT_BEST_EFFORT 8196).access.handled_access_fs &&&
      ll_supported_access_fs (effective_abi (sample_kernel 1 1 0)
        (sample_attr 6 LL_ABI_COMPAT_BEST_EFFORT 8196) []) ∧
    (0 : Nat) = (sample_attr 6 LL_ABI_COMPAT_BEST_EFFORT 8196).access.handled_access_net &&&
      ll_supported_access_net (effective_abi (sample_kernel 1 1 0)
        (sample_attr 6 LL_ABI_COMPAT_BEST_EFFORT 8196) []) ∧
    (0 : Nat) = (sample_attr 6 LL_ABI_COMPAT_BEST_EFFORT 8196).access.scoped_ &&&
      ll_supported_scopes (effective_abi (sample_kernel 1 1 0)
        (sample_attr 6 LL_ABI_COMPAT_BEST_EFFORT 8196) [])) :=
  ⟨by decide,
    (create_submits_intersected_masks (sample_kernel 1 1 0)
      (sample_attr 6 LL_ABI_COMPAT_BEST_EFFORT 8196) (some none) []).2
      ⟨3, 1, LL_ABI_COMPAT_BEST_EFFORT, 4, 0, 0⟩ (by decide)⟩

/-! ## Rules -/

/-- The body of `ll_ruleset_add_path_fd` for a non-null ruleset, step by step. -/
theorem ll_ruleset_add_path_fd_steps (K : Kernel) (r : ll_ruleset) (dir_fd : Int)
    (access_masks flags : Nat) (t : Trace) :
    ll_ruleset_add_path_fd K (some r) dir_fd access_masks flags t =
      if r.ruleset_fd < 0 ∨ dir_fd < 0 then (LL_ERROR_ADD_RULE_BAD_FD, t)
      else if flags ≠ 0 then (LL_ERROR_ADD_RULE_FLAGS_INVALID, t)
      else if access_masks = 0 then (LL_ERROR_ADD_RULE_EMPTY_ACCESS, t)
      else if access_masks &&& not_u64 r.handled_access_fs ≠ 0 then
        (LL_ERROR_ADD_RULE_INCONSISTENT_ACCESS, t)
      else if access_masks &&& dir_only_bits ≠ 0 then
        if (K t (.fstat dir_fd)).ret ≠ 0 then
          (LL_ERROR_SYSTEM, t ++ [⟨.fstat dir_fd, K t (.fstat dir_fd)⟩])
        else if ¬ S_ISDIR (K t (.fstat dir_fd)).st_mode then
          (LL_ERROR_ADD_RULE_ACCESS_NOT_APPLICABLE, t ++ [⟨.fstat dir_fd, K t (.fstat dir_fd)⟩])
        else
          submit_rule K r.ruleset_fd (.path_beneath access_masks dir_fd) flags
            (t ++ [⟨.fstat dir_fd, K t (.fstat dir_fd)⟩])
      else submit_rule K r.ruleset_fd (.path_beneath access_masks dir_fd) flags t := by
  rfl

/-- The body of `ll_ruleset_add_net_port` for a non-null ruleset, step by step. -/
theorem ll_ruleset_add_net_port_steps (K : Kernel) (r : ll_ruleset)
    (port access_masks flags : Nat) (t : Trace) :
    ll_ruleset_add_net_port K (some r) port access_masks flags t =
      if r.ruleset_fd < 0 then (LL_ERROR_ADD_RULE_BAD_FD, t)
      else if flags ≠ 0 then (LL_ERROR_ADD_RULE_FLAGS_INVALID, t)
      else if access_masks = 0 then (LL_ERROR_ADD_RULE_EMPTY_ACCESS, t)
      else if port > 65535 then (LL_ERROR_ADD_RULE_PORT_OUT_OF_RANGE, t)
      else if r.handled_access_net = 0 then (LL_ERROR_ADD_RULE_TCP_UNSUPPORTED, t)
      else if access_masks &&& not_u64 r.handled_access_net ≠ 0 then
        (LL_ERROR_ADD_RULE_INCONSISTENT_ACCESS, t)
      else submit_rule K r.ruleset_fd (.net_port access_masks port) flags t := by
  rfl

theorem add_rule_errno_ne_ok (err : Int) : ll_error_from_add_rule_errno err ≠ LL_ERROR_OK := by
  unfold ll_error_from_add_rule_errno ll_error_system ll_error_with_errno
  split_ifs <;> exact fun h => ll_error_t.noConfusion h

theorem add_rule_errno_code_neg (err : Int) : (ll_error_from_add_rule_errno err).code < 0 := by
  unfold ll_error_from_add_rule_errno ll_error_system ll_error_with_errno
  split_ifs <;> decide

theorem rule_calls_submit (K : Kernel) (fd : Int) (rule : rule_attr) (flags : Nat) (t : Trace) :
    rule_calls (submit_rule K fd rule flags t).2 = rule_calls t ++ [(fd, rule, flags)] := by
  unfold submit_rule
  split_ifs <;> simp [rule_calls_append] <;> simp [rule_calls]

theorem rule_calls_fstat (K : Kernel) (fd : Int) (t : Trace) :
    rule_calls (t ++ [⟨.fstat fd, K t (.fstat fd)⟩]) = rule_calls t := by
  simp [rule_calls_append]; simp [rule_calls]

/-- C8: the committed masks bound every rule.  A call of `ll_ruleset_add_path_fd` either
submits nothing to the rule channel and does not return `LL_ERROR_OK`, or submits exactly
one path rule, with flags 0 and access bits that are a non-empty subset of the ruleset's
`handled_access_fs`; likewise `ll_ruleset_add_net_port` with `handled_access_net`. -/
theorem rules_within_committed_masks (K : Kernel) (ruleset : Option ll_ruleset)
    (dir_fd : Int) (port access_masks flags : Nat) (t : Trace)
    (hacc : access_masks < 2 ^ 64) :
    ((rule_calls (ll_ruleset_add_path_fd K ruleset dir_fd access_masks flags t).2
          = rule_calls t ∧
        (ll_ruleset_add_path_fd K ruleset dir_fd access_masks flags t).1 ≠ LL_ERROR_OK) ∨
      ∃ r : ll_ruleset, ruleset = some r ∧
        rule_calls (ll_ruleset_add_path_fd K ruleset dir_fd access_masks flags t).2
          = rule_calls t ++ [(r.ruleset_fd, .path_beneath access_masks dir_fd, 0)] ∧
        flags = 0 ∧ access_masks ≠ 0 ∧ bits_subset access_masks r.handled_access_fs) ∧
    ((rule_calls (ll_ruleset_add_net_port K ruleset port access_masks flags t).2
          = rule_calls t ∧
        (ll_ruleset_add_net_port K ruleset port access_masks flags t).1 ≠ LL_ERROR_OK) ∨
      ∃ r : ll_ruleset, ruleset = some r ∧
        rule_calls (ll_ruleset_add_net_port K ruleset port access_masks flags t).2
          = rule_calls t ++ [(r.ruleset_fd, .net_port access_masks port, 0)] ∧
        flags = 0 ∧ access_masks ≠ 0 ∧ bits_subset access_masks r.handled_access_net) := by
  have hne : ∀ {e : ll_error_t} {u : Trace}, e ≠ LL_ERROR_OK →
      rule_calls (e, u).2 = rule_calls u ∧ (e, u).1 ≠ LL_ERROR_OK := fun h => ⟨rfl, h⟩
  cases ruleset with
  | none =>
    exact ⟨Or.inl ⟨rfl, fun h => ll_error_t.noConfusion h⟩,
      Or.inl ⟨rfl, fun h => ll_error_t.noConfusion h⟩⟩
  | some r =>
    constructor
    · rw [ll_ruleset_add_path_fd_steps]
      by_cases h1 : r.ruleset_fd < 0 ∨ dir_fd < 0
      · rw [if_pos h1]; exact Or.inl (hne (fun h => ll_error_t.noConfusion h))
      rw [if_neg h1]
      by_cases h2 : flags ≠ 0
      · rw [if_pos h2]; exact Or.inl (hne (fun h => ll_error_t.noConfusion h))
      rw [if_neg h2]
      by_cases h3 : access_masks = 0
      · rw [if_pos h3]; exact Or.inl (hne (fun h => ll_error_t.noConfusion h))
      rw [if_neg h3]
      by_cases h4 : access_masks &&& not_u64 r.handled_access_fs ≠ 0
      · rw [if_pos h4]; exact Or.inl (hne (fun h => ll_error_t.noConfusion h))
      rw [if_neg h4]
      have hflags : flags = 0 := not_not.mp h2
      have hsub : bits_subset access_masks r.handled_access_fs :=
        (and_not_u64_eq_zero_iff _ _ hacc).mp (not_not.mp h4)
      by_cases h5 : access_masks &&& dir_only_bits ≠ 0
      · rw [if_pos h5]
        by_cases h6 : (K t (.fstat dir_fd)).ret ≠ 0
        · rw [if_pos h6]
          exact Or.inl ⟨rule_calls_fstat K dir_fd t, fun h => ll_error_t.noConfusion h⟩
        rw [if_neg h6]
        by_cases h7 : ¬ S_ISDIR (K t (.fstat dir_fd)).st_mode
        · rw [if_pos h7]
          exact Or.inl ⟨rule_calls_fstat K dir_fd t, fun h => ll_error_t.noConfusion h⟩
        rw [if_neg h7]
        refine Or.inr ⟨r, rfl, ?_, hflags, h3, hsub⟩
        rw [rule_calls_submit, rule_calls_fstat, hflags]
      · rw [if_neg h5]
        refine Or.inr ⟨r, rfl, ?_, hflags, h3, hsub⟩
        rw [rule_calls_submit, hflags]
    · rw [ll_ruleset_add_net_port_steps]
      by_cases h1 : r.ruleset_fd < 0
      · rw [if_pos h1]; exact Or.inl (hne (fun h => ll_error_t.noConfusion h))
      rw [if_neg h1]
      by_cases h2 : flags ≠ 0
      · rw [if_pos h2]; exact Or.inl (hne (fun h => ll_error_t.noConfusion h))
      rw [if_neg h2]
      by_cases h3 : access_masks = 0
      · rw [if_pos h3]; exact Or.inl (hne (fun h => ll_error_t.noConfusion h))
      rw [if_neg h3]
      by_cases h4 : port > 65535
      · rw [if_pos h4]; exact Or.inl (hne (fun h => ll_error_t.noConfusion h))
      rw [if_neg h4]
      by_cases h5 : r.handled_access_net = 0
      · rw [if_pos h5]; exact Or.inl (hne (fun h => ll_error_t.noConfusion h))
      rw [if_neg h5]
      by_cases h6 : access_masks &&& not_u64 r.handled_access_net ≠ 0
      · rw [if_pos h6]; exact Or.inl (hne (fun h => ll_error_t.noConfusion h))
      rw [if_neg h6]
      have hflags : flags = 0 := not_not.mp h2
      have hsub : bits_subset access_masks r.handled_access_net :=
        (and_not_u64_eq_zero_iff _ _ hacc).mp (not_not.mp h6)
      refine Or.inr ⟨r, rfl, ?_, hflags, h3, hsub⟩
      rw [rule_calls_submit, hflags]

/-- C8, at a concrete input: a ruleset with `handled_access_fs = 13` and
`handled_access_net = 3`, access bits 1, flags 0, directory descriptor 5, port 80; both
rules are submitted and accepted. -/
theorem rules_within_committed_masks_witness :
    (ll_ruleset_add_path_fd (sample_kernel 6 1 S_IFDIR)
        (some ⟨3, 6, LL_ABI_COMPAT_BEST_EFFORT, 13, 3, 0⟩) 5 1 0 []
      = (LL_ERROR_OK, [⟨.landlock_add_rule 3 (.path_beneath 1 5) 0, ⟨0, 0, 0⟩⟩]) ∧
    ll_ruleset_add_net_port (sample_kernel 6 1 S_IFDIR)
        (some ⟨3, 6, LL_ABI_COMPAT_BEST_EFFORT, 13, 3, 0⟩) 80 1 0 []
      = (LL_ERROR_OK, [⟨.landlock_add_rule 3 (.net_port 1 80) 0, ⟨0, 0, 0⟩⟩])) ∧
    (((rule_calls (ll_ruleset_add_path_fd (sample_kernel 6 1 S_IFDIR)
            (some ⟨3, 6, LL_ABI_COMPAT_BEST_EFFORT, 13, 3, 0⟩) 5 1 0 []).2 = rule_calls [] ∧
        (ll_ruleset_add_path_fd (sample_kernel 6 1 S_IFDIR)
            (some ⟨3, 6, LL_ABI_COMPAT_BEST_EFFORT, 13, 3, 0⟩) 5 1 0 []).1 ≠ LL_ERROR_OK) ∨
      ∃ r : ll_ruleset, some ⟨3, 6, LL_ABI_COMPAT_BEST_EFFORT, 13, 3, 0⟩ = some r ∧
        rule_calls (ll_ruleset_add_path_fd (sample_kernel 6 1 S_IFDIR)
            (some ⟨3, 6, LL_ABI_COMPAT_BEST_EFFORT, 13, 3, 0⟩) 5 1 0 []).2
          = rule_calls [] ++ [(r.ruleset_fd, .path_beneath 1 5, 0)] ∧
        (0 : Nat) = 0 ∧ (1 : Nat) ≠ 0 ∧ bits_subset 1 r.handled_access_fs) ∧
    ((rule_calls (ll_ruleset_add_net_port (sample_kernel 6 1 S_IFDIR)
            (some ⟨3, 6, LL_ABI_COMPAT_BEST_EFFORT, 13, 3, 0⟩) 80 1 0 []).2 = rule_calls [] ∧
        (ll_ruleset_add_net_port (sample_kernel 6 1 S_IFDIR)
            (some ⟨3, 6, LL_ABI_COMPAT_BEST_EFFORT, 13, 3, 0⟩) 80 1 0 []).1 ≠ LL_ERROR_OK) ∨
      ∃ r : ll_ruleset, some ⟨3, 6, LL_ABI_COMPAT_BEST_EFFORT, 13, 3, 0⟩ = some r ∧
        rule_calls (ll_ruleset_add_net_port (sample_kernel 6 1 S_IFDIR)
            (some ⟨3, 6, LL_ABI_COMPAT_BEST_EFFORT, 13, 3, 0⟩) 80 1 0 []).2
          = rule_calls [] ++ [(r.ruleset_fd, .net_port 1 80, 0)] ∧
        (0 : Nat) = 0 ∧ (1 : Nat) ≠ 0 ∧ bits_subset 1 r.handled_access_net)) :=
  ⟨by decide,
    rules_within_committed_masks (sample_kernel 6 1 S_IFDIR)
      (some ⟨3, 6, LL_ABI_COMPAT_BEST_EFFORT, 13, 3, 0⟩) 5 80 1 0 [] (by norm_num)⟩

/-- C9: for every ruleset and every 64-bit access mask that is not a subset of the
ruleset's committed filesystem mask, `ll_ruleset_add_path_fd` returns a negative code
and makes no call at all, so nothing reaches the rule channel; when the ruleset handle
and the target descriptor are valid and the flags are 0, the code is
`LL_ERROR_ADD_RULE_INCONSISTENT_ACCESS`. -/
theorem add_path_fd_rejects_non_subset (K : Kernel) (r : ll_ruleset) (dir_fd : Int)
    (access_masks flags : Nat) (t : Trace)
    (hacc : access_masks < 2 ^ 64)
    (hnot : ¬ bits_subset access_masks r.handled_access_fs) :
    (ll_ruleset_add_path_fd K (some r) dir_fd access_masks flags t).1.code < 0 ∧
    (ll_ruleset_add_path_fd K (some r) dir_fd access_masks flags t).2 = t ∧
    rule_calls (ll_ruleset_add_path_fd K (some r) dir_fd access_masks flags t).2
      = rule_calls t ∧
    (0 ≤ r.ruleset_fd → 0 ≤ dir_fd → flags = 0 →
      (ll_ruleset_add_path_fd K (some r) dir_fd access_masks flags t).1
        = LL_ERROR_ADD_RULE_INCONSISTENT_ACCESS) := by
  have h4 : access_masks &&& not_u64 r.handled_access_fs ≠ 0 :=
    fun h => hnot ((and_not_u64_eq_zero_iff _ _ hacc).mp h)
  have h3 : ¬ access_masks = 0 := by
    intro h
    apply hnot
    rw [h]
    exact Nat.zero_and _
  rw [ll_ruleset_add_path_fd_steps]
  by_cases h1 : r.ruleset_fd < 0 ∨ dir_fd < 0
  · rw [if_pos h1]
    exact ⟨show LL_ERROR_ADD_RULE_BAD_FD.code < 0 by decide, rfl, rfl,
      fun a b _ => absurd h1 (by omega)⟩
  rw [if_neg h1]
  by_cases h2 : flags ≠ 0
  · rw [if_pos h2]
    exact ⟨show LL_ERROR_ADD_RULE_FLAGS_INVALID.code < 0 by decide, rfl, rfl,
      fun _ _ c => absurd c h2⟩
  rw [if_neg h2, if_neg h3, if_pos h4]
  exact ⟨show LL_ERROR_ADD_RULE_INCONSISTENT_ACCESS.code < 0 by decide, rfl, rfl,
    fun _ _ _ => rfl⟩

/-- C9, at a concrete input: a ruleset that handles `READ_FILE` only (4) and a rule
asking for `READ_FILE` and `WRITE_FILE` (6). -/
theorem add_path_fd_rejects_non_subset_witness :
    ¬ bits_subset 6 (4 : Nat) ∧
    ll_ruleset_add_path_fd (sample_kernel 6 1 S_IFDIR)
        (some ⟨3, 6, LL_ABI_COMPAT_BEST_EFFORT, 4, 0, 0⟩) 5 6 0 []
      = (LL_ERROR_ADD_RULE_INCONSISTENT_ACCESS, []) ∧
    ((ll_ruleset_add_path_fd (sample_kernel 6 1 S_IFDIR)
        (some ⟨3, 6, LL_ABI_COMPAT_BEST_EFFORT, 4, 0, 0⟩) 5 6 0 []).1.code < 0 ∧
    (ll_ruleset_add_path_fd (sample_kernel 6 1 S_IFDIR)
        (some ⟨3, 6, LL_ABI_COMPAT_BEST_EFFORT, 4, 0, 0⟩) 5 6 0 []).2 = [] ∧
    rule_calls (ll_ruleset_add_path_fd (sample_kernel 6 1 S_IFDIR)
        (some ⟨3, 6, LL_ABI_COMPAT_BEST_EFFORT, 4, 0, 0⟩) 5 6 0 []).2 = rule_calls [] ∧
    ((0 : Int) ≤ 3 → (0 : Int) ≤ 5 → (0 : Nat) = 0 →
      (ll_ruleset_add_path_fd (sample_kernel 6 1 S_IFDIR)
        (some ⟨3, 6, LL_ABI_COMPAT_BEST_EFFORT, 4, 0, 0⟩) 5 6 0 []).1
        = LL_ERROR_ADD_RULE_INCONSISTENT_ACCESS)) :=
  ⟨by decide, by decide,
    add_path_fd_rejects_non_subset (sample_kernel 6 1 S_IFDIR)
      ⟨3, 6, LL_ABI_COMPAT_BEST_EFFORT, 4, 0, 0⟩ 5 6 0 [] (by norm_num) (by decide)⟩

/-- C10: for a ruleset with valid handles, flags 0 and 64-bit access bits that are a
non-empty subset of the committed filesystem mask and include `READ_DIR`, `REMOVE_DIR`
or `MAKE_DIR`: when `fstat` reports a target that is not a directory the result is
`LL_ERROR_ADD_RULE_ACCESS_NOT_APPLICABLE` and nothing is submitted; when it reports a
directory the rule is submitted, and the result is `LL_ERROR_OK` when the kernel
accepts it. -/
theorem add_path_fd_dir_only_bits (K : Kernel) (r : ll_ruleset) (dir_fd : Int)
    (access_masks : Nat) (t : Trace)
    (hfd : 0 ≤ r.ruleset_fd) (hdir : 0 ≤ dir_fd)
    (hacc : access_masks < 2 ^ 64) (hne : access_masks ≠ 0)
    (hsub : bits_subset access_masks r.handled_access_fs)
    (hbits : access_masks &&& LANDLOCK_ACCESS_FS_READ_DIR ≠ 0 ∨
      access_masks &&& LANDLOCK_ACCESS_FS_REMOVE_DIR ≠ 0 ∨
      access_masks &&& LANDLOCK_ACCESS_FS_MAKE_DIR ≠ 0)
    (hstat : (K t (.fstat dir_fd)).ret = 0) :
    (S_ISDIR (K t (.fstat dir_fd)).st_mode = false →
      (ll_ruleset_add_path_fd K (some r) dir_fd access_masks 0 t).1
        = LL_ERROR_ADD_RULE_ACCESS_NOT_APPLICABLE ∧
      rule_calls (ll_ruleset_add_path_fd K (some r) dir_fd access_masks 0 t).2
        = rule_calls t) ∧
    (S_ISDIR (K t (.fstat dir_fd)).st_mode = true →
      rule_calls (ll_ruleset_add_path_fd K (some r) dir_fd access_masks 0 t).2
        = rule_calls t ++ [(r.ruleset_fd, .path_beneath access_masks dir_fd, 0)] ∧
      (0 ≤ (K (t ++ [⟨.fstat dir_fd, K t (.fstat dir_fd)⟩])
            (.landlock_add_rule r.ruleset_fd (.path_beneath access_masks dir_fd) 0)).ret →
        (ll_ruleset_add_path_fd K (some r) dir_fd access_masks 0 t).1 = LL_ERROR_OK)) := by
  have h1 : ¬ (r.ruleset_fd < 0 ∨ dir_fd < 0) := by omega
  have h2 : ¬ ((0 : Nat) ≠ 0) := fun h => h rfl
  have h4 : ¬ (access_masks &&& not_u64 r.handled_access_fs ≠ 0) :=
    not_not.mpr ((and_not_u64_eq_zero_iff _ _ hacc).mpr hsub)
  have h5 : access_masks &&& dir_only_bits ≠ 0 :=
    (and_dir_only_ne_zero_iff _ _ _ _).mpr hbits
  have h6 : ¬ ((K t (.fstat dir_fd)).ret ≠ 0) := not_not.mpr hstat
  rw [ll_ruleset_add_path_fd_steps, if_neg h1, if_neg h2, if_neg hne, if_neg h4, if_pos h5,
    if_neg h6]
  constructor
  · intro hnd
    have h7 : ¬ (S_ISDIR (K t (.fstat dir_fd)).st_mode = true) := by rw [hnd]; decide
    rw [if_pos h7]
    exact ⟨rfl, rule_calls_fstat K dir_fd t⟩
  · intro hd
    rw [if_neg (not_not.mpr hd)]
    refine ⟨by rw [rule_calls_submit, rule_calls_fstat], fun hok => ?_⟩
    unfold submit_rule
    rw [if_neg (not_lt.mpr hok)]

/-- C10, at concrete inputs: a ruleset handling `READ_FILE` and `READ_DIR` (12), a rule
asking for both; against a regular file (`st_mode = 0100644`) the result is
`LL_ERROR_ADD_RULE_ACCESS_NOT_APPLICABLE`, against a directory the rule is submitted
and the result is `LL_ERROR_OK`. -/
theorem add_path_fd_dir_only_bits_witness :
    (ll_ruleset_add_path_fd (sample_kernel 6 1 33188)
        (some ⟨3, 6, LL_ABI_COMPAT_BEST_EFFORT, 12, 0, 0⟩) 5 12 0 []).1
      = LL_ERROR_ADD_RULE_ACCESS_NOT_APPLICABLE ∧
    rule_calls (ll_ruleset_add_path_fd (sample_kernel 6 1 33188)
        (some ⟨3, 6, LL_ABI_COMPAT_BEST_EFFORT, 12, 0, 0⟩) 5 12 0 []).2 = rule_calls [] ∧
    rule_calls (ll_ruleset_add_path_fd (sample_kernel 6 1 S_IFDIR)
        (some ⟨3, 6, LL_ABI_COMPAT_BEST_EFFORT, 12, 0, 0⟩) 5 12 0 []).2
      = rule_calls [] ++ [(3, .path_beneath 12 5, 0)] ∧
    (ll_ruleset_add_path_fd (sample_kernel 6 1 S_IFDIR)
        (some ⟨3, 6, LL_ABI_COMPAT_BEST_EFFORT, 12, 0, 0⟩) 5 12 0 []).1 = LL_ERROR_OK :=
  ⟨((add_path_fd_dir_only_bits (sample_kernel 6 1 33188)
        ⟨3, 6, LL_ABI_COMPAT_BEST_EFFORT, 12, 0, 0⟩ 5 12 [] (by decide) (by decide)
        (by norm_num) (by decide) (by decide) (Or.inl (by decide)) (by decide)).1
        (by decide)).1,
   ((add_path_fd_dir_only_bits (sample_kernel 6 1 33188)
        ⟨3, 6, LL_ABI_COMPAT_BEST_EFFORT, 12, 0, 0⟩ 5 12 [] (by decide) (by decide)
        (by norm_num) (by decide) (by decide) (Or.inl (by decide)) (by decide)).1
        (by decide)).2,
   ((add_path_fd_dir_only_bits (sample_kernel 6 1 S_IFDIR)
        ⟨3, 6, LL_ABI_COMPAT_BEST_EFFORT, 12, 0, 0⟩ 5 12 [] (by decide) (by decide)
        (by norm_num) (by decide) (by decide) (Or.inl (by decide)) (by decide)).2
        (by decide)).1,
   ((add_path_fd_dir_only_bits (sample_kernel 6 1 S_IFDIR)
        ⟨3, 6, LL_ABI_COMPAT_BEST_EFFORT, 12, 0, 0⟩ 5 12 [] (by decide) (by decide)
        (by norm_num) (by decide) (by decide) (Or.inl (by decide)) (by decide)).2
        (by decide)).2 (by decide)⟩

theorem add_rule_errno_ne_port (err : Int) :
    ll_error_from_add_rule_errno err ≠ LL_ERROR_ADD_RULE_PORT_OUT_OF_RANGE := by
  unfold ll_error_from_add_rule_errno ll_error_system ll_error_with_errno
  split_ifs <;> exact fun h => ll_error_t.noConfusion h

theorem submit_rule_ne_port (K : Kernel) (fd : Int) (rule : rule_attr) (flags : Nat)
    (t : Trace) : (submit_rule K fd rule flags t).1 ≠ LL_ERROR_ADD_RULE_PORT_OUT_OF_RANGE := by
  unfold submit_rule
  split_ifs
  · exact add_rule_errno_ne_port _
  · exact fun h => ll_error_t.noConfusion h

/-- C11: for a ruleset with a valid handle, flags 0 and non-empty 64-bit access bits,
`ll_ruleset_add_net_port` fails with `LL_ERROR_ADD_RULE_PORT_OUT_OF_RANGE`, without any
call, for every port above 65535, and never returns that code for a port up to 65535;
such a port is submitted to the rule channel when the access bits are a subset of a
non-empty committed network mask. -/
theorem add_net_port_range (K : Kernel) (r : ll_ruleset) (port access_masks : Nat)
    (t : Trace) (hfd : 0 ≤ r.ruleset_fd) (hne : access_masks ≠ 0)
    (hacc : access_masks < 2 ^ 64) :
    (65535 < port →
      ll_ruleset_add_net_port K (some r) port access_masks 0 t
        = (LL_ERROR_ADD_RULE_PORT_OUT_OF_RANGE, t)) ∧
    (port ≤ 65535 →
      (ll_ruleset_add_net_port K (some r) port access_masks 0 t).1
        ≠ LL_ERROR_ADD_RULE_PORT_OUT_OF_RANGE) ∧
    (port ≤ 65535 → r.handled_access_net ≠ 0 →
      bits_subset access_masks r.handled_access_net →
      rule_calls (ll_ruleset_add_net_port K (some r) port access_masks 0 t).2
        = rule_calls t ++ [(r.ruleset_fd, .net_port access_masks port, 0)]) := by
  have h1 : ¬ r.ruleset_fd < 0 := not_lt.mpr hfd
  have h2 : ¬ ((0 : Nat) ≠ 0) := fun h => h rfl
  rw [ll_ruleset_add_net_port_steps, if_neg h1, if_neg h2, if_neg hne]
  refine ⟨fun hp => ?_, fun hp => ?_, fun hp hnet hsub => ?_⟩
  · rw [if_pos hp]
  · rw [if_neg (not_lt.mpr hp)]
    split_ifs
    · exact fun h => ll_error_t.noConfusion h
    · exact fun h => ll_error_t.noConfusion h
    · exact submit_rule_ne_port _ _ _ _ _
  · have h6 : ¬ (access_masks &&& not_u64 r.handled_access_net ≠ 0) :=
      not_not.mpr ((and_not_u64_eq_zero_iff _ _ hacc).mpr hsub)
    rw [if_neg (not_lt.mpr hp), if_neg hnet, if_neg h6, rule_calls_submit]

/-- C11, at concrete inputs: a ruleset handling both TCP rights (3) and a rule for
`BIND_TCP` (1); port 65536 is out of range, port 65535 is submitted and accepted. -/
theorem add_net_port_range_witness :
    ll_ruleset_add_net_port (sample_kernel 6 1 0)
        (some (sample_ruleset 6 LL_ABI_COMPAT_BEST_EFFORT 3)) 65536 1 0 []
      = (LL_ERROR_ADD_RULE_PORT_OUT_OF_RANGE, []) ∧
    ll_ruleset_add_net_port (sample_kernel 6 1 0)
        (some (sample_ruleset 6 LL_ABI_COMPAT_BEST_EFFORT 3)) 65535 1 0 []
      = (LL_ERROR_OK, [⟨.landlock_add_rule 3 (.net_port 1 65535) 0, ⟨0, 0, 0⟩⟩]) ∧
    (ll_ruleset_add_net_port (sample_kernel 6 1 0)
        (some (sample_ruleset 6 LL_ABI_COMPAT_BEST_EFFORT 3)) 65535 1 0 []).1
      ≠ LL_ERROR_ADD_RULE_PORT_OUT_OF_RANGE ∧
    rule_calls (ll_ruleset_add_net_port (sample_kernel 6 1 0)
        (some (sample_ruleset 6 LL_ABI_COMPAT_BEST_EFFORT 3)) 65535 1 0 []).2
      = rule_calls [] ++
        [((sample_ruleset 6 LL_ABI_COMPAT_BEST_EFFORT 3).ruleset_fd, .net_port 1 65535, 0)] :=
  ⟨(add_net_port_range (sample_kernel 6 1 0) (sample_ruleset 6 LL_ABI_COMPAT_BEST_EFFORT 3)
      65536 1 [] (by decide) (by decide) (by norm_num)).1 (by decide),
   by decide,
   (add_net_port_range (sample_kernel 6 1 0) (sample_ruleset 6 LL_ABI_COMPAT_BEST_EFFORT 3)
      65535 1 [] (by decide) (by decide) (by norm_num)).2.1 (by decide),
   (add_net_port_range (sample_kernel 6 1 0) (sample_ruleset 6 LL_ABI_COMPAT_BEST_EFFORT 3)
      65535 1 [] (by decide) (by decide) (by norm_num)).2.2 (by decide) (by decide)
      (by decide)⟩

/-- C12: for a ruleset with a valid handle, a port up to 65535, flags 0 and non-empty
64-bit access bits: when the committed network mask is 0 the result is
`LL_ERROR_ADD_RULE_TCP_UNSUPPORTED` (so not `LL_ERROR_ADD_RULE_INCONSISTENT_ACCESS`),
whether or not the access bits would pass the subset test; when the committed network
mask is non-zero and the access bits are not a subset of it the result is
`LL_ERROR_ADD_RULE_INCONSISTENT_ACCESS`.  No call is made in either case. -/
theorem add_net_port_tcp_unsupported_first (K : Kernel) (r : ll_ruleset)
    (port access_masks : Nat) (t : Trace) (hfd : 0 ≤ r.ruleset_fd) (hport : port ≤ 65535)
    (hne : access_masks ≠ 0) (hacc : access_masks < 2 ^ 64) :
    (r.handled_access_net = 0 →
      ll_ruleset_add_net_port K (some r) port access_masks 0 t
        = (LL_ERROR_ADD_RULE_TCP_UNSUPPORTED, t)) ∧
    (r.handled_access_net ≠ 0 → ¬ bits_subset access_masks r.handled_access_net →
      ll_ruleset_add_net_port K (some r) port access_masks 0 t
        = (LL_ERROR_ADD_RULE_INCONSISTENT_ACCESS, t)) := by
  have h1 : ¬ r.ruleset_fd < 0 := not_lt.mpr hfd
  have h2 : ¬ ((0 : Nat) ≠ 0) := fun h => h rfl
  rw [ll_ruleset_add_net_port_steps, if_neg h1, if_neg h2, if_neg hne,
    if_neg (not_lt.mpr hport)]
  refine ⟨fun h0 => ?_, fun hnet hns => ?_⟩
  · rw [if_pos h0]
  · have h6 : access_masks &&& not_u64 r.handled_access_net ≠ 0 :=
      fun h => hns ((and_not_u64_eq_zero_iff _ _ hacc).mp h)
    rw [if_neg hnet, if_pos h6]

/-- C12, at concrete inputs: port 80 and access bits 3 (both TCP rights); a ruleset with
no network mask answers `LL_ERROR_ADD_RULE_TCP_UNSUPPORTED`, one that handles
`BIND_TCP` only (1) answers `LL_ERROR_ADD_RULE_INCONSISTENT_ACCESS`. -/
theorem add_net_port_tcp_unsupported_first_witness :
    ll_ruleset_add_net_port (sample_kernel 6 1 0)
        (some (sample_ruleset 3 LL_ABI_COMPAT_BEST_EFFORT 0)) 80 3 0 []
      = (LL_ERROR_ADD_RULE_TCP_UNSUPPORTED, []) ∧
    ll_ruleset_add_net_port (sample_kernel 6 1 0)
        (some (sample_ruleset 6 LL_ABI_COMPAT_BEST_EFFORT 1)) 80 3 0 []
      = (LL_ERROR_ADD_RULE_INCONSISTENT_ACCESS, []) :=
  ⟨(add_net_port_tcp_unsupported_first (sample_kernel 6 1 0)
      (sample_ruleset 3 LL_ABI_COMPAT_BEST_EFFORT 0) 80 3 [] (by decide) (by decide)
      (by decide) (by norm_num)).1 rfl,
   (add_net_port_tcp_unsupported_first (sample_kernel 6 1 0)
      (sample_ruleset 6 LL_ABI_COMPAT_BEST_EFFORT 1) 80 3 [] (by decide) (by decide)
      (by decide) (by norm_num)).2 (by decide) (by decide)⟩

/-- C13: `ll_ruleset_add_path_fd` and `ll_ruleset_add_net_port` validate in a fixed
order and return the first failure, without any call: a null ruleset gives
`LL_ERROR_INVALID_ARGUMENT`; otherwise a negative ruleset handle (or, for a path rule, a
negative target descriptor) gives `LL_ERROR_ADD_RULE_BAD_FD`; otherwise non-zero flags
give `LL_ERROR_ADD_RULE_FLAGS_INVALID`; otherwise zero access bits give
`LL_ERROR_ADD_RULE_EMPTY_ACCESS`. -/
theorem rule_validation_order (K : Kernel) (r : ll_ruleset) (dir_fd : Int)
    (port access_masks flags : Nat) (t : Trace) :
    (ll_ruleset_add_path_fd K none dir_fd access_masks flags t
        = (LL_ERROR_INVALID_ARGUMENT, t) ∧
      ll_ruleset_add_net_port K none port access_masks flags t
        = (LL_ERROR_INVALID_ARGUMENT, t)) ∧
    ((r.ruleset_fd < 0 ∨ dir_fd < 0 →
        ll_ruleset_add_path_fd K (some r) dir_fd access_masks flags t
          = (LL_ERROR_ADD_RULE_BAD_FD, t)) ∧
      (r.ruleset_fd < 0 →
        ll_ruleset_add_net_port K (some r) port access_masks flags t
          = (LL_ERROR_ADD_RULE_BAD_FD, t))) ∧
    ((0 ≤ r.ruleset_fd → 0 ≤ dir_fd → flags ≠ 0 →
        ll_ruleset_add_path_fd K (some r) dir_fd access_masks flags t
          = (LL_ERROR_ADD_RULE_FLAGS_INVALID, t)) ∧
      (0 ≤ r.ruleset_fd → flags ≠ 0 →
        ll_ruleset_add_net_port K (some r) port access_masks flags t
          = (LL_ERROR_ADD_RULE_FLAGS_INVALID, t))) ∧
    ((0 ≤ r.ruleset_fd → 0 ≤ dir_fd → flags = 0 → access_masks = 0 →
        ll_ruleset_add_path_fd K (some r) dir_fd access_masks flags t
          = (LL_ERROR_ADD_RULE_EMPTY_ACCESS, t)) ∧
      (0 ≤ r.ruleset_fd → flags = 0 → access_masks = 0 →
        ll_ruleset_add_net_port K (some r) port access_masks flags t
          = (LL_ERROR_ADD_RULE_EMPTY_ACCESS, t))) := by
  rw [ll_ruleset_add_path_fd_steps, ll_ruleset_add_net_port_steps]
  refine ⟨⟨rfl, rfl⟩, ⟨fun h => ?_, fun h => ?_⟩, ⟨fun h1 h2 h3 => ?_, fun h1 h3 => ?_⟩,
    ⟨fun h1 h2 h3 h4 => ?_, fun h1 h3 h4 => ?_⟩⟩
  · rw [if_pos h]
  · rw [if_pos h]
  · have hn : ¬ (r.ruleset_fd < 0 ∨ dir_fd < 0) := by omega
    rw [if_neg hn, if_pos h3]
  · rw [if_neg (not_lt.mpr h1), if_pos h3]
  · have hn : ¬ (r.ruleset_fd < 0 ∨ dir_fd < 0) := by omega
    rw [if_neg hn, if_neg (not_not.mpr h3), if_pos h4]
  · rw [if_neg (not_lt.mpr h1), if_neg (not_not.mpr h3), if_pos h4]

/-- C13, at concrete inputs: a negative ruleset handle, then flags 1, then access bits 0,
each with everything before it valid. -/
theorem rule_validation_order_witness :
    (ll_ruleset_add_path_fd (sample_kernel 6 1 S_IFDIR)
        (some ⟨-1, 6, LL_ABI_COMPAT_BEST_EFFORT, 12, 3, 0⟩) 5 4 1 []
      = (LL_ERROR_ADD_RULE_BAD_FD, []) ∧
    ll_ruleset_add_net_port (sample_kernel 6 1 S_IFDIR)
        (some ⟨-1, 6, LL_ABI_COMPAT_BEST_EFFORT, 12, 3, 0⟩) 80 4 1 []
      = (LL_ERROR_ADD_RULE_BAD_FD, [])) ∧
    (ll_ruleset_add_path_fd (sample_kernel 6 1 S_IFDIR)
        (some (sample_ruleset 6 LL_ABI_COMPAT_BEST_EFFORT 3)) 5 0 1 []
      = (LL_ERROR_ADD_RULE_FLAGS_INVALID, []) ∧
    ll_ruleset_add_net_port (sample_kernel 6 1 S_IFDIR)
        (some (sample_ruleset 6 LL_ABI_COMPAT_BEST_EFFORT 3)) 80 0 1 []
      = (LL_ERROR_ADD_RULE_FLAGS_INVALID, [])) ∧
    (ll_ruleset_add_path_fd (sample_kernel 6 1 S_IFDIR)
        (some (sample_ruleset 6 LL_ABI_COMPAT_BEST_EFFORT 3)) 5 0 0 []
      = (LL_ERROR_ADD_RULE_EMPTY_ACCESS, []) ∧
    ll_ruleset_add_net_port (sample_kernel 6 1 S_IFDIR)
        (some (sample_ruleset 6 LL_ABI_COMPAT_BEST_EFFORT 3)) 80 0 0 []
      = (LL_ERROR_ADD_RULE_EMPTY_ACCESS, [])) :=
  ⟨⟨(rule_validation_order (sample_kernel 6 1 S_IFDIR)
        ⟨-1, 6, LL_ABI_COMPAT_BEST_EFFORT, 12, 3, 0⟩ 5 80 4 1 []).2.1.1 (Or.inl (by decide)),
    (rule_validation_order (sample_kernel 6 1 S_IFDIR)
        ⟨-1, 6, LL_ABI_COMPAT_BEST_EFFORT, 12, 3, 0⟩ 5 80 4 1 []).2.1.2 (by decide)⟩,
   ⟨(rule_validation_order (sample_kernel 6 1 S_IFDIR)
        (sample_ruleset 6 LL_ABI_COMPAT_BEST_EFFORT 3) 5 80 0 1 []).2.2.1.1
        (by decide) (by decide) (by decide),
    (rule_validation_order (sample_kernel 6 1 S_IFDIR)
        (sample_ruleset 6 LL_ABI_COMPAT_BEST_EFFORT 3) 5 80 0 1 []).2.2.1.2
        (by decide) (by decide)⟩,
   ⟨(rule_validation_order (sample_kernel 6 1 S_IFDIR)
        (sample_ruleset 6 LL_ABI_COMPAT_BEST_EFFORT 3) 5 80 0 0 []).2.2.2.1
        (by decide) (by decide) rfl rfl,
    (rule_validation_order (sample_kernel 6 1 S_IFDIR)
        (sample_ruleset 6 LL_ABI_COMPAT_BEST_EFFORT 3) 5 80 0 0 []).2.2.2.2
        (by decide) rfl rfl⟩⟩

/-- The body of `ll_ruleset_add_path` for a non-null ruleset and a non-null path, step
by step. -/
theorem ll_ruleset_add_path_steps (K : Kernel) (r : ll_ruleset) (path : String)
    (access_masks flags : Nat) (t : Trace) :
    ll_ruleset_add_path K (some r) (some path) access_masks flags t =
      if r.ruleset_fd < 0 then (LL_ERROR_INVALID_ARGUMENT, t)
      else if (K t (.open_path path)).ret < 0 then
        (LL_ERROR_SYSTEM, t ++ [⟨.open_path path, K t (.open_path path)⟩])
      else
        ((ll_ruleset_add_path_fd K (some r) (K t (.open_path path)).ret access_masks flags
            (t ++ [⟨.open_path path, K t (.open_path path)⟩])).1,
          (sys K (.close (K t (.open_path path)).ret)
            (ll_ruleset_add_path_fd K (some r) (K t (.open_path path)).ret access_masks flags
              (t ++ [⟨.open_path path, K t (.open_path path)⟩])).2).2) := by
  rfl

/-- C14 as stated fails: with a path that cannot be opened (`open` fails with `ENOENT`),
a valid ruleset handle and access bits `READ_FILE`, flags 1 yield `LL_ERROR_SYSTEM`, not
`LL_ERROR_ADD_RULE_FLAGS_INVALID`; and with flags 0, access bits 0 yield
`LL_ERROR_SYSTEM`, not `LL_ERROR_ADD_RULE_EMPTY_ACCESS`.  No rule call is made. -/
theorem add_path_unopenable_counterexample :
    (0 ≤ (sample_ruleset 6 LL_ABI_COMPAT_BEST_EFFORT 3).ruleset_fd ∧
      (ll_ruleset_add_path no_open_kernel (some (sample_ruleset 6 LL_ABI_COMPAT_BEST_EFFORT 3))
        (some "/nowhere") 4 1 []).1 = LL_ERROR_SYSTEM ∧
      rule_calls (ll_ruleset_add_path no_open_kernel
        (some (sample_ruleset 6 LL_ABI_COMPAT_BEST_EFFORT 3)) (some "/nowhere") 4 1 []).2 = []) ∧
    ((ll_ruleset_add_path no_open_kernel (some (sample_ruleset 6 LL_ABI_COMPAT_BEST_EFFORT 3))
        (some "/nowhere") 0 0 []).1 = LL_ERROR_SYSTEM ∧
      rule_calls (ll_ruleset_add_path no_open_kernel
        (some (sample_ruleset 6 LL_ABI_COMPAT_BEST_EFFORT 3)) (some "/nowhere") 0 0 []).2 = []) := by
  decide

/-- C14, amended: for `ll_ruleset_add_path` with a non-null ruleset with a valid handle
and a non-null path: when the path cannot be opened the result is `LL_ERROR_SYSTEM`
whatever the flags and the access bits; when it can be opened, non-zero flags yield
`LL_ERROR_ADD_RULE_FLAGS_INVALID` and, with flags 0, zero access bits yield
`LL_ERROR_ADD_RULE_EMPTY_ACCESS`, for every access mask. -/
theorem add_path_flags_and_empty_access (K : Kernel) (r : ll_ruleset) (path : String)
    (access_masks flags : Nat) (t : Trace) (hfd : 0 ≤ r.ruleset_fd) :
    ((K t (.open_path path)).ret < 0 →
      (ll_ruleset_add_path K (some r) (some path) access_masks flags t).1
        = LL_ERROR_SYSTEM) ∧
    (0 ≤ (K t (.open_path path)).ret → flags ≠ 0 →
      (ll_ruleset_add_path K (some r) (some path) access_masks flags t).1
        = LL_ERROR_ADD_RULE_FLAGS_INVALID) ∧
    (0 ≤ (K t (.open_path path)).ret → flags = 0 → access_masks = 0 →
      (ll_ruleset_add_path K (some r) (some path) access_masks flags t).1
        = LL_ERROR_ADD_RULE_EMPTY_ACCESS) := by
  rw [ll_ruleset_add_path_steps, if_neg (not_lt.mpr hfd)]
  refine ⟨fun h => ?_, fun h hf => ?_, fun h hf ha => ?_⟩
  · rw [if_pos h]
  · have hn : ¬ (r.ruleset_fd < 0 ∨ (K t (.open_path path)).ret < 0) := by omega
    rw [if_neg (not_lt.mpr h), ll_ruleset_add_path_fd_steps, if_neg hn, if_pos hf]
  · have hn : ¬ (r.ruleset_fd < 0 ∨ (K t (.open_path path)).ret < 0) := by omega
    rw [if_neg (not_lt.mpr h), ll_ruleset_add_path_fd_steps, if_neg hn,
      if_neg (not_not.mpr hf), if_pos ha]

/-- C14 amended, at concrete inputs: a path that opens (descriptor 0) with flags 1, then
with flags 0 and access bits 0; and a path that does not open. -/
theorem add_path_flags_and_empty_access_witness :
    (ll_ruleset_add_path (sample_kernel 6 1 S_IFDIR)
        (some (sample_ruleset 6 LL_ABI_COMPAT_BEST_EFFORT 3)) (some "/tmp/x") 4 1 []).1
      = LL_ERROR_ADD_RULE_FLAGS_INVALID ∧
    (ll_ruleset_add_path (sample_kernel 6 1 S_IFDIR)
        (some (sample_ruleset 6 LL_ABI_COMPAT_BEST_EFFORT 3)) (some "/tmp/x") 0 0 []).1
      = LL_ERROR_ADD_RULE_EMPTY_ACCESS ∧
    (ll_ruleset_add_path no_open_kernel
        (some (sample_ruleset 6 LL_ABI_COMPAT_BEST_EFFORT 3)) (some "/nowhere") 4 1 []).1
      = LL_ERROR_SYSTEM :=
  ⟨(add_path_flags_and_empty_access (sample_kernel 6 1 S_IFDIR)
      (sample_ruleset 6 LL_ABI_COMPAT_BEST_EFFORT 3) "/tmp/x" 4 1 [] (by decide)).2.1
      (by decide) (by decide),
   (add_path_flags_and_empty_access (sample_kernel 6 1 S_IFDIR)
      (sample_ruleset 6 LL_ABI_COMPAT_BEST_EFFORT 3) "/tmp/x" 0 0 [] (by decide)).2.2
      (by decide) rfl rfl,
   (add_path_flags_and_empty_access no_open_kernel
      (sample_ruleset 6 LL_ABI_COMPAT_BEST_EFFORT 3) "/nowhere" 4 1 [] (by decide)).1
      (by decide)⟩

/-! ## Enforcement: auxiliary facts -/

/-- The body of `ll_ruleset_enforce` for a non-null ruleset, step by step. -/
theorem ll_ruleset_enforce_steps (K : Kernel) (r : ll_ruleset) (flags : Nat) (t : Trace) :
    ll_ruleset_enforce K (some r) flags t =
      if r.ruleset_fd < 0 then (LL_ERROR_RESTRICT_BAD_FD, t)
      else if flags &&& not_u32 known_flags ≠ 0 then (LL_ERROR_RESTRICT_FLAGS_INVALID, t)
      else if r.compat_mode = LL_ABI_COMPAT_STRICT ∧
          flags &&& ll_supported_restrict_self_flags r.abi ≠ flags then
        (LL_ERROR_RESTRICT_PARTIAL_SANDBOX_STRICT, t)
      else if flags &&& ll_supported_restrict_self_flags r.abi ≠ 0 then
        if (ll_audit_supported K t).1 = 0 then
          if r.compat_mode = LL_ABI_COMPAT_STRICT then
            (LL_ERROR_RESTRICT_PARTIAL_SANDBOX_STRICT, (ll_audit_supported K t).2)
          else enforce_finish K r.ruleset_fd 0 (ll_audit_supported K t).2
        else
          enforce_finish K r.ruleset_fd (flags &&& ll_supported_restrict_self_flags r.abi)
            (ll_audit_supported K t).2
      else
        enforce_finish K r.ruleset_fd (flags &&& ll_supported_restrict_self_flags r.abi) t := by
  rfl

theorem testBit_of_lt_u32 {x i : Nat} (hx : x < 2 ^ 32) (hi : x.testBit i = true) : i < 32 := by
  by_contra h
  have h32 : 32 ≤ i := Nat.le_of_not_lt h
  have : x < 2 ^ i := lt_of_lt_of_le hx (Nat.pow_le_pow_right (by norm_num) h32)
  rw [Nat.testBit_lt_two_pow this] at hi
  exact Bool.noConfusion hi

theorem and_not_u32_eq_zero_iff (a b : Nat) (ha : a < 2 ^ 32) :
    a &&& not_u32 b = 0 ↔ bits_subset a b := by
  rw [bits_subset_iff_testBit]
  unfold not_u32
  constructor
  · intro h i hi
    have h1 := congrArg (fun n => n.testBit i) h
    have hlt : i < 32 := testBit_of_lt_u32 ha hi
    simp only [Nat.testBit_and, Nat.testBit_xor, Nat.testBit_two_pow_sub_one, hi, hlt,
      decide_True, Bool.true_and, Nat.zero_testBit] at h1
    cases hb : b.testBit i with
    | true => rfl
    | false => rw [hb] at h1; exact Bool.noConfusion h1
  · intro h
    apply Nat.eq_of_testBit_eq
    intro i
    rw [Nat.testBit_and, Nat.testBit_xor, Nat.testBit_two_pow_sub_one, Nat.zero_testBit]
    cases hi : a.testBit i with
    | false => rfl
    | true =>
      have hlt : i < 32 := testBit_of_lt_u32 ha hi
      simp [h i hi, hlt]

theorem restrict_calls_append (t u : Trace) :
    restrict_calls (t ++ u) = restrict_calls t ++ restrict_calls u := by
  simp [restrict_calls, List.filterMap_append]

theorem toggle_calls_append (t u : Trace) :
    toggle_calls (t ++ u) = toggle_calls t ++ toggle_calls u := by
  simp [toggle_calls, List.filterMap_append]

theorem audit_probe_calls_append (t u : Trace) :
    audit_probe_calls (t ++ u) = audit_probe_calls t ++ audit_probe_calls u := by
  simp [audit_probe_calls, List.filterMap_append]

/-- The diagnostic probe answers 0 or 1, and 0 exactly when the socket cannot be opened
for the reason `EPROTONOSUPPORT`. -/
theorem audit_supported_value (K : Kernel) (t : Trace) :
    ((ll_audit_supported K t).1 = 0 ↔
      ((K t .socket_netlink).ret < 0 ∧ (K t .socket_netlink).errno = EPROTONOSUPPORT)) ∧
    (¬ ((K t .socket_netlink).ret < 0 ∧ (K t .socket_netlink).errno = EPROTONOSUPPORT) →
      (ll_audit_supported K t).1 = 1) := by
  simp only [ll_audit_supported, sys_fst]
  by_cases h1 : (K t .socket_netlink).ret < 0
  · by_cases h2 : (K t .socket_netlink).errno = EPROTONOSUPPORT
    · simp [h1, h2]
    · simp [h1, h2]
  · simp [h1]

theorem audit_unavailable_trace (K : Kernel) (t : Trace)
    (h : (K t .socket_netlink).ret < 0 ∧ (K t .socket_netlink).errno = EPROTONOSUPPORT) :
    (ll_audit_supported K t).2 = t ++ [⟨.socket_netlink, K t .socket_netlink⟩] := by
  simp only [ll_audit_supported, sys_fst, sys_snd, if_pos h.1, if_pos h.2]

theorem restrict_calls_audit (K : Kernel) (t : Trace) :
    restrict_calls (ll_audit_supported K t).2 = restrict_calls t := by
  simp only [ll_audit_supported, sys_fst, sys_snd]
  split_ifs <;> simp [restrict_calls_append] <;> simp [restrict_calls]

theorem toggle_calls_audit (K : Kernel) (t : Trace) :
    toggle_calls (ll_audit_supported K t).2 = toggle_calls t := by
  simp only [ll_audit_supported, sys_fst, sys_snd]
  split_ifs <;> simp [toggle_calls_append] <;> simp [toggle_calls]

theorem restrict_calls_after_toggle (K : Kernel) (t : Trace) :
    restrict_calls (trace_after_toggle K t) = restrict_calls t := by
  simp [trace_after_toggle, restrict_calls_append]; simp [restrict_calls]

theorem toggle_calls_after_toggle (K : Kernel) (t : Trace) :
    toggle_calls (trace_after_toggle K t) = toggle_calls t ++ [K t .prctl_set_no_new_privs] := by
  simp [trace_after_toggle, toggle_calls_append]; simp [toggle_calls]

/-- What the last steps of `ll_ruleset_enforce` add to a history: one toggle call, and
one self-restriction call exactly when the toggle returned 0. -/
theorem enforce_finish_calls (K : Kernel) (fd : Int) (m : Nat) (t : Trace) :
    toggle_calls (enforce_finish K fd m t).2 = toggle_calls t ++ [K t .prctl_set_no_new_privs] ∧
    (restrict_calls (enforce_finish K fd m t).2 =
      if (K t .prctl_set_no_new_privs).ret = 0 then restrict_calls t ++ [(fd, m)]
      else restrict_calls t) := by
  unfold enforce_finish
  by_cases h : (K t .prctl_set_no_new_privs).ret = 0
  · rw [if_neg (not_not.mpr h), if_pos h]
    split_ifs <;>
      simp [toggle_calls_append, restrict_calls_append, toggle_calls_after_toggle,
        restrict_calls_after_toggle] <;>
      simp [toggle_calls, restrict_calls]
  · rw [if_pos h, if_neg h]
    exact ⟨toggle_calls_after_toggle K t, restrict_calls_after_toggle K t⟩

theorem restrict_errno_not_success (err : Int) :
    ll_error_from_restrict_errno err ≠ LL_ERROR_OK ∧
    ll_error_from_restrict_errno err ≠ LL_ERROR_OK_PARTIAL_SANDBOX := by
  unfold ll_error_from_restrict_errno ll_error_system ll_error_with_errno
  split_ifs <;> decide

theorem enforce_finish_ne_partial (K : Kernel) (fd : Int) (m : Nat) (t : Trace) :
    (enforce_finish K fd m t).1 ≠ LL_ERROR_OK_PARTIAL_SANDBOX := by
  unfold enforce_finish
  split_ifs
  · exact fun h => ll_error_t.noConfusion h
  · exact (restrict_errno_not_success _).2
  · exact fun h => ll_error_t.noConfusion h

theorem enforce_ne_partial (K : Kernel) (ruleset : Option ll_ruleset) (flags : Nat)
    (t : Trace) : (ll_ruleset_enforce K ruleset flags t).1 ≠ LL_ERROR_OK_PARTIAL_SANDBOX := by
  cases ruleset with
  | none => exact fun h => ll_error_t.noConfusion h
  | some r =>
    rw [ll_ruleset_enforce_steps]
    split_ifs
    any_goals exact enforce_finish_ne_partial _ _ _ _
    all_goals exact fun h => ll_error_t.noConfusion h

/-! ## Enforcement -/

/-- C15: `ll_ruleset_enforce` with a null ruleset gives `LL_ERROR_INVALID_ARGUMENT` and
with a negative handle `LL_ERROR_RESTRICT_BAD_FD`, whatever the flags; with a valid
handle, whatever the ruleset's ABI and mode, every 32-bit flags value with a bit outside
the three known flags gives `LL_ERROR_RESTRICT_FLAGS_INVALID`.  In all three cases no
call at all is made, so neither the toggle nor the self-restriction channel is
invoked. -/
theorem enforce_rejects_unknown_flags (K : Kernel) (r : ll_ruleset) (t : Trace) :
    (∀ flags : Nat, ll_ruleset_enforce K none flags t = (LL_ERROR_INVALID_ARGUMENT, t)) ∧
    (∀ flags : Nat, r.ruleset_fd < 0 →
      ll_ruleset_enforce K (some r) flags t = (LL_ERROR_RESTRICT_BAD_FD, t)) ∧
    (∀ flags : Nat, flags < 2 ^ 32 → ¬ bits_subset flags known_flags → 0 ≤ r.ruleset_fd →
      ll_ruleset_enforce K (some r) flags t = (LL_ERROR_RESTRICT_FLAGS_INVALID, t)) := by
  refine ⟨fun _ => rfl, fun flags h => ?_, fun flags hlt hunk hfd => ?_⟩
  · rw [ll_ruleset_enforce_steps, if_pos h]
  · have h2 : flags &&& not_u32 known_flags ≠ 0 :=
      fun h => hunk ((and_not_u32_eq_zero_iff _ _ hlt).mp h)
    rw [ll_ruleset_enforce_steps, if_neg (not_lt.mpr hfd), if_pos h2]

/-- C15, at concrete inputs: flags `1 << 31` on a best-effort ruleset of ABI 7 with a
valid handle, and any flags on a ruleset with handle -1. -/
theorem enforce_rejects_unknown_flags_witness :
    ll_ruleset_enforce (sample_kernel 7 1 0)
        (some (sample_ruleset 7 LL_ABI_COMPAT_BEST_EFFORT 0)) 2147483648 []
      = (LL_ERROR_RESTRICT_FLAGS_INVALID, []) ∧
    ll_ruleset_enforce (sample_kernel 7 1 0)
        (some ⟨-1, 7, LL_ABI_COMPAT_STRICT, 12, 0, 0⟩) 2147483648 []
      = (LL_ERROR_RESTRICT_BAD_FD, []) :=
  ⟨(enforce_rejects_unknown_flags (sample_kernel 7 1 0)
      (sample_ruleset 7 LL_ABI_COMPAT_BEST_EFFORT 0) []).2.2 2147483648 (by norm_num)
      (by decide) (by decide),
   (enforce_rejects_unknown_flags (sample_kernel 7 1 0)
      ⟨-1, 7, LL_ABI_COMPAT_STRICT, 12, 0, 0⟩ []).2.1 2147483648 (by decide)⟩

/-- C16: for a strict-mode ruleset with a valid handle and 32-bit flags within the known
set, if the flags intersected with the flags supported at the ruleset's ABI differ from
the flags, `ll_ruleset_enforce` fails with `LL_ERROR_RESTRICT_PARTIAL_SANDBOX_STRICT`
and makes no call at all (no diagnostic probe, no toggle, no self-restriction); and the
intersection differs exactly when some flag is requested at an ABI below 7. -/
theorem strict_enforce_unsupported_flags (K : Kernel) (r : ll_ruleset) (flags : Nat)
    (t : Trace) (hstrict : r.compat_mode = LL_ABI_COMPAT_STRICT) (hfd : 0 ≤ r.ruleset_fd)
    (hlt : flags < 2 ^ 32) (hknown : bits_subset flags known_flags) :
    (flags &&& ll_supported_restrict_self_flags r.abi ≠ flags →
      ll_ruleset_enforce K (some r) flags t
        = (LL_ERROR_RESTRICT_PARTIAL_SANDBOX_STRICT, t)) ∧
    (flags &&& ll_supported_restrict_self_flags r.abi ≠ flags ↔
      (flags ≠ 0 ∧ r.abi < 7)) := by
  have h2 : ¬ (flags &&& not_u32 known_flags ≠ 0) :=
    not_not.mpr ((and_not_u32_eq_zero_iff _ _ hlt).mpr hknown)
  constructor
  · intro hdiff
    rw [ll_ruleset_enforce_steps, if_neg (not_lt.mpr hfd), if_neg h2,
      if_pos ⟨hstrict, hdiff⟩]
  · unfold ll_supported_restrict_self_flags
    by_cases h7 : r.abi < 7
    · rw [if_pos h7, Nat.and_zero]
      exact ⟨fun h => ⟨fun h0 => h h0.symm, h7⟩, fun h h0 => h.1 h0.symm⟩
    · rw [if_neg h7]
      exact ⟨fun h => absurd hknown h, fun h => absurd h.2 h7⟩

/-- C16, at a concrete input: a strict ruleset of ABI 6 and the flag
`LOG_SAME_EXEC_OFF`. -/
theorem strict_enforce_unsupported_flags_witness :
    ll_ruleset_enforce (sample_kernel 6 1 0)
        (some (sample_ruleset 6 LL_ABI_COMPAT_STRICT 0)) 1 []
      = (LL_ERROR_RESTRICT_PARTIAL_SANDBOX_STRICT, []) ∧
    ((1 : Nat) &&& ll_supported_restrict_self_flags (sample_ruleset 6 LL_ABI_COMPAT_STRICT 0).abi
        ≠ 1 ↔
      ((1 : Nat) ≠ 0 ∧ (sample_ruleset 6 LL_ABI_COMPAT_STRICT 0).abi < 7)) :=
  ⟨(strict_enforce_unsupported_flags (sample_kernel 6 1 0)
      (sample_ruleset 6 LL_ABI_COMPAT_STRICT 0) 1 [] rfl (by decide) (by norm_num)
      (by decide)).1 (by decide),
   (strict_enforce_unsupported_flags (sample_kernel 6 1 0)
      (sample_ruleset 6 LL_ABI_COMPAT_STRICT 0) 1 [] rfl (by decide) (by norm_num)
      (by decide)).2⟩

/-- C17: the diagnostic probe reports the logging subsystem unavailable (0) exactly when
opening the socket fails with `EPROTONOSUPPORT`, and available (1) on every other
outcome, other failures included.  For a ruleset with a valid handle and 32-bit flags
within the known set whose masked flags are non-zero, when the probe reports
unavailable: in strict mode `ll_ruleset_enforce` fails with
`LL_ERROR_RESTRICT_PARTIAL_SANDBOX_STRICT` and calls neither the toggle nor the
self-restriction channel; in best-effort mode it goes on with the flags dropped: it
calls the toggle, and, when the toggle returns 0, submits flags 0 to the
self-restriction channel (and submits nothing when the toggle fails). -/
theorem enforce_without_audit (K : Kernel) (r : ll_ruleset) (flags : Nat) (t : Trace) :
    (((ll_audit_supported K t).1 = 0 ↔
        ((K t .socket_netlink).ret < 0 ∧ (K t .socket_netlink).errno = EPROTONOSUPPORT)) ∧
      (¬ ((K t .socket_netlink).ret < 0 ∧ (K t .socket_netlink).errno = EPROTONOSUPPORT) →
        (ll_audit_supported K t).1 = 1)) ∧
    (0 ≤ r.ruleset_fd → flags < 2 ^ 32 → bits_subset flags known_flags →
      flags &&& ll_supported_restrict_self_flags r.abi ≠ 0 →
      ((K t .socket_netlink).ret < 0 ∧ (K t .socket_netlink).errno = EPROTONOSUPPORT) →
      (r.compat_mode = LL_ABI_COMPAT_STRICT →
        (ll_ruleset_enforce K (some r) flags t).1 = LL_ERROR_RESTRICT_PARTIAL_SANDBOX_STRICT ∧
        toggle_calls (ll_ruleset_enforce K (some r) flags t).2 = toggle_calls t ∧
        restrict_calls (ll_ruleset_enforce K (some r) flags t).2 = restrict_calls t) ∧
      (r.compat_mode = LL_ABI_COMPAT_BEST_EFFORT →
        ll_ruleset_enforce K (some r) flags t
          = enforce_finish K r.ruleset_fd 0 (t ++ [⟨.socket_netlink, K t .socket_netlink⟩]) ∧
        toggle_calls (ll_ruleset_enforce K (some r) flags t).2
          = toggle_calls t ++
            [K (t ++ [⟨.socket_netlink, K t .socket_netlink⟩]) .prctl_set_no_new_privs] ∧
        ((K (t ++ [⟨.socket_netlink, K t .socket_netlink⟩]) .prctl_set_no_new_privs).ret = 0 →
          restrict_calls (ll_ruleset_enforce K (some r) flags t).2
            = restrict_calls t ++ [(r.ruleset_fd, 0)]) ∧
        ((K (t ++ [⟨.socket_netlink, K t .socket_netlink⟩]) .prctl_set_no_new_privs).ret ≠ 0 →
          restrict_calls (ll_ruleset_enforce K (some r) flags t).2 = restrict_calls t))) := by
  refine ⟨audit_supported_value K t, fun hfd hlt hknown hmasked hun => ?_⟩
  have h2 : ¬ (flags &&& not_u32 known_flags ≠ 0) :=
    not_not.mpr ((and_not_u32_eq_zero_iff _ _ hlt).mpr hknown)
  have ha : (ll_audit_supported K t).1 = 0 := (audit_supported_value K t).1.mpr hun
  have htr := audit_unavailable_trace K t hun
  have hR : restrict_calls (t ++ [⟨.socket_netlink, K t .socket_netlink⟩]) = restrict_calls t := by
    rw [← htr]; exact restrict_calls_audit K t
  have hT : toggle_calls (t ++ [⟨.socket_netlink, K t .socket_netlink⟩]) = toggle_calls t := by
    rw [← htr]; exact toggle_calls_audit K t
  rw [ll_ruleset_enforce_steps, if_neg (not_lt.mpr hfd), if_neg h2]
  constructor
  · intro hs
    by_cases hd : flags &&& ll_supported_restrict_self_flags r.abi ≠ flags
    · rw [if_pos ⟨hs, hd⟩]
      exact ⟨rfl, rfl, rfl⟩
    · have hn : ¬ (r.compat_mode = LL_ABI_COMPAT_STRICT ∧
          flags &&& ll_supported_restrict_self_flags r.abi ≠ flags) := fun h => hd h.2
      rw [if_neg hn, if_pos hmasked, if_pos ha, if_pos hs, htr]
      exact ⟨rfl, hT, hR⟩
  · intro hb
    have hns : ¬ r.compat_mode = LL_ABI_COMPAT_STRICT := by rw [hb]; decide
    have hn : ¬ (r.compat_mode = LL_ABI_COMPAT_STRICT ∧
        flags &&& ll_supported_restrict_self_flags r.abi ≠ flags) := fun h => hns h.1
    rw [if_neg hn, if_pos hmasked, if_pos ha, if_neg hns, htr]
    have hc := enforce_finish_calls K r.ruleset_fd 0
      (t ++ [⟨.socket_netlink, K t .socket_netlink⟩])
    rw [hT, hR] at hc
    refine ⟨rfl, hc.1, fun h0 => ?_, fun h0 => ?_⟩
    · rw [hc.2, if_pos h0]
    · rw [hc.2, if_neg h0]

/-- C17, at concrete inputs: rulesets of ABI 7 asked for `LOG_SAME_EXEC_OFF` in an
environment without the audit subsystem; strict mode fails after the probe alone,
best-effort mode submits flags 0. -/
theorem enforce_without_audit_witness :
    ll_ruleset_enforce no_audit_kernel (some (sample_ruleset 7 LL_ABI_COMPAT_STRICT 0)) 1 []
      = (LL_ERROR_RESTRICT_PARTIAL_SANDBOX_STRICT,
          [⟨.socket_netlink, ⟨-1, EPROTONOSUPPORT, 0⟩⟩]) ∧
    ll_ruleset_enforce no_audit_kernel (some (sample_ruleset 7 LL_ABI_COMPAT_BEST_EFFORT 0)) 1 []
      = (LL_ERROR_OK,
          [⟨.socket_netlink, ⟨-1, EPROTONOSUPPORT, 0⟩⟩,
           ⟨.prctl_set_no_new_privs, ⟨0, 0, 0⟩⟩,
           ⟨.landlock_restrict_self 3 0, ⟨0, 0, 0⟩⟩]) ∧
    (ll_ruleset_enforce no_audit_kernel
        (some (sample_ruleset 7 LL_ABI_COMPAT_STRICT 0)) 1 []).1
      = LL_ERROR_RESTRICT_PARTIAL_SANDBOX_STRICT ∧
    restrict_calls (ll_ruleset_enforce no_audit_kernel
        (some (sample_ruleset 7 LL_ABI_COMPAT_BEST_EFFORT 0)) 1 []).2
      = restrict_calls [] ++ [((sample_ruleset 7 LL_ABI_COMPAT_BEST_EFFORT 0).ruleset_fd, 0)] :=
  ⟨by decide, by decide,
   (((enforce_without_audit no_audit_kernel (sample_ruleset 7 LL_ABI_COMPAT_STRICT 0) 1 []).2
      (by decide) (by norm_num) (by decide) (by decide) (by decide)).1 rfl).1,
   (((enforce_without_audit no_audit_kernel (sample_ruleset 7 LL_ABI_COMPAT_BEST_EFFORT 0) 1
      []).2 (by decide) (by norm_num) (by decide) (by decide) (by decide)).2 rfl).2.2.1
      (by decide)⟩

/-- C18: whatever the kernel answers, `ll_ruleset_enforce` makes at most one call on the
self-restriction channel; the flags it submits are a subset of the requested flags
intersected with the flags supported at the ruleset's ABI, and in strict mode they are
exactly the requested flags. -/
theorem enforce_submits_within_supported (K : Kernel) (ruleset : Option ll_ruleset)
    (flags : Nat) (t : Trace) :
    restrict_calls (ll_ruleset_enforce K ruleset flags t).2 = restrict_calls t ∨
    ∃ (r : ll_ruleset) (m : Nat), ruleset = some r ∧
      restrict_calls (ll_ruleset_enforce K ruleset flags t).2
        = restrict_calls t ++ [(r.ruleset_fd, m)] ∧
      bits_subset m (flags &&& ll_supported_restrict_self_flags r.abi) ∧
      (r.compat_mode = LL_ABI_COMPAT_STRICT → m = flags) := by
  cases ruleset with
  | none => exact Or.inl rfl
  | some r =>
    have key : ∀ (m : Nat) (u : Trace), restrict_calls u = restrict_calls t →
        bits_subset m (flags &&& ll_supported_restrict_self_flags r.abi) →
        (r.compat_mode = LL_ABI_COMPAT_STRICT → m = flags) →
        (restrict_calls (enforce_finish K r.ruleset_fd m u).2 = restrict_calls t ∨
          ∃ (r1 : ll_ruleset) (m1 : Nat), some r = some r1 ∧
            restrict_calls (enforce_finish K r.ruleset_fd m u).2
              = restrict_calls t ++ [(r1.ruleset_fd, m1)] ∧
            bits_subset m1 (flags &&& ll_supported_restrict_self_flags r1.abi) ∧
            (r1.compat_mode = LL_ABI_COMPAT_STRICT → m1 = flags)) := by
      intro m u hu hsub hs
      rw [(enforce_finish_calls K r.ruleset_fd m u).2, hu]
      by_cases h0 : (K u .prctl_set_no_new_privs).ret = 0
      · rw [if_pos h0]
        exact Or.inr ⟨r, m, rfl, rfl, hsub, hs⟩
      · rw [if_neg h0]
        exact Or.inl rfl
    rw [ll_ruleset_enforce_steps]
    by_cases h1 : r.ruleset_fd < 0
    · rw [if_pos h1]; exact Or.inl rfl
    rw [if_neg h1]
    by_cases h2 : flags &&& not_u32 known_flags ≠ 0
    · rw [if_pos h2]; exact Or.inl rfl
    rw [if_neg h2]
    by_cases h3 : r.compat_mode = LL_ABI_COMPAT_STRICT ∧
        flags &&& ll_supported_restrict_self_flags r.abi ≠ flags
    · rw [if_pos h3]; exact Or.inl rfl
    rw [if_neg h3]
    have hstrict : r.compat_mode = LL_ABI_COMPAT_STRICT →
        flags &&& ll_supported_restrict_self_flags r.abi = flags :=
      fun hs => not_not.mp (fun hd => h3 ⟨hs, hd⟩)
    have hself : bits_subset (flags &&& ll_supported_restrict_self_flags r.abi)
        (flags &&& ll_supported_restrict_self_flags r.abi) := Nat.and_self _
    by_cases h4 : flags &&& ll_supported_restrict_self_flags r.abi ≠ 0
    · rw [if_pos h4]
      by_cases h5 : (ll_audit_supported K t).1 = 0
      · rw [if_pos h5]
        by_cases h6 : r.compat_mode = LL_ABI_COMPAT_STRICT
        · rw [if_pos h6]; exact Or.inl (restrict_calls_audit K t)
        · rw [if_neg h6]
          exact key 0 _ (restrict_calls_audit K t) (Nat.zero_and _) (fun hs => absurd hs h6)
      · rw [if_neg h5]
        exact key _ _ (restrict_calls_audit K t) hself hstrict
    · rw [if_neg h4]
      exact key _ _ rfl hself hstrict

/-- C18, at a concrete input: a strict ruleset of ABI 7 asked for all three logging
flags (7) with the audit subsystem present; exactly those flags are submitted. -/
theorem enforce_submits_within_supported_witness :
    ll_ruleset_enforce (sample_kernel 7 1 0) (some (sample_ruleset 7 LL_ABI_COMPAT_STRICT 0)) 7 []
      = (LL_ERROR_OK,
          [⟨.socket_netlink, ⟨0, 0, 0⟩⟩, ⟨.close 0, ⟨0, 0, 0⟩⟩,
           ⟨.prctl_set_no_new_privs, ⟨0, 0, 0⟩⟩,
           ⟨.landlock_restrict_self 3 7, ⟨0, 0, 0⟩⟩]) ∧
    (restrict_calls (ll_ruleset_enforce (sample_kernel 7 1 0)
        (some (sample_ruleset 7 LL_ABI_COMPAT_STRICT 0)) 7 []).2 = restrict_calls [] ∨
    ∃ (r : ll_ruleset) (m : Nat), some (sample_ruleset 7 LL_ABI_COMPAT_STRICT 0) = some r ∧
      restrict_calls (ll_ruleset_enforce (sample_kernel 7 1 0)
          (some (sample_ruleset 7 LL_ABI_COMPAT_STRICT 0)) 7 []).2
        = restrict_calls [] ++ [(r.ruleset_fd, m)] ∧
      bits_subset m (7 &&& ll_supported_restrict_self_flags r.abi) ∧
      (r.compat_mode = LL_ABI_COMPAT_STRICT → m = 7)) :=
  ⟨by decide,
   enforce_submits_within_supported (sample_kernel 7 1 0)
     (some (sample_ruleset 7 LL_ABI_COMPAT_STRICT 0)) 7 []⟩

/-- C19 fails on the code: a best-effort ruleset of ABI 6 with a valid handle, asked to
enforce with the known flag `LOG_SAME_EXEC_OFF`, submits flags 0 (the flag is dropped, as
the ABI is below 7) and returns plain `LL_ERROR_OK`; so does a best-effort ruleset of
ABI 7 when the audit subsystem is unavailable.  No input at all makes
`ll_ruleset_enforce` return `LL_ERROR_OK_PARTIAL_SANDBOX`. -/
theorem best_effort_enforce_untagged :
    (bits_subset 1 known_flags ∧
      ll_ruleset_enforce (sample_kernel 6 1 0)
          (some (sample_ruleset 6 LL_ABI_COMPAT_BEST_EFFORT 0)) 1 []
        = (LL_ERROR_OK,
            [⟨.prctl_set_no_new_privs, ⟨0, 0, 0⟩⟩,
             ⟨.landlock_restrict_self 3 0, ⟨0, 0, 0⟩⟩])) ∧
    ll_ruleset_enforce no_audit_kernel
        (some (sample_ruleset 7 LL_ABI_COMPAT_BEST_EFFORT 0)) 1 []
      = (LL_ERROR_OK,
          [⟨.socket_netlink, ⟨-1, EPROTONOSUPPORT, 0⟩⟩,
           ⟨.prctl_set_no_new_privs, ⟨0, 0, 0⟩⟩,
           ⟨.landlock_restrict_self 3 0, ⟨0, 0, 0⟩⟩]) ∧
    ∀ (K : Kernel) (ruleset : Option ll_ruleset) (flags : Nat) (t : Trace),
      (ll_ruleset_enforce K ruleset flags t).1 ≠ LL_ERROR_OK_PARTIAL_SANDBOX :=
  ⟨by decide, by decide, enforce_ne_partial⟩

/-! ## Capability tables -/

/-- C20: each of the four capability tables is monotone in the ABI version, over all
integers: for `v ≤ w` the mask supported at `v` is a subset of the mask supported at
`w`, for the filesystem, network, scope and restrict-self tables. -/
theorem supported_masks_monotone (v w : ll_abi_t) (h : v ≤ w) :
    bits_subset (ll_supported_access_fs v) (ll_supported_access_fs w) ∧
    bits_subset (ll_supported_access_net v) (ll_supported_access_net w) ∧
    bits_subset (ll_supported_scopes v) (ll_supported_scopes w) ∧
    bits_subset (ll_supported_restrict_self_flags v) (ll_supported_restrict_self_flags w) := by
  refine ⟨?_, ?_, ?_, ?_⟩
  · simp only [ll_supported_access_fs]
    split_ifs <;> first | decide | (exfalso; simp only [ll_abi_t] at *; omega)
  · simp only [ll_supported_access_net]
    split_ifs <;> first | decide | (exfalso; simp only [ll_abi_t] at *; omega)
  · simp only [ll_supported_scopes]
    split_ifs <;> first | decide | (exfalso; simp only [ll_abi_t] at *; omega)
  · simp only [ll_supported_restrict_self_flags]
    split_ifs <;> first | decide | (exfalso; simp only [ll_abi_t] at *; omega)

/-- C20, at concrete inputs: from ABI 3 to ABI 5 and from ABI -2 to ABI 7. -/
theorem supported_masks_monotone_witness :
    (bits_subset (ll_supported_access_fs 3) (ll_supported_access_fs 5) ∧
      bits_subset (ll_supported_access_net 3) (ll_supported_access_net 5) ∧
      bits_subset (ll_supported_scopes 3) (ll_supported_scopes 5) ∧
      bits_subset (ll_supported_restrict_self_flags 3) (ll_supported_restrict_self_flags 5)) ∧
    (bits_subset (ll_supported_access_fs (-2)) (ll_supported_access_fs 7) ∧
      bits_subset (ll_supported_access_net (-2)) (ll_supported_access_net 7) ∧
      bits_subset (ll_supported_scopes (-2)) (ll_supported_scopes 7) ∧
      bits_subset (ll_supported_restrict_self_flags (-2))
        (ll_supported_restrict_self_flags 7)) :=
  ⟨supported_masks_monotone 3 5 (by decide), supported_masks_monotone (-2) 7 (by decide)⟩

/-- The four shapes of the filesystem table. -/
theorem supported_access_fs_cases (v : ll_abi_t) :
    (v < 2 ∧ ll_supported_access_fs v = 4095) ∨
    (v = 2 ∧ ll_supported_access_fs v = 12287) ∨
    (3 ≤ v ∧ v < 5 ∧ ll_supported_access_fs v = 28671) ∨
    (5 ≤ v ∧ ll_supported_access_fs v = 61439) := by
  simp only [ll_supported_access_fs]
  split_ifs <;> simp only [ll_abi_t] at * <;>
    first
      | exact Or.inl ⟨by omega, by decide⟩
      | exact Or.inr (Or.inl ⟨by omega, by decide⟩)
      | exact Or.inr (Or.inr (Or.inl ⟨by omega, by omega, by decide⟩))
      | exact Or.inr (Or.inr (Or.inr ⟨by omega, by decide⟩))
      | (exfalso; omega)

/-- C21: for every ABI version `v` the filesystem table is exactly the twelve baseline
rights, plus `REFER` iff `v ≥ 2`, plus `TRUNCATE` iff `v ≥ 3`, plus `IOCTL_DEV` iff
`v ≥ 5`: the value is that union, each of the twelve baseline rights is in it, each of
the three later rights is in it exactly from its ABI on, and no bit outside these
fifteen is in it. -/
theorem supported_access_fs_table (v : ll_abi_t) :
    ll_supported_access_fs v =
      baseline_access_fs |||
        (if v ≥ 2 then LANDLOCK_ACCESS_FS_REFER else 0) |||
        (if v ≥ 3 then LANDLOCK_ACCESS_FS_TRUNCATE else 0) |||
        (if v ≥ 5 then LANDLOCK_ACCESS_FS_IOCTL_DEV else 0) ∧
    (∀ b ∈ [LANDLOCK_ACCESS_FS_EXECUTE, LANDLOCK_ACCESS_FS_WRITE_FILE,
        LANDLOCK_ACCESS_FS_READ_FILE, LANDLOCK_ACCESS_FS_READ_DIR,
        LANDLOCK_ACCESS_FS_REMOVE_DIR, LANDLOCK_ACCESS_FS_REMOVE_FILE,
        LANDLOCK_ACCESS_FS_MAKE_CHAR, LANDLOCK_ACCESS_FS_MAKE_DIR,
        LANDLOCK_ACCESS_FS_MAKE_REG, LANDLOCK_ACCESS_FS_MAKE_SOCK,
        LANDLOCK_ACCESS_FS_MAKE_FIFO, LANDLOCK_ACCESS_FS_MAKE_BLOCK],
      bits_subset b (ll_supported_access_fs v)) ∧
    (bits_subset LANDLOCK_ACCESS_FS_REFER (ll_supported_access_fs v) ↔ v ≥ 2) ∧
    (bits_subset LANDLOCK_ACCESS_FS_TRUNCATE (ll_supported_access_fs v) ↔ v ≥ 3) ∧
    (bits_subset LANDLOCK_ACCESS_FS_IOCTL_DEV (ll_supported_access_fs v) ↔ v ≥ 5) ∧
    bits_subset (ll_supported_access_fs v)
      (baseline_access_fs ||| LANDLOCK_ACCESS_FS_REFER ||| LANDLOCK_ACCESS_FS_TRUNCATE |||
        LANDLOCK_ACCESS_FS_IOCTL_DEV) := by
  have hiff : ∀ {p q : Prop}, p → q → (p ↔ q) := fun hp hq => ⟨fun _ => hq, fun _ => hp⟩
  have hnn : ∀ {p q : Prop}, ¬ p → ¬ q → (p ↔ q) :=
    fun hp hq => ⟨fun h => absurd h hp, fun h => absurd h hq⟩
  revert v
  intro (v : Int)
  rcases supported_access_fs_cases v with ⟨h, e⟩ | ⟨h, e⟩ | ⟨h3, h5, e⟩ | ⟨h, e⟩ <;>
    simp only [ll_abi_t] at *
  · have c2 : ¬ (v : Int) ≥ 2 := by omega
    have c3 : ¬ (v : Int) ≥ 3 := by omega
    have c5 : ¬ (v : Int) ≥ 5 := by omega
    rw [e, if_neg c2, if_neg c3, if_neg c5]
    exact ⟨by decide, by decide, hnn (by decide) c2, hnn (by decide) c3,
      hnn (by decide) c5, by decide⟩
  · have c2 : (v : Int) ≥ 2 := by omega
    have c3 : ¬ (v : Int) ≥ 3 := by omega
    have c5 : ¬ (v : Int) ≥ 5 := by omega
    rw [e, if_pos c2, if_neg c3, if_neg c5]
    exact ⟨by decide, by decide, hiff (by decide) c2, hnn (by decide) c3,
      hnn (by decide) c5, by decide⟩
  · have c2 : (v : Int) ≥ 2 := by omega
    have c3 : (v : Int) ≥ 3 := by omega
    have c5 : ¬ (v : Int) ≥ 5 := by omega
    rw [e, if_pos c2, if_pos c3, if_neg c5]
    exact ⟨by decide, by decide, hiff (by decide) c2, hiff (by decide) c3,
      hnn (by decide) c5, by decide⟩
  · have c2 : (v : Int) ≥ 2 := by omega
    have c3 : (v : Int) ≥ 3 := by omega
    have c5 : (v : Int) ≥ 5 := by omega
    rw [e, if_pos c2, if_pos c3, if_pos c5]
    exact ⟨by decide, by decide, hiff (by decide) c2, hiff (by decide) c3,
      hiff (by decide) c5, by decide⟩

theorem enforce_finish_length (K : Kernel) (fd : Int) (m : Nat) (u : Trace) :
    u.length < (enforce_finish K fd m u).2.length := by
  unfold enforce_finish trace_after_toggle
  split_ifs <;> simp

theorem audit_length (K : Kernel) (t : Trace) :
    t.length < (ll_audit_supported K t).2.length := by
  simp only [ll_audit_supported, sys_fst, sys_snd]
  split_ifs <;> simp

theorem enforce_finish_ne_at (K : Kernel) (fd : Int) (m : Nat) (u t : Trace) (e : ll_error_t)
    (h : t.length ≤ u.length) : enforce_finish K fd m u ≠ (e, t) := by
  intro heq
  have h1 := enforce_finish_length K fd m u
  rw [heq] at h1
  exact absurd h1 (not_lt.mpr h)

/-- With a valid handle and flags inside the known set, `ll_ruleset_enforce` does not
stop at the flag validation. -/
theorem enforce_known_flags_pass (K : Kernel) (r : ll_ruleset) (flags : Nat) (t : Trace)
    (hfd : 0 ≤ r.ruleset_fd) (h2 : ¬ (flags &&& not_u32 known_flags ≠ 0)) :
    ll_ruleset_enforce K (some r) flags t ≠ (LL_ERROR_RESTRICT_FLAGS_INVALID, t) := by
  rw [ll_ruleset_enforce_steps, if_neg (not_lt.mpr hfd), if_neg h2]
  have hal := Nat.le_of_lt (audit_length K t)
  split_ifs
  · exact fun h => ll_error_t.noConfusion (congrArg Prod.fst h)
  · exact fun h => ll_error_t.noConfusion (congrArg Prod.fst h)
  · exact enforce_finish_ne_at _ _ _ _ _ _ hal
  · exact enforce_finish_ne_at _ _ _ _ _ _ hal
  · exact enforce_finish_ne_at _ _ _ _ _ _ (Nat.le_refl _)

/-- C22: for every ABI version `v`, the network table is 0 below 4 and exactly
`BIND_TCP` and `CONNECT_TCP` from 4 on; the scope table is 0 below 6 and exactly
`ABSTRACT_UNIX_SOCKET` and `SIGNAL` from 6 on; the restrict-self table is 0 below 7 and
exactly the three logging flags from 7 on.  That last set is the one
`ll_ruleset_enforce` treats as known: with a valid handle, it stops at the flag
validation (`LL_ERROR_RESTRICT_FLAGS_INVALID`, no call made) exactly for the 32-bit
flags that are not within it. -/
theorem supported_net_scope_flags_tables (v : ll_abi_t) :
    ((v < 4 → ll_supported_access_net v = 0) ∧
      (4 ≤ v → ll_supported_access_net v =
        LANDLOCK_ACCESS_NET_BIND_TCP ||| LANDLOCK_ACCESS_NET_CONNECT_TCP)) ∧
    ((v < 6 → ll_supported_scopes v = 0) ∧
      (6 ≤ v → ll_supported_scopes v =
        LANDLOCK_SCOPE_ABSTRACT_UNIX_SOCKET ||| LANDLOCK_SCOPE_SIGNAL)) ∧
    ((v < 7 → ll_supported_restrict_self_flags v = 0) ∧
      (7 ≤ v → ll_supported_restrict_self_flags v =
        LANDLOCK_RESTRICT_SELF_LOG_SAME_EXEC_OFF ||| LANDLOCK_RESTRICT_SELF_LOG_NEW_EXEC_ON |||
          LANDLOCK_RESTRICT_SELF_LOG_SUBDOMAINS_OFF)) ∧
    (∀ (K : Kernel) (r : ll_ruleset) (flags : Nat) (t : Trace),
      0 ≤ r.ruleset_fd → flags < 2 ^ 32 →
      (ll_ruleset_enforce K (some r) flags t = (LL_ERROR_RESTRICT_FLAGS_INVALID, t) ↔
        ¬ bits_subset flags
          (LANDLOCK_RESTRICT_SELF_LOG_SAME_EXEC_OFF ||| LANDLOCK_RESTRICT_SELF_LOG_NEW_EXEC_ON |||
            LANDLOCK_RESTRICT_SELF_LOG_SUBDOMAINS_OFF))) := by
  have hnet : (v < 4 → ll_supported_access_net v = 0) ∧
      (4 ≤ v → ll_supported_access_net v =
        LANDLOCK_ACCESS_NET_BIND_TCP ||| LANDLOCK_ACCESS_NET_CONNECT_TCP) :=
    ⟨fun below => by simp only [ll_supported_access_net, if_pos below],
     fun above => by simp only [ll_supported_access_net, if_neg (not_lt.mpr above)]⟩
  have hscope : (v < 6 → ll_supported_scopes v = 0) ∧
      (6 ≤ v → ll_supported_scopes v =
        LANDLOCK_SCOPE_ABSTRACT_UNIX_SOCKET ||| LANDLOCK_SCOPE_SIGNAL) :=
    ⟨fun below => by simp only [ll_supported_scopes, if_pos below],
     fun above => by simp only [ll_supported_scopes, if_neg (not_lt.mpr above)]⟩
  have hflags : (v < 7 → ll_supported_restrict_self_flags v = 0) ∧
      (7 ≤ v → ll_supported_restrict_self_flags v =
        LANDLOCK_RESTRICT_SELF_LOG_SAME_EXEC_OFF ||| LANDLOCK_RESTRICT_SELF_LOG_NEW_EXEC_ON |||
          LANDLOCK_RESTRICT_SELF_LOG_SUBDOMAINS_OFF) :=
    ⟨fun below => by simp only [ll_supported_restrict_self_flags, if_pos below],
     fun above => by simp only [ll_supported_restrict_self_flags, if_neg (not_lt.mpr above)]⟩
  refine ⟨hnet, hscope, hflags, ?_⟩
  intro K r flags t hfd hlt
  have hk := and_not_u32_eq_zero_iff flags known_flags hlt
  constructor
  · intro heq hsub
    exact enforce_known_flags_pass K r flags t hfd (not_not.mpr (hk.mpr hsub)) heq
  · intro hns
    have h2 : flags &&& not_u32 known_flags ≠ 0 := fun h => hns (hk.mp h)
    rw [ll_ruleset_enforce_steps, if_neg (not_lt.mpr hfd), if_pos h2]

/-- C22, at concrete inputs: the tables at ABI 3 and at ABI 7, and the flag validation
for flags 8 (outside the known set) and 7 (inside it) on a best-effort ruleset. -/
theorem supported_net_scope_flags_tables_witness :
    (ll_supported_access_net 3 = 0 ∧ ll_supported_scopes 3 = 0 ∧
      ll_supported_restrict_self_flags 3 = 0) ∧
    (ll_supported_access_net 7 = 3 ∧ ll_supported_scopes 7 = 3 ∧
      ll_supported_restrict_self_flags 7 = 7) ∧
    ll_ruleset_enforce (sample_kernel 7 1 0)
        (some (sample_ruleset 7 LL_ABI_COMPAT_BEST_EFFORT 0)) 8 []
      = (LL_ERROR_RESTRICT_FLAGS_INVALID, []) ∧
    ll_ruleset_enforce (sample_kernel 7 1 0)
        (some (sample_ruleset 7 LL_ABI_COMPAT_BEST_EFFORT 0)) 7 []
      ≠ (LL_ERROR_RESTRICT_FLAGS_INVALID, []) :=
  ⟨⟨(supported_net_scope_flags_tables 3).1.1 (by decide),
      (supported_net_scope_flags_tables 3).2.1.1 (by decide),
      (supported_net_scope_flags_tables 3).2.2.1.1 (by decide)⟩,
   ⟨(supported_net_scope_flags_tables 7).1.2 (by decide),
      (supported_net_scope_flags_tables 7).2.1.2 (by decide),
      (supported_net_scope_flags_tables 7).2.2.1.2 (by decide)⟩,
   ((supported_net_scope_flags_tables 7).2.2.2 (sample_kernel 7 1 0)
      (sample_ruleset 7 LL_ABI_COMPAT_BEST_EFFORT 0) 8 [] (by decide) (by norm_num)).2
      (by decide),
   fun h => ((supported_net_scope_flags_tables 7).2.2.2 (sample_kernel 7 1 0)
      (sample_ruleset 7 LL_ABI_COMPAT_BEST_EFFORT 0) 7 [] (by decide) (by norm_num)).1 h
      (by decide)⟩

/-! ## Error translation -/

/-- C24: the creation-error table, and its use by `ll_ruleset_create`.  `EOPNOTSUPP`,
`EINVAL`, `E2BIG`, `EFAULT`, `ENOMSG` and `ENOSYS` are translated to `CREATE_DISABLED`,
`CREATE_INVALID`, `CREATE_SIZE_TOO_BIG`, `CREATE_BAD_ADDRESS`, `CREATE_EMPTY_ACCESS` and
`UNSUPPORTED_SYSCALL`, every other reason to `LL_ERROR_SYSTEM`.  A failing probe makes
`ll_ruleset_create` return the translation of the probe's reason, also when the
attribute's ABI is the `latest` selector (whose resolution falls back to 1 when its own
probe fails); a failing creation call makes it return the translation of that call's
reason.  No ruleset is handed back in either case. -/
theorem create_errno_table (K : Kernel) (a : ll_ruleset_attr_t) (slot : Option ll_ruleset)
    (t : Trace) :
    (ll_error_from_create_ruleset_errno EOPNOTSUPP = LL_ERROR_RULESET_CREATE_DISABLED ∧
      ll_error_from_create_ruleset_errno EINVAL = LL_ERROR_RULESET_CREATE_INVALID ∧
      ll_error_from_create_ruleset_errno E2BIG = LL_ERROR_RULESET_CREATE_SIZE_TOO_BIG ∧
      ll_error_from_create_ruleset_errno EFAULT = LL_ERROR_RULESET_CREATE_BAD_ADDRESS ∧
      ll_error_from_create_ruleset_errno ENOMSG = LL_ERROR_RULESET_CREATE_EMPTY_ACCESS ∧
      ll_error_from_create_ruleset_errno ENOSYS = LL_ERROR_UNSUPPORTED_SYSCALL ∧
      ∀ e : Int, e ≠ EOPNOTSUPP → e ≠ EINVAL → e ≠ E2BIG → e ≠ EFAULT → e ≠ ENOMSG →
        e ≠ ENOSYS → ll_error_from_create_ruleset_errno e = LL_ERROR_SYSTEM) ∧
    ((probe_reply K a t).ret < 0 →
      ll_ruleset_create K a (some slot) t =
        (ll_error_from_create_ruleset_errno (probe_reply K a t).errno, some none,
          trace_at_creation K a t)) ∧
    (a.abi = LL_ABI_LATEST → (K t version_probe).ret < 0 → (probe_reply K a t).ret < 0 →
      policy_abi K a t = 1 ∧
      (ll_ruleset_create K a (some slot) t).1 =
        ll_error_from_create_ruleset_errno (probe_reply K a t).errno) ∧
    (0 ≤ (probe_reply K a t).ret →
      ¬ (a.compat_mode = LL_ABI_COMPAT_STRICT ∧
        (probe_reply K a t).ret < policy_abi K a t) →
      ¬ masks_empty a.access (effective_abi K a t) →
      (creation_reply K a t).ret < 0 →
      ll_ruleset_create K a (some slot) t =
        (ll_error_from_create_ruleset_errno (creation_reply K a t).errno, some none,
          trace_after_creation K a t)) := by
  refine ⟨⟨by decide, by decide, by decide, by decide, by decide, by decide,
    fun e h1 h2 h3 h4 h5 h6 => ?_⟩, fun hp => ?_, fun hl hr hp => ⟨?_, ?_⟩,
    fun hp hpass hne hc => ?_⟩
  · simp only [ll_error_from_create_ruleset_errno, if_neg h1, if_neg h2, if_neg h3, if_neg h4,
      if_neg h5, if_neg h6, ll_error_system, ll_error_with_errno]
  · rw [ll_ruleset_create_steps, if_pos hp]
  · have hr2 : (sys K (.landlock_create_ruleset none 0 LANDLOCK_CREATE_RULESET_VERSION) t).1.ret
        < 0 := hr
    simp only [policy_abi, ll_resolve_abi, if_pos hl, if_pos hr2]
  · rw [ll_ruleset_create_steps, if_pos hp]
  · rw [ll_ruleset_create_steps, if_neg (not_lt.mpr hp), if_neg hpass, if_neg hne, if_pos hc]

/-- C24, at concrete inputs: an environment in which every call fails with `ENOSYS`
(38): the probe of `ll_ruleset_create` fails and `LL_ERROR_UNSUPPORTED_SYSCALL` comes
back, with the attribute's ABI the `latest` selector; and an environment where only the
creation call fails, with `EINVAL`. -/
theorem create_errno_table_witness :
    ll_ruleset_create (failing_kernel ENOSYS)
        (sample_attr LL_ABI_LATEST LL_ABI_COMPAT_BEST_EFFORT 4) (some none) []
      = (LL_ERROR_UNSUPPORTED_SYSCALL, some none,
          [⟨version_probe, ⟨-1, ENOSYS, 0⟩⟩, ⟨version_probe, ⟨-1, ENOSYS, 0⟩⟩]) ∧
    (policy_abi (failing_kernel ENOSYS)
        (sample_attr LL_ABI_LATEST LL_ABI_COMPAT_BEST_EFFORT 4) [] = 1 ∧
      (ll_ruleset_create (failing_kernel ENOSYS)
        (sample_attr LL_ABI_LATEST LL_ABI_COMPAT_BEST_EFFORT 4) (some none) []).1 =
        ll_error_from_create_ruleset_errno
          (probe_reply (failing_kernel ENOSYS)
            (sample_attr LL_ABI_LATEST LL_ABI_COMPAT_BEST_EFFORT 4) []).errno) ∧
    ll_ruleset_create (creation_failing_kernel 6 EINVAL)
        (sample_attr 6 LL_ABI_COMPAT_BEST_EFFORT 4) (some none) []
      = (LL_ERROR_RULESET_CREATE_INVALID, some none,
          [⟨version_probe, ⟨6, 0, 0⟩⟩,
           ⟨.landlock_create_ruleset (some ⟨4, 0, 0⟩) 24 0, ⟨-1, EINVAL, 0⟩⟩]) :=
  ⟨by decide,
   (create_errno_table (failing_kernel ENOSYS)
      (sample_attr LL_ABI_LATEST LL_ABI_COMPAT_BEST_EFFORT 4) none []).2.2.1
      rfl (by decide) (by decide),
   by decide⟩

/-- The result of the call on the rule channel when it fails. -/
theorem submit_rule_failure (K : Kernel) (fd : Int) (rule : rule_attr) (flags : Nat)
    (t : Trace) (h : (K t (.landlock_add_rule fd rule flags)).ret < 0) :
    (submit_rule K fd rule flags t).1 =
      ll_error_from_add_rule_errno (K t (.landlock_add_rule fd rule flags)).errno := by
  unfold submit_rule
  rw [if_pos h]

/-- C25: the rule-addition table, and its use by both rule functions.  `EAFNOSUPPORT`,
`EOPNOTSUPP`, `EINVAL`, `ENOMSG`, `EBADF`, `EBADFD`, `EPERM`, `EFAULT` and `ENOSYS` are
translated to `TCP_UNSUPPORTED`, `DISABLED`, `INCONSISTENT_ACCESS`, `EMPTY_ACCESS`,
`BAD_FD`, `BAD_FD_TYPE`, `NO_WRITE`, `BAD_ADDRESS` and `UNSUPPORTED_SYSCALL`, every other
reason to `LL_ERROR_SYSTEM`.  When the call on the rule channel fails,
`ll_ruleset_add_path_fd` and `ll_ruleset_add_net_port` both return the translation of
its reason by this one table. -/
theorem rule_errno_table (K : Kernel) (r : ll_ruleset) (dir_fd : Int)
    (port access_masks : Nat) (t : Trace)
    (hfd : 0 ≤ r.ruleset_fd) (hne : access_masks ≠ 0) (hacc : access_masks < 2 ^ 64) :
    (ll_error_from_add_rule_errno EAFNOSUPPORT = LL_ERROR_ADD_RULE_TCP_UNSUPPORTED ∧
      ll_error_from_add_rule_errno EOPNOTSUPP = LL_ERROR_ADD_RULE_DISABLED ∧
      ll_error_from_add_rule_errno EINVAL = LL_ERROR_ADD_RULE_INCONSISTENT_ACCESS ∧
      ll_error_from_add_rule_errno ENOMSG = LL_ERROR_ADD_RULE_EMPTY_ACCESS ∧
      ll_error_from_add_rule_errno EBADF = LL_ERROR_ADD_RULE_BAD_FD ∧
      ll_error_from_add_rule_errno EBADFD = LL_ERROR_ADD_RULE_BAD_FD_TYPE ∧
      ll_error_from_add_rule_errno EPERM = LL_ERROR_ADD_RULE_NO_WRITE ∧
      ll_error_from_add_rule_errno EFAULT = LL_ERROR_ADD_RULE_BAD_ADDRESS ∧
      ll_error_from_add_rule_errno ENOSYS = LL_ERROR_UNSUPPORTED_SYSCALL ∧
      ∀ e : Int, e ≠ EAFNOSUPPORT → e ≠ EOPNOTSUPP → e ≠ EINVAL → e ≠ ENOMSG → e ≠ EBADF →
        e ≠ EBADFD → e ≠ EPERM → e ≠ EFAULT → e ≠ ENOSYS →
        ll_error_from_add_rule_errno e = LL_ERROR_SYSTEM) ∧
    (0 ≤ dir_fd → bits_subset access_masks r.handled_access_fs →
      (access_masks &&& dir_only_bits ≠ 0 →
        (K t (.fstat dir_fd)).ret = 0 ∧ S_ISDIR (K t (.fstat dir_fd)).st_mode = true) →
      (K (if access_masks &&& dir_only_bits ≠ 0
            then t ++ [⟨.fstat dir_fd, K t (.fstat dir_fd)⟩] else t)
          (.landlock_add_rule r.ruleset_fd (.path_beneath access_masks dir_fd) 0)).ret < 0 →
      (ll_ruleset_add_path_fd K (some r) dir_fd access_masks 0 t).1 =
        ll_error_from_add_rule_errno
          (K (if access_masks &&& dir_only_bits ≠ 0
                then t ++ [⟨.fstat dir_fd, K t (.fstat dir_fd)⟩] else t)
            (.landlock_add_rule r.ruleset_fd (.path_beneath access_masks dir_fd) 0)).errno) ∧
    (port ≤ 65535 → r.handled_access_net ≠ 0 →
      bits_subset access_masks r.handled_access_net →
      (K t (.landlock_add_rule r.ruleset_fd (.net_port access_masks port) 0)).ret < 0 →
      (ll_ruleset_add_net_port K (some r) port access_masks 0 t).1 =
        ll_error_from_add_rule_errno
          (K t (.landlock_add_rule r.ruleset_fd (.net_port access_masks port) 0)).errno) := by
  have h2 : ¬ ((0 : Nat) ≠ 0) := fun h => h rfl
  refine ⟨⟨by decide, by decide, by decide, by decide, by decide, by decide, by decide,
    by decide, by decide, fun e h1 h2 h3 h4 h5 h6 h7 h8 h9 => ?_⟩,
    fun hdir hsub hstat hfail => ?_, fun hport hnet hsub hfail => ?_⟩
  · simp only [ll_error_from_add_rule_errno, if_neg h1, if_neg h2, if_neg h3, if_neg h4,
      if_neg h5, if_neg h6, if_neg h7, if_neg h8, if_neg h9, ll_error_system,
      ll_error_with_errno]
  · have h1 : ¬ (r.ruleset_fd < 0 ∨ dir_fd < 0) := by omega
    have h4 : ¬ (access_masks &&& not_u64 r.handled_access_fs ≠ 0) :=
      not_not.mpr ((and_not_u64_eq_zero_iff _ _ hacc).mpr hsub)
    rw [ll_ruleset_add_path_fd_steps, if_neg h1, if_neg h2, if_neg hne, if_neg h4]
    by_cases h5 : access_masks &&& dir_only_bits ≠ 0
    · rw [if_pos h5] at hfail ⊢
      have h6 : ¬ ((K t (.fstat dir_fd)).ret ≠ 0) := not_not.mpr (hstat h5).1
      rw [if_pos h5, if_neg h6, if_neg (not_not.mpr (hstat h5).2)]
      exact submit_rule_failure _ _ _ _ _ hfail
    · rw [if_neg h5] at hfail ⊢
      rw [if_neg h5]
      exact submit_rule_failure _ _ _ _ _ hfail
  · have h1 : ¬ r.ruleset_fd < 0 := not_lt.mpr hfd
    have h6 : ¬ (access_masks &&& not_u64 r.handled_access_net ≠ 0) :=
      not_not.mpr ((and_not_u64_eq_zero_iff _ _ hacc).mpr hsub)
    rw [ll_ruleset_add_net_port_steps, if_neg h1, if_neg h2, if_neg hne,
      if_neg (not_lt.mpr hport), if_neg hnet, if_neg h6]
    exact submit_rule_failure _ _ _ _ _ hfail

/-- C25, at concrete inputs: the rule channel failing with `EPERM`, for a path rule with
`READ_FILE` and `READ_DIR` (12) on a directory and for a port rule with `BIND_TCP`. -/
theorem rule_errno_table_witness :
    ll_ruleset_add_path_fd (rule_failing_kernel EPERM)
        (some (sample_ruleset 6 LL_ABI_COMPAT_BEST_EFFORT 3)) 5 12 0 []
      = (LL_ERROR_ADD_RULE_NO_WRITE,
          [⟨.fstat 5, ⟨0, 0, S_IFDIR⟩⟩,
           ⟨.landlock_add_rule 3 (.path_beneath 12 5) 0, ⟨-1, EPERM, 0⟩⟩]) ∧
    ll_ruleset_add_net_port (rule_failing_kernel EPERM)
        (some (sample_ruleset 6 LL_ABI_COMPAT_BEST_EFFORT 3)) 80 1 0 []
      = (LL_ERROR_ADD_RULE_NO_WRITE,
          [⟨.landlock_add_rule 3 (.net_port 1 80) 0, ⟨-1, EPERM, 0⟩⟩]) ∧
    (ll_ruleset_add_net_port (rule_failing_kernel EPERM)
        (some (sample_ruleset 6 LL_ABI_COMPAT_BEST_EFFORT 3)) 80 1 0 []).1 =
      ll_error_from_add_rule_errno
        (rule_failing_kernel EPERM []
          (.landlock_add_rule (sample_ruleset 6 LL_ABI_COMPAT_BEST_EFFORT 3).ruleset_fd
            (.net_port 1 80) 0)).errno :=
  ⟨by decide, by decide,
   (rule_errno_table (rule_failing_kernel EPERM) (sample_ruleset 6 LL_ABI_COMPAT_BEST_EFFORT 3)
      5 80 1 [] (by decide) (by decide) (by norm_num)).2.2 (by decide) (by decide)
      (by decide) (by decide)⟩

/-! ## Queries and attributes -/

/-- C27: `ll_get_errata` translates a probe failure exactly as `ll_get_abi_version` and
the probe step of `ll_ruleset_create` do, by the creation-error table applied to the
failure's reason, and leaves the output untouched; on success each query returns
`LL_ERROR_OK` and stores the probed value; with a null output pointer each returns
`LL_ERROR_INVALID_ARGUMENT` without probing. -/
theorem errata_query_same_translation (K : Kernel) (t : Trace) :
    (ll_get_errata K none t = (LL_ERROR_INVALID_ARGUMENT, none, t) ∧
      ll_get_abi_version K none t = (LL_ERROR_INVALID_ARGUMENT, none, t)) ∧
    (∀ old : Int, (K t errata_probe).ret < 0 →
      ll_get_errata K (some old) t =
        (ll_error_from_create_ruleset_errno (K t errata_probe).errno, some old,
          t ++ [⟨errata_probe, K t errata_probe⟩])) ∧
    (∀ old : ll_abi_t, (K t version_probe).ret < 0 →
      ll_get_abi_version K (some old) t =
        (ll_error_from_create_ruleset_errno (K t version_probe).errno, some old,
          t ++ [⟨version_probe, K t version_probe⟩])) ∧
    (∀ (a : ll_ruleset_attr_t) (slot : Option ll_ruleset), (probe_reply K a t).ret < 0 →
      (ll_ruleset_create K a (some slot) t).1 =
        ll_error_from_create_ruleset_errno (probe_reply K a t).errno) ∧
    (∀ old : Int, 0 ≤ (K t errata_probe).ret →
      ll_get_errata K (some old) t =
        (LL_ERROR_OK, some (K t errata_probe).ret,
          t ++ [⟨errata_probe, K t errata_probe⟩])) ∧
    (∀ old : ll_abi_t, 0 ≤ (K t version_probe).ret →
      ll_get_abi_version K (some old) t =
        (LL_ERROR_OK, some (K t version_probe).ret,
          t ++ [⟨version_probe, K t version_probe⟩])) := by
  refine ⟨⟨rfl, rfl⟩, fun old h => ?_, fun old h => ?_, fun a slot h => ?_, fun old h => ?_,
    fun old h => ?_⟩
  · have h1 : (sys K (.landlock_create_ruleset none 0 LANDLOCK_CREATE_RULESET_ERRATA) t).1.ret
        < 0 := h
    simp only [ll_get_errata, if_pos h1]
    rfl
  · have h1 : (sys K (.landlock_create_ruleset none 0 LANDLOCK_CREATE_RULESET_VERSION) t).1.ret
        < 0 := h
    simp only [ll_get_abi_version, if_pos h1]
    rfl
  · rw [ll_ruleset_create_steps, if_pos h]
  · have h1 : ¬ (sys K (.landlock_create_ruleset none 0 LANDLOCK_CREATE_RULESET_ERRATA) t).1.ret
        < 0 := not_lt.mpr h
    simp only [ll_get_errata, if_neg h1]
    rfl
  · have h1 : ¬ (sys K (.landlock_create_ruleset none 0 LANDLOCK_CREATE_RULESET_VERSION) t).1.ret
        < 0 := not_lt.mpr h
    simp only [ll_get_abi_version, if_neg h1]
    rfl

/-- C27, at concrete inputs: every call failing with `EOPNOTSUPP`, the three functions
give `LL_ERROR_RULESET_CREATE_DISABLED` and the outputs keep their old value 42; with a
kernel answering 6, both queries store 6. -/
theorem errata_query_same_translation_witness :
    (ll_get_errata (failing_kernel EOPNOTSUPP) (some 42) []
        = (LL_ERROR_RULESET_CREATE_DISABLED, some 42,
            [⟨errata_probe, ⟨-1, EOPNOTSUPP, 0⟩⟩]) ∧
      ll_get_abi_version (failing_kernel EOPNOTSUPP) (some 42) []
        = (LL_ERROR_RULESET_CREATE_DISABLED, some 42,
            [⟨version_probe, ⟨-1, EOPNOTSUPP, 0⟩⟩]) ∧
      (ll_ruleset_create (failing_kernel EOPNOTSUPP)
          (sample_attr 6 LL_ABI_COMPAT_BEST_EFFORT 4) (some none) []).1
        = LL_ERROR_RULESET_CREATE_DISABLED) ∧
    (ll_get_errata (sample_kernel 6 1 0) (some 42) []
        = (LL_ERROR_OK, some 6, [⟨errata_probe, ⟨6, 0, 0⟩⟩]) ∧
      ll_get_abi_version (sample_kernel 6 1 0) (some 42) []
        = (LL_ERROR_OK, some 6, [⟨version_probe, ⟨6, 0, 0⟩⟩])) :=
  ⟨⟨(errata_query_same_translation (failing_kernel EOPNOTSUPP) []).2.1 42 (by decide),
      (errata_query_same_translation (failing_kernel EOPNOTSUPP) []).2.2.1 42 (by decide),
      (errata_query_same_translation (failing_kernel EOPNOTSUPP) []).2.2.2.1
        (sample_attr 6 LL_ABI_COMPAT_BEST_EFFORT 4) none (by decide)⟩,
   ⟨(errata_query_same_translation (sample_kernel 6 1 0) []).2.2.2.2.1 42 (by decide),
      (errata_query_same_translation (sample_kernel 6 1 0) []).2.2.2.2.2 42 (by decide)⟩⟩

/-- C28: `ll_resolve_abi` of the `latest` selector (0) probes the kernel and returns the
probed version when the probe succeeds and 1 when it fails; of any other value it
returns that value unchanged and makes no call. -/
theorem resolve_abi_spec (K : Kernel) (abi : ll_abi_t) (t : Trace) :
    LL_ABI_LATEST = 0 ∧
    (abi = LL_ABI_LATEST → 0 ≤ (K t version_probe).ret →
      ll_resolve_abi K abi t =
        ((K t version_probe).ret, t ++ [⟨version_probe, K t version_probe⟩])) ∧
    (abi = LL_ABI_LATEST → (K t version_probe).ret < 0 →
      ll_resolve_abi K abi t = (1, t ++ [⟨version_probe, K t version_probe⟩])) ∧
    (abi ≠ LL_ABI_LATEST → ll_resolve_abi K abi t = (abi, t)) := by
  refine ⟨rfl, fun hl h => ?_, fun hl h => ?_, fun hn => ?_⟩
  · have h1 : ¬ (sys K (.landlock_create_ruleset none 0 LANDLOCK_CREATE_RULESET_VERSION) t).1.ret
        < 0 := not_lt.mpr h
    simp only [ll_resolve_abi, if_pos hl, if_neg h1]
    rfl
  · have h1 : (sys K (.landlock_create_ruleset none 0 LANDLOCK_CREATE_RULESET_VERSION) t).1.ret
        < 0 := h
    simp only [ll_resolve_abi, if_pos hl, if_pos h1]
    rfl
  · simp only [ll_resolve_abi, if_neg hn]

/-- C28, at concrete inputs: the `latest` selector under a kernel of ABI 6 and under a
kernel without Landlock, and the value 3. -/
theorem resolve_abi_spec_witness :
    ll_resolve_abi (sample_kernel 6 1 0) LL_ABI_LATEST []
      = (6, [⟨version_probe, ⟨6, 0, 0⟩⟩]) ∧
    ll_resolve_abi (failing_kernel ENOSYS) LL_ABI_LATEST []
      = (1, [⟨version_probe, ⟨-1, ENOSYS, 0⟩⟩]) ∧
    ll_resolve_abi (failing_kernel ENOSYS) 3 [] = (3, []) :=
  ⟨(resolve_abi_spec (sample_kernel 6 1 0) LL_ABI_LATEST []).2.1 rfl (by decide),
   (resolve_abi_spec (failing_kernel ENOSYS) LL_ABI_LATEST []).2.2.1 rfl (by decide),
   (resolve_abi_spec (failing_kernel ENOSYS) 3 []).2.2.2 (by decide)⟩

/-- C29: for every requested ABI and mode, the attribute made by
`ll_ruleset_attr_create` has its filesystem, network and scope masks and its creation
flags all 0, the requested mode, and as ABI the result of `ll_resolve_abi` on the
requested ABI (whose calls are the only ones made). -/
theorem attr_create_zeroed (K : Kernel) (abi : ll_abi_t) (compat_mode : ll_abi_compat_mode_t)
    (t : Trace) :
    (ll_ruleset_attr_create K abi compat_mode t).1.access.handled_access_fs = 0 ∧
    (ll_ruleset_attr_create K abi compat_mode t).1.access.handled_access_net = 0 ∧
    (ll_ruleset_attr_create K abi compat_mode t).1.access.scoped_ = 0 ∧
    (ll_ruleset_attr_create K abi compat_mode t).1.flags = 0 ∧
    (ll_ruleset_attr_create K abi compat_mode t).1.compat_mode = compat_mode ∧
    (ll_ruleset_attr_create K abi compat_mode t).1.abi = (ll_resolve_abi K abi t).1 ∧
    (ll_ruleset_attr_create K abi compat_mode t).2 = (ll_resolve_abi K abi t).2 :=
  ⟨rfl, rfl, rfl, rfl, rfl, rfl, rfl⟩

/-- C30: on a non-null attribute `ll_ruleset_attr_add_flags` returns `LL_ERROR_OK` and
replaces the flags by the old flags OR the new ones, leaving the ABI, the mode and the
three masks as they were; doing it twice with the same flags changes nothing more, and
two additions give the same attribute in either order; 32-bit flags stay 32-bit; on a
null attribute it returns `LL_ERROR_INVALID_ARGUMENT`. -/
theorem attr_add_flags_frame (a : ll_ruleset_attr_t) (f g : Nat) :
    ll_ruleset_attr_add_flags (some a) f =
      (LL_ERROR_OK, some ⟨a.abi, a.compat_mode, a.access, a.flags ||| f⟩) ∧
    ll_ruleset_attr_add_flags (ll_ruleset_attr_add_flags (some a) f).2 f =
      ll_ruleset_attr_add_flags (some a) f ∧
    ll_ruleset_attr_add_flags (ll_ruleset_attr_add_flags (some a) f).2 g =
      ll_ruleset_attr_add_flags (ll_ruleset_attr_add_flags (some a) g).2 f ∧
    (a.flags < 2 ^ 32 → f < 2 ^ 32 → a.flags ||| f < 2 ^ 32) ∧
    ll_ruleset_attr_add_flags none f = (LL_ERROR_INVALID_ARGUMENT, none) := by
  refine ⟨rfl, ?_, ?_, fun h1 h2 => Nat.or_lt_two_pow h1 h2, rfl⟩
  · simp only [ll_ruleset_attr_add_flags, Nat.or_assoc, Nat.or_self]
  · simp only [ll_ruleset_attr_add_flags, Nat.or_assoc, Nat.or_comm f g]

/-- C30, at a concrete input: flags 2 added to an attribute whose flags are 1. -/
theorem attr_add_flags_frame_witness :
    ll_ruleset_attr_add_flags (some ⟨6, LL_ABI_COMPAT_STRICT, ⟨12, 3, 0⟩, 1⟩) 2
      = (LL_ERROR_OK, some ⟨6, LL_ABI_COMPAT_STRICT, ⟨12, 3, 0⟩, 3⟩) ∧
    (1 : Nat) ||| 2 < 2 ^ 32 :=
  ⟨(attr_add_flags_frame ⟨6, LL_ABI_COMPAT_STRICT, ⟨12, 3, 0⟩, 1⟩ 2 0).1,
   (attr_add_flags_frame ⟨6, LL_ABI_COMPAT_STRICT, ⟨12, 3, 0⟩, 1⟩ 2 0).2.2.2.1
      (by norm_num) (by norm_num)⟩

/-! ## End to end -/

theorem bits_subset_trans {a b c : Nat} (h1 : bits_subset a b) (h2 : bits_subset b c) :
    bits_subset a c := by
  rw [bits_subset_iff_testBit] at *
  exact fun i hi => h2 i (h1 i hi)

theorem baseline_subset_supported (v : ll_abi_t) :
    bits_subset baseline_access_fs (ll_supported_access_fs v) := by
  rcases supported_access_fs_cases v with ⟨_, e⟩ | ⟨_, e⟩ | ⟨_, _, e⟩ | ⟨_, e⟩ <;>
    rw [e] <;> decide

/-- A request made only of baseline filesystem rights loses no bit at any ABI. -/
theorem baseline_request_keeps_bits (a : landlock_ruleset_attr) (v : ll_abi_t)
    (hfs : bits_subset a.handled_access_fs baseline_access_fs)
    (hnet : a.handled_access_net = 0) (hscope : a.scoped_ = 0) :
    ¬ masks_shrink a v := by
  have h := bits_subset_trans hfs (baseline_subset_supported v)
  simp only [masks_shrink, masked_access, hnet, hscope, Nat.zero_and, ne_eq, not_true_eq_false,
    or_false, not_not]
  exact h.symm

/-- Such a request is never reported partial by `ll_ruleset_create`. -/
theorem baseline_request_never_partial (K : Kernel) (a : ll_ruleset_attr_t)
    (out : Option (Option ll_ruleset)) (t : Trace)
    (hfs : bits_subset a.access.handled_access_fs baseline_access_fs)
    (hnet : a.access.handled_access_net = 0) (hscope : a.access.scoped_ = 0) :
    (ll_ruleset_create K a out t).1 ≠ LL_ERROR_OK_PARTIAL_SANDBOX := by
  cases out with
  | none => exact fun h => ll_error_t.noConfusion h
  | some slot =>
    have hk := baseline_request_keeps_bits a.access (effective_abi K a t) hfs hnet hscope
    rw [ll_ruleset_create_steps]
    split_ifs
    any_goals exact fun h => ll_error_t.noConfusion h
    all_goals exact fun h => create_errno_not_success _ (Or.inr h)

/-- C23 as stated fails: under a kernel of ABI 6 whose creation call succeeds
(descriptor 3), with an attribute made with (`LL_ABI_LATEST`, best-effort) and the
filesystem mask `READ_FILE`, `READ_DIR` (12), `ll_ruleset_create` returns
`LL_ERROR_OUT_OF_MEMORY` and no ruleset when `malloc` returns `NULL`. -/
theorem end_to_end_counterexample :
    ll_ruleset_attr_create (sample_kernel 6 0 S_IFDIR) LL_ABI_LATEST LL_ABI_COMPAT_BEST_EFFORT []
      = (⟨6, LL_ABI_COMPAT_BEST_EFFORT, ⟨0, 0, 0⟩, 0⟩, [⟨version_probe, ⟨6, 0, 0⟩⟩]) ∧
    ll_ruleset_create (sample_kernel 6 0 S_IFDIR)
        (set_access_fs (ll_ruleset_attr_create (sample_kernel 6 0 S_IFDIR) LL_ABI_LATEST
          LL_ABI_COMPAT_BEST_EFFORT []).1
          (LANDLOCK_ACCESS_FS_READ_FILE ||| LANDLOCK_ACCESS_FS_READ_DIR))
        (some none)
        (ll_ruleset_attr_create (sample_kernel 6 0 S_IFDIR) LL_ABI_LATEST
          LL_ABI_COMPAT_BEST_EFFORT []).2
      = (LL_ERROR_OUT_OF_MEMORY, some none,
          [⟨version_probe, ⟨6, 0, 0⟩⟩,
           ⟨version_probe, ⟨6, 0, 0⟩⟩,
           ⟨.landlock_create_ruleset (some ⟨12, 0, 0⟩) 24 0, ⟨3, 0, 0⟩⟩,
           ⟨.malloc, ⟨0, 0, 0⟩⟩,
           ⟨.close 3, ⟨0, 0, 0⟩⟩]) := by
  decide

/-- C23, amended: under a kernel whose probes answer an ABI of at least 1 and whose
creation, rule-submission, no-new-privileges and self-restriction calls succeed, with
the allocation of the ruleset object succeeding and the target reported a directory: an
attribute made with (`LL_ABI_LATEST`, best-effort) whose filesystem mask is `READ_FILE`,
`READ_DIR` gives `ll_ruleset_create` = `LL_ERROR_OK` with a ruleset whose committed
filesystem mask is exactly those two bits; adding a path rule with those bits and flags
0 to it then returns `LL_ERROR_OK`, and enforcing it with flags 0 returns
`LL_ERROR_OK`, from whatever history.  And for every kernel, a request made only of
baseline filesystem bits is never reported partial. -/
theorem end_to_end_baseline_policy (K : Kernel) (slot : Option ll_ruleset) (t0 t1 : Trace)
    (hprobe : ∀ h, 1 ≤ (K h version_probe).ret)
    (hcreate : ∀ h m size fl, 0 ≤ (K h (.landlock_create_ruleset (some m) size fl)).ret)
    (halloc : ∀ h, (K h .malloc).ret ≠ 0)
    (hstat : ∀ h fd, (K h (.fstat fd)).ret = 0 ∧ S_ISDIR (K h (.fstat fd)).st_mode = true)
    (hrule : ∀ h fd rule fl, 0 ≤ (K h (.landlock_add_rule fd rule fl)).ret)
    (htoggle : ∀ h, (K h .prctl_set_no_new_privs).ret = 0)
    (hrestrict : ∀ h fd fl, 0 ≤ (K h (.landlock_restrict_self fd fl)).ret) :
    (∃ r : ll_ruleset,
      (ll_ruleset_create K
          (set_access_fs (ll_ruleset_attr_create K LL_ABI_LATEST LL_ABI_COMPAT_BEST_EFFORT t0).1
            (LANDLOCK_ACCESS_FS_READ_FILE ||| LANDLOCK_ACCESS_FS_READ_DIR))
          (some slot) t1).1 = LL_ERROR_OK ∧
      (ll_ruleset_create K
          (set_access_fs (ll_ruleset_attr_create K LL_ABI_LATEST LL_ABI_COMPAT_BEST_EFFORT t0).1
            (LANDLOCK_ACCESS_FS_READ_FILE ||| LANDLOCK_ACCESS_FS_READ_DIR))
          (some slot) t1).2.1 = some (some r) ∧
      r.handled_access_fs = LANDLOCK_ACCESS_FS_READ_FILE ||| LANDLOCK_ACCESS_FS_READ_DIR ∧
      (∀ (u : Trace) (dir_fd : Int), 0 ≤ dir_fd →
        (ll_ruleset_add_path_fd K (some r) dir_fd
          (LANDLOCK_ACCESS_FS_READ_FILE ||| LANDLOCK_ACCESS_FS_READ_DIR) 0 u).1 = LL_ERROR_OK) ∧
      (∀ u : Trace, (ll_ruleset_enforce K (some r) 0 u).1 = LL_ERROR_OK)) ∧
    (∀ (K1 : Kernel) (a : ll_ruleset_attr_t) (out : Option (Option ll_ruleset)) (t : Trace),
      bits_subset a.access.handled_access_fs baseline_access_fs →
      a.access.handled_access_net = 0 → a.access.scoped_ = 0 →
      (ll_ruleset_create K1 a out t).1 ≠ LL_ERROR_OK_PARTIAL_SANDBOX) := by
  refine ⟨?_, fun K1 a out t h1 h2 h3 => baseline_request_never_partial K1 a out t h1 h2 h3⟩
  generalize ha : set_access_fs
    (ll_ruleset_attr_create K LL_ABI_LATEST LL_ABI_COMPAT_BEST_EFFORT t0).1
    (LANDLOCK_ACCESS_FS_READ_FILE ||| LANDLOCK_ACCESS_FS_READ_DIR) = a
  have hmode : a.compat_mode = LL_ABI_COMPAT_BEST_EFFORT := by rw [← ha]; rfl
  have hacc : a.access = ⟨12, 0, 0⟩ := by rw [← ha]; rfl
  have hkeep : ¬ masks_shrink a.access (effective_abi K a t1) :=
    baseline_request_keeps_bits _ _ (by rw [hacc]; decide) (by rw [hacc]) (by rw [hacc])
  have hfs : (masked_access a.access (effective_abi K a t1)).handled_access_fs = 12 := by
    have h := hkeep
    simp only [masks_shrink, not_or, not_not] at h
    rw [← h.1, hacc]
  have hnonempty : ¬ masks_empty a.access (effective_abi K a t1) := by
    intro h
    rw [masks_empty, hfs] at h
    exact absurd h.1 (by decide)
  have h1 : ¬ (probe_reply K a t1).ret < 0 :=
    not_lt.mpr (le_trans (by decide) (hprobe _))
  have h2 : ¬ (a.compat_mode = LL_ABI_COMPAT_STRICT ∧
      (probe_reply K a t1).ret < policy_abi K a t1) := by
    rw [hmode]; exact fun h => absurd h.1 (by decide)
  have h4 : ¬ (creation_reply K a t1).ret < 0 := not_lt.mpr (hcreate _ _ _ _)
  have h5 : ¬ (alloc_reply K a t1).ret = 0 := halloc _
  have h6 : ¬ a.compat_mode = LL_ABI_COMPAT_STRICT := by rw [hmode]; decide
  have hres : ll_ruleset_create K a (some slot) t1 =
      (LL_ERROR_OK, some (some (created_ruleset K a t1)), trace_after_alloc K a t1) := by
    rw [ll_ruleset_create_steps, if_neg h1, if_neg h2, if_neg hnonempty, if_neg h4, if_neg h5,
      if_neg h6, if_neg hkeep]
  refine ⟨created_ruleset K a t1, ?_, ?_, hfs, fun u dir_fd hdir => ?_, fun u => ?_⟩
  · rw [hres]
  · rw [hres]
  · have hfd : ¬ ((created_ruleset K a t1).ruleset_fd < 0 ∨ dir_fd < 0) := by
      have := hcreate (trace_at_creation K a t1)
        (masked_access a.access (effective_abi K a t1)) sizeof_landlock_ruleset_attr
        (u32_of_int (int_of_u32 a.flags))
      have hc : 0 ≤ (created_ruleset K a t1).ruleset_fd := this
      omega
    have hsubset : ¬ ((LANDLOCK_ACCESS_FS_READ_FILE ||| LANDLOCK_ACCESS_FS_READ_DIR) &&&
        not_u64 (created_ruleset K a t1).handled_access_fs ≠ 0) := by
      have : (created_ruleset K a t1).handled_access_fs = 12 := hfs
      rw [this]; decide
    have hdo : (LANDLOCK_ACCESS_FS_READ_FILE ||| LANDLOCK_ACCESS_FS_READ_DIR) &&& dir_only_bits
        ≠ 0 := by decide
    have hne : ¬ (LANDLOCK_ACCESS_FS_READ_FILE ||| LANDLOCK_ACCESS_FS_READ_DIR = 0) := by decide
    rw [ll_ruleset_add_path_fd_steps, if_neg hfd, if_neg (fun h => h rfl), if_neg hne,
      if_neg hsubset, if_pos hdo, if_neg (not_not.mpr (hstat u dir_fd).1),
      if_neg (not_not.mpr (hstat u dir_fd).2)]
    unfold submit_rule
    rw [if_neg (not_lt.mpr (hrule _ _ _ _))]
  · have hfd : ¬ (created_ruleset K a t1).ruleset_fd < 0 := by
      have hc : 0 ≤ (created_ruleset K a t1).ruleset_fd := hcreate (trace_at_creation K a t1)
        (masked_access a.access (effective_abi K a t1)) sizeof_landlock_ruleset_attr
        (u32_of_int (int_of_u32 a.flags))
      exact not_lt.mpr hc
    have hz : ∀ x : Nat, (0 : Nat) &&& x = 0 := Nat.zero_and
    have hm : (created_ruleset K a t1).compat_mode = LL_ABI_COMPAT_BEST_EFFORT := hmode
    rw [ll_ruleset_enforce_steps, if_neg hfd, hz, hz, if_neg (fun h => h rfl),
      if_neg (fun h => h.2 rfl), if_neg (fun h => h rfl)]
    have hr : ¬ (restrict_reply K (created_ruleset K a t1).ruleset_fd 0 u).ret < 0 :=
      not_lt.mpr (hrestrict _ _ _)
    unfold enforce_finish
    rw [if_neg (not_not.mpr (htoggle u)), if_neg hr]

/-- C23 amended, at a concrete input: a kernel of ABI 6 with every call succeeding and a
directory target; the whole sequence returns `LL_ERROR_OK` three times. -/
theorem end_to_end_baseline_policy_witness :
    (ll_ruleset_create (sample_kernel 6 1 S_IFDIR)
        (set_access_fs (ll_ruleset_attr_create (sample_kernel 6 1 S_IFDIR) LL_ABI_LATEST
          LL_ABI_COMPAT_BEST_EFFORT []).1 12) (some none)
        [⟨version_probe, ⟨6, 0, 0⟩⟩]
      = (LL_ERROR_OK, some (some ⟨3, 6, LL_ABI_COMPAT_BEST_EFFORT, 12, 0, 0⟩),
          [⟨version_probe, ⟨6, 0, 0⟩⟩, ⟨version_probe, ⟨6, 0, 0⟩⟩,
           ⟨.landlock_create_ruleset (some ⟨12, 0, 0⟩) 24 0, ⟨3, 0, 0⟩⟩,
           ⟨.malloc, ⟨1, 0, 0⟩⟩]) ∧
      ll_ruleset_add_path_fd (sample_kernel 6 1 S_IFDIR)
          (some ⟨3, 6, LL_ABI_COMPAT_BEST_EFFORT, 12, 0, 0⟩) 5 12 0 []
        = (LL_ERROR_OK,
            [⟨.fstat 5, ⟨0, 0, S_IFDIR⟩⟩,
             ⟨.landlock_add_rule 3 (.path_beneath 12 5) 0, ⟨0, 0, 0⟩⟩]) ∧
      ll_ruleset_enforce (sample_kernel 6 1 S_IFDIR)
          (some ⟨3, 6, LL_ABI_COMPAT_BEST_EFFORT, 12, 0, 0⟩) 0 []
        = (LL_ERROR_OK,
            [⟨.prctl_set_no_new_privs, ⟨0, 0, 0⟩⟩,
             ⟨.landlock_restrict_self 3 0, ⟨0, 0, 0⟩⟩])) ∧
    ∃ r : ll_ruleset,
      (ll_ruleset_create (sample_kernel 6 1 S_IFDIR)
          (set_access_fs (ll_ruleset_attr_create (sample_kernel 6 1 S_IFDIR) LL_ABI_LATEST
            LL_ABI_COMPAT_BEST_EFFORT []).1
            (LANDLOCK_ACCESS_FS_READ_FILE ||| LANDLOCK_ACCESS_FS_READ_DIR))
          (some none) [⟨version_probe, ⟨6, 0, 0⟩⟩]).1 = LL_ERROR_OK ∧
      (ll_ruleset_create (sample_kernel 6 1 S_IFDIR)
          (set_access_fs (ll_ruleset_attr_create (sample_kernel 6 1 S_IFDIR) LL_ABI_LATEST
            LL_ABI_COMPAT_BEST_EFFORT []).1
            (LANDLOCK_ACCESS_FS_READ_FILE ||| LANDLOCK_ACCESS_FS_READ_DIR))
          (some none) [⟨version_probe, ⟨6, 0, 0⟩⟩]).2.1 = some (some r) ∧
      r.handled_access_fs = LANDLOCK_ACCESS_FS_READ_FILE ||| LANDLOCK_ACCESS_FS_READ_DIR ∧
      (∀ (u : Trace) (dir_fd : Int), 0 ≤ dir_fd →
        (ll_ruleset_add_path_fd (sample_kernel 6 1 S_IFDIR) (some r) dir_fd
          (LANDLOCK_ACCESS_FS_READ_FILE ||| LANDLOCK_ACCESS_FS_READ_DIR) 0 u).1 = LL_ERROR_OK) ∧
      (∀ u : Trace,
        (ll_ruleset_enforce (sample_kernel 6 1 S_IFDIR) (some r) 0 u).1 = LL_ERROR_OK) :=
  ⟨by decide,
   (end_to_end_baseline_policy (sample_kernel 6 1 S_IFDIR) none []
      [⟨version_probe, ⟨6, 0, 0⟩⟩]
      (fun _ => (by decide : (1 : Int) ≤ 6))
      (fun _ _ _ _ => (by decide : (0 : Int) ≤ 3))
      (fun _ => (by decide : (1 : Int) ≠ 0))
      (fun _ _ => ⟨rfl, (by decide : S_ISDIR S_IFDIR = true)⟩)
      (fun _ _ _ _ => (by decide : (0 : Int) ≤ 0))
      (fun _ => rfl)
      (fun _ _ _ => (by decide : (0 : Int) ≤ 0))).1⟩

/-! ## The restriction table and the composition ceiling -/

theorem restrict_events_append (t u : Trace) :
    restrict_events (t ++ u) = restrict_events t ++ restrict_events u := by
  simp [restrict_events, List.filterMap_append]

theorem composed_rulesets_append (t u : Trace) :
    composed_rulesets (t ++ u) = composed_rulesets t + composed_rulesets u := by
  simp [composed_rulesets, List.countP_append]

theorem restrict_events_audit (K : Kernel) (t : Trace) :
    restrict_events (ll_audit_supported K t).2 = restrict_events t := by
  simp only [ll_audit_supported, sys_fst, sys_snd]
  split_ifs <;> simp [restrict_events_append] <;> simp [restrict_events]

theorem composed_rulesets_audit (K : Kernel) (t : Trace) :
    composed_rulesets (ll_audit_supported K t).2 = composed_rulesets t := by
  simp only [ll_audit_supported, sys_fst, sys_snd]
  split_ifs <;> simp [composed_rulesets_append] <;> simp [composed_rulesets]

theorem composed_rulesets_after_toggle (K : Kernel) (t : Trace) :
    composed_rulesets (trace_after_toggle K t) = composed_rulesets t := by
  simp [trace_after_toggle, composed_rulesets_append]; simp [composed_rulesets]

theorem restrict_events_after_toggle (K : Kernel) (t : Trace) :
    restrict_events (trace_after_toggle K t) = restrict_events t := by
  simp [trace_after_toggle, restrict_events_append]; simp [restrict_events]

/-- What the last steps of `ll_ruleset_enforce` add to the self-restriction channel, and
the result that goes with it. -/
theorem enforce_finish_events (K : Kernel) (fd : Int) (m : Nat) (u : Trace) :
    restrict_events (enforce_finish K fd m u).2 = restrict_events u ∨
    (restrict_events (enforce_finish K fd m u).2 =
        restrict_events u ++ [(fd, m, restrict_reply K fd m u)] ∧
      ((restrict_reply K fd m u).ret < 0 →
        (enforce_finish K fd m u).1 =
          ll_error_from_restrict_errno (restrict_reply K fd m u).errno) ∧
      (0 ≤ (restrict_reply K fd m u).ret → (enforce_finish K fd m u).1 = LL_ERROR_OK)) := by
  unfold enforce_finish
  by_cases h0 : (K u .prctl_set_no_new_privs).ret ≠ 0
  · rw [if_pos h0]
    exact Or.inl (restrict_events_after_toggle K u)
  · rw [if_neg h0]
    refine Or.inr ⟨?_, fun h => ?_, fun h => ?_⟩
    · split_ifs <;> simp [restrict_events_append, restrict_events_after_toggle] <;>
        simp [restrict_events]
    · rw [if_pos h]
    · rw [if_neg (not_lt.mpr h)]

/-- Every call of `ll_ruleset_enforce` adds at most one self-restriction call, and its
result is then decided by that call's answer. -/
theorem enforce_events (K : Kernel) (ruleset : Option ll_ruleset) (flags : Nat) (t : Trace) :
    restrict_events (ll_ruleset_enforce K ruleset flags t).2 = restrict_events t ∨
    ∃ (fd : Int) (m : Nat) (rep : Reply),
      restrict_events (ll_ruleset_enforce K ruleset flags t).2
        = restrict_events t ++ [(fd, m, rep)] ∧
      (rep.ret < 0 →
        (ll_ruleset_enforce K ruleset flags t).1 = ll_error_from_restrict_errno rep.errno) ∧
      (0 ≤ rep.ret → (ll_ruleset_enforce K ruleset flags t).1 = LL_ERROR_OK) := by
  have key : ∀ (fd : Int) (m : Nat) (u : Trace), restrict_events u = restrict_events t →
      (restrict_events (enforce_finish K fd m u).2 = restrict_events t ∨
        ∃ (fd1 : Int) (m1 : Nat) (rep : Reply),
          restrict_events (enforce_finish K fd m u).2 = restrict_events t ++ [(fd1, m1, rep)] ∧
          (rep.ret < 0 →
            (enforce_finish K fd m u).1 = ll_error_from_restrict_errno rep.errno) ∧
          (0 ≤ rep.ret → (enforce_finish K fd m u).1 = LL_ERROR_OK)) := by
    intro fd m u hu
    rcases enforce_finish_events K fd m u with h | ⟨h1, h2, h3⟩
    · exact Or.inl (h.trans hu)
    · exact Or.inr ⟨fd, m, restrict_reply K fd m u, by rw [h1, hu], h2, h3⟩
  cases ruleset with
  | none => exact Or.inl rfl
  | some r =>
    rw [ll_ruleset_enforce_steps]
    split_ifs
    · exact Or.inl rfl
    · exact Or.inl rfl
    · exact Or.inl rfl
    · exact Or.inl (restrict_events_audit K t)
    · exact key _ _ _ (restrict_events_audit K t)
    · exact key _ _ _ (restrict_events_audit K t)
    · exact key _ _ _ rfl

/-- With a valid handle and valid flags, `ll_ruleset_enforce` reaches its last steps
without having touched the self-restriction channel. -/
theorem enforce_valid_reaches_finish (K : Kernel) (r : ll_ruleset) (flags : Nat) (t : Trace)
    (hfd : 0 ≤ r.ruleset_fd) (hlt : flags < 2 ^ 32) (hknown : bits_subset flags known_flags)
    (hstrict : r.compat_mode = LL_ABI_COMPAT_STRICT →
      flags &&& ll_supported_restrict_self_flags r.abi = flags ∧
      (flags = 0 ∨ ∀ h, ¬ ((K h .socket_netlink).ret < 0 ∧
        (K h .socket_netlink).errno = EPROTONOSUPPORT))) :
    ∃ (m : Nat) (u : Trace),
      ll_ruleset_enforce K (some r) flags t = enforce_finish K r.ruleset_fd m u ∧
      composed_rulesets u = composed_rulesets t := by
  have h2 : ¬ (flags &&& not_u32 known_flags ≠ 0) :=
    not_not.mpr ((and_not_u32_eq_zero_iff _ _ hlt).mpr hknown)
  rw [ll_ruleset_enforce_steps, if_neg (not_lt.mpr hfd), if_neg h2]
  by_cases hs : r.compat_mode = LL_ABI_COMPAT_STRICT
  · have hm := (hstrict hs).1
    rw [if_neg (fun h => h.2 hm)]
    by_cases h4 : flags &&& ll_supported_restrict_self_flags r.abi ≠ 0
    · rw [if_pos h4]
      have hav : ¬ (ll_audit_supported K t).1 = 0 := by
        intro h0
        rcases (hstrict hs).2 with hz | hav
        · rw [hz, Nat.zero_and] at h4
          exact h4 rfl
        · exact hav t ((audit_supported_value K t).1.mp h0)
      rw [if_neg hav]
      exact ⟨_, _, rfl, composed_rulesets_audit K t⟩
    · rw [if_neg h4]
      exact ⟨_, _, rfl, rfl⟩
  · rw [if_neg (fun h => hs h.1)]
    by_cases h4 : flags &&& ll_supported_restrict_self_flags r.abi ≠ 0
    · rw [if_pos h4]
      by_cases h5 : (ll_audit_supported K t).1 = 0
      · rw [if_pos h5, if_neg hs]
        exact ⟨_, _, rfl, composed_rulesets_audit K t⟩
      · rw [if_neg h5]
        exact ⟨_, _, rfl, composed_rulesets_audit K t⟩
    · rw [if_neg h4]
      exact ⟨_, _, rfl, rfl⟩

/-- Under a kernel with the composition ceiling, the last steps of `ll_ruleset_enforce`
succeed and compose one more ruleset below the ceiling, and fail with
`LL_ERROR_RESTRICT_LIMIT_REACHED` at the ceiling. -/
theorem enforce_finish_ceiling (K : Kernel) (fd : Int) (m : Nat) (u : Trace)
    (htoggle : ∀ h, (K h .prctl_set_no_new_privs).ret = 0)
    (haccept : ∀ h fd fl, composed_rulesets h < 64 →
      0 ≤ (K h (.landlock_restrict_self fd fl)).ret)
    (hlimit : ∀ h fd fl, 64 ≤ composed_rulesets h →
      (K h (.landlock_restrict_self fd fl)).ret < 0 ∧
      (K h (.landlock_restrict_self fd fl)).errno = E2BIG) :
    (composed_rulesets u < 64 →
      (enforce_finish K fd m u).1 = LL_ERROR_OK ∧
      composed_rulesets (enforce_finish K fd m u).2 = composed_rulesets u + 1) ∧
    (64 ≤ composed_rulesets u →
      (enforce_finish K fd m u).1 = LL_ERROR_RESTRICT_LIMIT_REACHED ∧
      composed_rulesets (enforce_finish K fd m u).2 = composed_rulesets u) := by
  have hc := composed_rulesets_after_toggle K u
  unfold enforce_finish
  rw [if_neg (not_not.mpr (htoggle u))]
  constructor
  · intro h
    have hr : 0 ≤ (restrict_reply K fd m u).ret :=
      haccept (trace_after_toggle K u) fd m (by rw [hc]; exact h)
    rw [if_neg (not_lt.mpr hr)]
    refine ⟨rfl, ?_⟩
    rw [composed_rulesets_append, hc]
    simp [composed_rulesets, hr]
  · intro h
    have hr := hlimit (trace_after_toggle K u) fd m (by rw [hc]; exact h)
    have hr1 : (restrict_reply K fd m u).ret < 0 := hr.1
    have hr2 : (restrict_reply K fd m u).errno = E2BIG := hr.2
    rw [if_pos hr1, hr2]
    refine ⟨(by decide : ll_error_from_restrict_errno E2BIG = LL_ERROR_RESTRICT_LIMIT_REACHED),
      ?_⟩
    rw [composed_rulesets_append, hc]
    simp [composed_rulesets, not_le.mpr hr1]

/-- Repeated enforcement under a kernel with the composition ceiling, from a history
with `c` rulesets composed: `LL_ERROR_OK` until 64 are composed, then
`LL_ERROR_RESTRICT_LIMIT_REACHED`. -/
theorem enforce_repeat_ceiling (K : Kernel) (r : ll_ruleset) (flags : Nat)
    (hfd : 0 ≤ r.ruleset_fd) (hlt : flags < 2 ^ 32) (hknown : bits_subset flags known_flags)
    (hstrict : r.compat_mode = LL_ABI_COMPAT_STRICT →
      flags &&& ll_supported_restrict_self_flags r.abi = flags ∧
      (flags = 0 ∨ ∀ h, ¬ ((K h .socket_netlink).ret < 0 ∧
        (K h .socket_netlink).errno = EPROTONOSUPPORT)))
    (htoggle : ∀ h, (K h .prctl_set_no_new_privs).ret = 0)
    (haccept : ∀ h fd fl, composed_rulesets h < 64 →
      0 ≤ (K h (.landlock_restrict_self fd fl)).ret)
    (hlimit : ∀ h fd fl, 64 ≤ composed_rulesets h →
      (K h (.landlock_restrict_self fd fl)).ret < 0 ∧
      (K h (.landlock_restrict_self fd fl)).errno = E2BIG) :
    ∀ (n : Nat) (t : Trace) (c : Nat), composed_rulesets t = c →
      (enforce_repeat K (some r) flags n t).1 =
        List.replicate (min n (64 - c)) LL_ERROR_OK ++
          List.replicate (n - (64 - c)) LL_ERROR_RESTRICT_LIMIT_REACHED := by
  intro n
  induction n with
  | zero => intro t c _; simp [enforce_repeat]
  | succ n ih =>
    intro t c hc
    obtain ⟨m, u, he, hu⟩ := enforce_valid_reaches_finish K r flags t hfd hlt hknown hstrict
    have hceil := enforce_finish_ceiling K r.ruleset_fd m u htoggle haccept hlimit
    simp only [enforce_repeat]
    rw [he]
    by_cases hlow : c < 64
    · have h1 := hceil.1 (by rw [hu, hc]; exact hlow)
      rw [h1.1, ih _ (c + 1) (by rw [h1.2, hu, hc])]
      have e1 : min (n + 1) (64 - c) = min n (64 - (c + 1)) + 1 := by omega
      have e2 : n + 1 - (64 - c) = n - (64 - (c + 1)) := by omega
      rw [e1, e2, List.replicate_succ]
      rfl
    · have h1 := hceil.2 (by rw [hu, hc]; omega)
      rw [h1.1, ih _ c (by rw [h1.2, hu, hc])]
      have e0 : 64 - c = 0 := by omega
      simp [e0, List.replicate_succ]

/-- C26: the restriction table, and its use by `ll_ruleset_enforce`.  `EOPNOTSUPP`,
`EINVAL`, `EBADF`, `EBADFD`, `EPERM`, `E2BIG` and `ENOSYS` are translated to
`RESTRICT_DISABLED`, `RESTRICT_FLAGS_INVALID`, `RESTRICT_BAD_FD`, `RESTRICT_BAD_FD_TYPE`,
`RESTRICT_NOT_PERMITTED`, `RESTRICT_LIMIT_REACHED` and `UNSUPPORTED_SYSCALL`, every other
reason to `LL_ERROR_SYSTEM`.  Every call of `ll_ruleset_enforce` makes at most one
self-restriction call; when that call fails the result is the translation of its
reason, and when it succeeds the result is `LL_ERROR_OK`.  Under a kernel whose toggle
succeeds, that accepts the restriction while fewer than 64 rulesets are composed on the
thread and fails with `E2BIG` once 64 are composed, `n` enforce calls in a row with a
valid handle and valid flags, from a history with none composed, return `LL_ERROR_OK`
for the first 64 and `LL_ERROR_RESTRICT_LIMIT_REACHED` afterwards. -/
theorem restrict_errno_table (K : Kernel) (r : ll_ruleset) (flags : Nat) (t : Trace)
    (n : Nat) :
    (ll_error_from_restrict_errno EOPNOTSUPP = LL_ERROR_RESTRICT_DISABLED ∧
      ll_error_from_restrict_errno EINVAL = LL_ERROR_RESTRICT_FLAGS_INVALID ∧
      ll_error_from_restrict_errno EBADF = LL_ERROR_RESTRICT_BAD_FD ∧
      ll_error_from_restrict_errno EBADFD = LL_ERROR_RESTRICT_BAD_FD_TYPE ∧
      ll_error_from_restrict_errno EPERM = LL_ERROR_RESTRICT_NOT_PERMITTED ∧
      ll_error_from_restrict_errno E2BIG = LL_ERROR_RESTRICT_LIMIT_REACHED ∧
      ll_error_from_restrict_errno ENOSYS = LL_ERROR_UNSUPPORTED_SYSCALL ∧
      ∀ e : Int, e ≠ EOPNOTSUPP → e ≠ EINVAL → e ≠ EBADF → e ≠ EBADFD → e ≠ EPERM →
        e ≠ E2BIG → e ≠ ENOSYS → ll_error_from_restrict_errno e = LL_ERROR_SYSTEM) ∧
    (∀ (ruleset : Option ll_ruleset) (fl : Nat) (u : Trace),
      restrict_events (ll_ruleset_enforce K ruleset fl u).2 = restrict_events u ∨
      ∃ (fd : Int) (m : Nat) (rep : Reply),
        restrict_events (ll_ruleset_enforce K ruleset fl u).2
          = restrict_events u ++ [(fd, m, rep)] ∧
        (rep.ret < 0 →
          (ll_ruleset_enforce K ruleset fl u).1 = ll_error_from_restrict_errno rep.errno) ∧
        (0 ≤ rep.ret → (ll_ruleset_enforce K ruleset fl u).1 = LL_ERROR_OK)) ∧
    ((∀ h, (K h .prctl_set_no_new_privs).ret = 0) →
      (∀ h fd fl, composed_rulesets h < 64 →
        0 ≤ (K h (.landlock_restrict_self fd fl)).ret) →
      (∀ h fd fl, 64 ≤ composed_rulesets h →
        (K h (.landlock_restrict_self fd fl)).ret < 0 ∧
        (K h (.landlock_restrict_self fd fl)).errno = E2BIG) →
      0 ≤ r.ruleset_fd → flags < 2 ^ 32 → bits_subset flags known_flags →
      (r.compat_mode = LL_ABI_COMPAT_STRICT →
        flags &&& ll_supported_restrict_self_flags r.abi = flags ∧
        (flags = 0 ∨ ∀ h, ¬ ((K h .socket_netlink).ret < 0 ∧
          (K h .socket_netlink).errno = EPROTONOSUPPORT))) →
      composed_rulesets t = 0 →
      (enforce_repeat K (some r) flags n t).1 =
        List.replicate (min n 64) LL_ERROR_OK ++
          List.replicate (n - 64) LL_ERROR_RESTRICT_LIMIT_REACHED) := by
  refine ⟨⟨by decide, by decide, by decide, by decide, by decide, by decide, by decide,
    fun e h1 h2 h3 h4 h5 h6 h7 => ?_⟩, fun ruleset fl u => enforce_events K ruleset fl u,
    fun htoggle haccept hlimit hfd hlt hknown hstrict hc => ?_⟩
  · simp only [ll_error_from_restrict_errno, if_neg h1, if_neg h2, if_neg h3, if_neg h4,
      if_neg h5, if_neg h6, if_neg h7, ll_error_system, ll_error_with_errno]
  · exact enforce_repeat_ceiling K r flags hfd hlt hknown hstrict htoggle haccept hlimit n t 0 hc

/-- C26, at a concrete input: 66 enforce calls with flags 0 on a best-effort ruleset,
under the sample kernel with the composition ceiling, from the empty history: 64 times
`LL_ERROR_OK`, then twice `LL_ERROR_RESTRICT_LIMIT_REACHED`. -/
theorem restrict_errno_table_witness :
    (enforce_repeat limit_kernel (some (sample_ruleset 6 LL_ABI_COMPAT_BEST_EFFORT 0)) 0 66 []).1
      = List.replicate 64 LL_ERROR_OK ++ List.replicate 2 LL_ERROR_RESTRICT_LIMIT_REACHED :=
  (restrict_errno_table limit_kernel (sample_ruleset 6 LL_ABI_COMPAT_BEST_EFFORT 0) 0 [] 66).2.2
    (fun _ => rfl)
    (fun h fd fl hc => by simp [limit_kernel, hc])
    (fun h fd fl hc => by simp [limit_kernel, not_lt.mpr hc])
    (by decide) (by norm_num) (by decide)
    (fun hs => absurd hs (by decide))
    rfl

/-! ## The attribute builder and the taxonomy -/

/-- C31: for a non-null attribute and each of the three access classes,
`ll_ruleset_attr_handle` returns `LL_ERROR_OK` and ORs the requested bits into the mask
of that class, whatever the bits and whatever the attribute's ABI and mode (nothing is
compared with a supported set), leaving the two other masks, the ABI, the mode and the
flags as they were; a class that is none of the three, or a null attribute, gives
`LL_ERROR_INVALID_ARGUMENT` (and leaves a non-null attribute as it was). -/
theorem attr_handle_accumulates (a : ll_ruleset_attr_t) (c : Int) (b : Nat) :
    (c = LL_RULESET_ACCESS_CLASS_FS →
      ll_ruleset_attr_handle (some a) c b =
        (LL_ERROR_OK, some ⟨a.abi, a.compat_mode,
          ⟨a.access.handled_access_fs ||| b, a.access.handled_access_net, a.access.scoped_⟩,
          a.flags⟩)) ∧
    (c = LL_RULESET_ACCESS_CLASS_NET →
      ll_ruleset_attr_handle (some a) c b =
        (LL_ERROR_OK, some ⟨a.abi, a.compat_mode,
          ⟨a.access.handled_access_fs, a.access.handled_access_net ||| b, a.access.scoped_⟩,
          a.flags⟩)) ∧
    (c = LL_RULESET_ACCESS_CLASS_SCOPE →
      ll_ruleset_attr_handle (some a) c b =
        (LL_ERROR_OK, some ⟨a.abi, a.compat_mode,
          ⟨a.access.handled_access_fs, a.access.handled_access_net, a.access.scoped_ ||| b⟩,
          a.flags⟩)) ∧
    (c ≠ LL_RULESET_ACCESS_CLASS_FS → c ≠ LL_RULESET_ACCESS_CLASS_NET →
      c ≠ LL_RULESET_ACCESS_CLASS_SCOPE →
      ll_ruleset_attr_handle (some a) c b = (LL_ERROR_INVALID_ARGUMENT, some a)) ∧
    ll_ruleset_attr_handle none c b = (LL_ERROR_INVALID_ARGUMENT, none) := by
  refine ⟨?_, ?_, ?_, ?_, rfl⟩
  · intro hc
    simp only [ll_ruleset_attr_handle, if_pos hc]
  · intro hc
    have h0 : c ≠ LL_RULESET_ACCESS_CLASS_FS := by rw [hc]; decide
    simp only [ll_ruleset_attr_handle, if_neg h0, if_pos hc]
  · intro hc
    have h0 : c ≠ LL_RULESET_ACCESS_CLASS_FS := by rw [hc]; decide
    have h1 : c ≠ LL_RULESET_ACCESS_CLASS_NET := by rw [hc]; decide
    simp only [ll_ruleset_attr_handle, if_neg h0, if_neg h1, if_pos hc]
  · intro h0 h1 h2
    simp only [ll_ruleset_attr_handle, if_neg h0, if_neg h1, if_neg h2, ll_error_with_errno]

/-- C31, at concrete inputs: `REFER` is accumulated into a strict attribute of ABI 1,
where the filesystem table does not have it; class 3 is refused. -/
theorem attr_handle_accumulates_witness :
    ll_ruleset_attr_handle (some (sample_attr 1 LL_ABI_COMPAT_STRICT 4))
        LL_RULESET_ACCESS_CLASS_FS LANDLOCK_ACCESS_FS_REFER =
      (LL_ERROR_OK, some ⟨1, LL_ABI_COMPAT_STRICT, ⟨8196, 0, 0⟩, 0⟩) ∧
    ll_ruleset_attr_handle (some (sample_attr 1 LL_ABI_COMPAT_STRICT 4)) 3 1 =
      (LL_ERROR_INVALID_ARGUMENT, some (sample_attr 1 LL_ABI_COMPAT_STRICT 4)) :=
  ⟨(attr_handle_accumulates (sample_attr 1 LL_ABI_COMPAT_STRICT 4)
      LL_RULESET_ACCESS_CLASS_FS LANDLOCK_ACCESS_FS_REFER).1 rfl,
   (attr_handle_accumulates (sample_attr 1 LL_ABI_COMPAT_STRICT 4) 3 1).2.2.2.1
      (by decide) (by decide) (by decide)⟩

/-- C32: the numeric values of the enumerators of `ll_error_t` are pairwise distinct (the
value determines the enumerator, and the thirty enumerators are all of them);
`LL_ERROR_OK_PARTIAL_SANDBOX` differs from `LL_ERROR_OK`, as enumerator and as value;
and `LL_ERRORED` is false exactly on these two and true on every other enumerator. -/
theorem error_codes_distinct :
    Function.Injective ll_error_t.code ∧
    all_codes.Nodup ∧ (∀ e : ll_error_t, e ∈ all_codes) ∧
    LL_ERROR_OK_PARTIAL_SANDBOX ≠ LL_ERROR_OK ∧
    LL_ERROR_OK_PARTIAL_SANDBOX.code ≠ LL_ERROR_OK.code ∧
    (∀ e : ll_error_t, LL_ERRORED e = false ↔ (e = LL_ERROR_OK ∨ e = LL_ERROR_OK_PARTIAL_SANDBOX)) ∧
    (∀ e : ll_error_t, e ≠ LL_ERROR_OK → e ≠ LL_ERROR_OK_PARTIAL_SANDBOX → LL_ERRORED e = true) := by
  have hall : ∀ e : ll_error_t, e ∈ all_codes := by
    intro e; cases e <;> decide
  have hinj : ∀ a ∈ all_codes, ∀ b ∈ all_codes, a.code = b.code → a = b := by decide
  refine ⟨fun a b h => hinj a (hall a) b (hall b) h, by decide, hall, by decide, by decide, ?_, ?_⟩
  · intro e; cases e <;> decide
  · intro e; cases e <;> decide

/-! ## Failures are failures -/

theorem create_errno_errored (err : Int) :
    LL_ERRORED (ll_error_from_create_ruleset_errno err) = true := by
  simp only [ll_error_from_create_ruleset_errno, ll_error_system, ll_error_with_errno]
  split_ifs <;> decide

/-- C38: for every integer failure reason, each of the three translation functions
returns a code with a negative value, which is neither `LL_ERROR_OK` nor
`LL_ERROR_OK_PARTIAL_SANDBOX`, and which is a code of the function's own phase or
`LL_ERROR_UNSUPPORTED_SYSCALL` or `LL_ERROR_SYSTEM`; no function returns a code of
another phase, and the three phases share no code. -/
theorem failed_call_never_success (err : Int) :
    ((ll_error_from_create_ruleset_errno err).code < 0 ∧
      ll_error_from_create_ruleset_errno err ≠ LL_ERROR_OK ∧
      ll_error_from_create_ruleset_errno err ≠ LL_ERROR_OK_PARTIAL_SANDBOX ∧
      (ll_error_from_create_ruleset_errno err ∈ creation_codes ∨
        ll_error_from_create_ruleset_errno err = LL_ERROR_UNSUPPORTED_SYSCALL ∨
        ll_error_from_create_ruleset_errno err = LL_ERROR_SYSTEM) ∧
      ll_error_from_create_ruleset_errno err ∉ rule_codes ∧
      ll_error_from_create_ruleset_errno err ∉ restriction_codes) ∧
    ((ll_error_from_add_rule_errno err).code < 0 ∧
      ll_error_from_add_rule_errno err ≠ LL_ERROR_OK ∧
      ll_error_from_add_rule_errno err ≠ LL_ERROR_OK_PARTIAL_SANDBOX ∧
      (ll_error_from_add_rule_errno err ∈ rule_codes ∨
        ll_error_from_add_rule_errno err = LL_ERROR_UNSUPPORTED_SYSCALL ∨
        ll_error_from_add_rule_errno err = LL_ERROR_SYSTEM) ∧
      ll_error_from_add_rule_errno err ∉ creation_codes ∧
      ll_error_from_add_rule_errno err ∉ restriction_codes) ∧
    ((ll_error_from_restrict_errno err).code < 0 ∧
      ll_error_from_restrict_errno err ≠ LL_ERROR_OK ∧
      ll_error_from_restrict_errno err ≠ LL_ERROR_OK_PARTIAL_SANDBOX ∧
      (ll_error_from_restrict_errno err ∈ restriction_codes ∨
        ll_error_from_restrict_errno err = LL_ERROR_UNSUPPORTED_SYSCALL ∨
        ll_error_from_restrict_errno err = LL_ERROR_SYSTEM) ∧
      ll_error_from_restrict_errno err ∉ creation_codes ∧
      ll_error_from_restrict_errno err ∉ rule_codes) ∧
    (∀ e ∈ creation_codes, e ∉ rule_codes ∧ e ∉ restriction_codes) ∧
    (∀ e ∈ rule_codes, e ∉ restriction_codes) := by
  refine ⟨?_, ?_, ?_, by decide, by decide⟩
  · simp only [ll_error_from_create_ruleset_errno, ll_error_system, ll_error_with_errno]
    split_ifs <;> decide
  · simp only [ll_error_from_add_rule_errno, ll_error_system, ll_error_with_errno]
    split_ifs <;> decide
  · simp only [ll_error_from_restrict_errno, ll_error_system, ll_error_with_errno]
    split_ifs <;> decide

/-- The two ways `ll_ruleset_create` ends with a non-null `out_ruleset`: a negative
result and a null `*out_ruleset`, or a success variant and a ruleset. -/
theorem create_result_shape (K : Kernel) (a : ll_ruleset_attr_t)
    (slot : Option ll_ruleset) (t : Trace) :
    (∃ (e : ll_error_t) (u : Trace), LL_ERRORED e = true ∧
      ll_ruleset_create K a (some slot) t = (e, some none, u)) ∨
    (∃ (e : ll_error_t) (r : ll_ruleset) (u : Trace),
      (e = LL_ERROR_OK ∨ e = LL_ERROR_OK_PARTIAL_SANDBOX) ∧
      ll_ruleset_create K a (some slot) t = (e, some (some r), u)) := by
  rw [ll_ruleset_create_steps]
  split_ifs
  · exact Or.inl ⟨_, _, create_errno_errored _, rfl⟩
  · exact Or.inl ⟨_, _, (by decide : LL_ERRORED LL_ERROR_RULESET_INCOMPATIBLE = true), rfl⟩
  · exact Or.inl ⟨_, _, (by decide : LL_ERRORED LL_ERROR_RULESET_CREATE_EMPTY_ACCESS = true),
      rfl⟩
  · exact Or.inl ⟨_, _, create_errno_errored _, rfl⟩
  · exact Or.inl ⟨_, _, (by decide : LL_ERRORED LL_ERROR_OUT_OF_MEMORY = true), rfl⟩
  · exact Or.inl ⟨_, _,
      (by decide : LL_ERRORED LL_ERROR_RESTRICT_PARTIAL_SANDBOX_STRICT = true), rfl⟩
  · exact Or.inr ⟨_, _, _, Or.inl rfl, rfl⟩
  · exact Or.inr ⟨_, _, _, Or.inr rfl, rfl⟩
  · exact Or.inr ⟨_, _, _, Or.inl rfl, rfl⟩

/-- C37: with a non-null `out_ruleset`, whatever the attribute and whatever the kernel
answers, `ll_ruleset_create` leaves `*out_ruleset` null exactly when its result is
negative and stores a ruleset exactly when its result is `LL_ERROR_OK` or
`LL_ERROR_OK_PARTIAL_SANDBOX` (the result is one or the other kind); the strict abort
`LL_ERROR_RESTRICT_PARTIAL_SANDBOX_STRICT` is among the former.  With a null
`out_ruleset` the result is `LL_ERROR_INVALID_ARGUMENT` and no call is made. -/
theorem create_output_iff_success (K : Kernel) (a : ll_ruleset_attr_t)
    (slot : Option ll_ruleset) (t : Trace) :
    (LL_ERRORED (ll_ruleset_create K a (some slot) t).1 = true ↔
      (ll_ruleset_create K a (some slot) t).2.1 = some none) ∧
    (((ll_ruleset_create K a (some slot) t).1 = LL_ERROR_OK ∨
        (ll_ruleset_create K a (some slot) t).1 = LL_ERROR_OK_PARTIAL_SANDBOX) ↔
      ∃ r : ll_ruleset, (ll_ruleset_create K a (some slot) t).2.1 = some (some r)) ∧
    (LL_ERRORED (ll_ruleset_create K a (some slot) t).1 = true ∨
      (ll_ruleset_create K a (some slot) t).1 = LL_ERROR_OK ∨
      (ll_ruleset_create K a (some slot) t).1 = LL_ERROR_OK_PARTIAL_SANDBOX) ∧
    ((ll_ruleset_create K a (some slot) t).1 = LL_ERROR_RESTRICT_PARTIAL_SANDBOX_STRICT →
      (ll_ruleset_create K a (some slot) t).2.1 = some none) ∧
    ll_ruleset_create K a none t = (LL_ERROR_INVALID_ARGUMENT, none, t) := by
  rcases create_result_shape K a slot t with ⟨e, u, he, heq⟩ | ⟨e, r, u, he, heq⟩
  · rw [heq]
    refine ⟨⟨fun _ => rfl, fun _ => he⟩, ⟨fun h => ?_, fun h => ?_⟩, Or.inl he, fun _ => rfl,
      rfl⟩
    · exfalso
      rcases h with h | h <;> (dsimp only at h; rw [h] at he; exact absurd he (by decide))
    · obtain ⟨r, hr⟩ := h
      exact absurd hr (by simp)
  · rw [heq]
    have hne : LL_ERRORED e = false := by rcases he with h | h <;> rw [h] <;> decide
    refine ⟨⟨fun h => ?_, fun h => ?_⟩, ⟨fun _ => ⟨r, rfl⟩, fun _ => he⟩, Or.inr he,
      fun h => ?_, rfl⟩
    · dsimp only at h
      rw [hne] at h
      exact absurd h (by decide)
    · exact absurd h (by simp)
    · dsimp only at h
      rcases he with h1 | h1 <;> (rw [h1] at h; exact absurd h (by decide))

/-- C37, at a concrete input: strict mode asking for ABI 1, `READ_FILE` and `REFER` under
a kernel of ABI 1; the creation call returns descriptor 3, the ruleset is built, the
call aborts with `LL_ERROR_RESTRICT_PARTIAL_SANDBOX_STRICT` and `*out_ruleset` is null
although it held a ruleset before the call. -/
theorem create_output_iff_success_witness :
    (ll_ruleset_create (sample_kernel 1 1 0) (sample_attr 1 LL_ABI_COMPAT_STRICT 8196)
        (some (some (sample_ruleset 1 LL_ABI_COMPAT_STRICT 0))) []).1
      = LL_ERROR_RESTRICT_PARTIAL_SANDBOX_STRICT ∧
    (ll_ruleset_create (sample_kernel 1 1 0) (sample_attr 1 LL_ABI_COMPAT_STRICT 8196)
        (some (some (sample_ruleset 1 LL_ABI_COMPAT_STRICT 0))) []).2.1 = some none :=
  ⟨by decide,
   (create_output_iff_success (sample_kernel 1 1 0) (sample_attr 1 LL_ABI_COMPAT_STRICT 8196)
      (some (sample_ruleset 1 LL_ABI_COMPAT_STRICT 0)) []).1.mp (by decide)⟩

/-! ## The order of the toggle and the restriction -/

theorem audit_extends (K : Kernel) (t : Trace) : t <+: (ll_audit_supported K t).2 := by
  simp only [ll_audit_supported, sys_fst, sys_snd]
  split_ifs
  · exact List.prefix_append _ _
  · exact List.prefix_append _ _
  · rw [List.append_assoc]
    exact List.prefix_append _ _

/-- The two ways the last steps of `ll_ruleset_enforce` end: the toggle fails and nothing
follows it, or the toggle returns 0 and the self-restriction call follows it. -/
theorem enforce_finish_shape (K : Kernel) (fd : Int) (m : Nat) (u : Trace) :
    ((K u .prctl_set_no_new_privs).ret ≠ 0 ∧
      enforce_finish K fd m u =
        (LL_ERROR_SYSTEM, u ++ [⟨.prctl_set_no_new_privs, K u .prctl_set_no_new_privs⟩])) ∨
    ((K u .prctl_set_no_new_privs).ret = 0 ∧
      (enforce_finish K fd m u).2 =
        u ++ [⟨.prctl_set_no_new_privs, K u .prctl_set_no_new_privs⟩,
              ⟨.landlock_restrict_self fd m, restrict_reply K fd m u⟩] ∧
      ((enforce_finish K fd m u).1 = LL_ERROR_OK ↔ 0 ≤ (restrict_reply K fd m u).ret)) := by
  unfold enforce_finish
  by_cases h0 : (K u .prctl_set_no_new_privs).ret ≠ 0
  · rw [if_pos h0]
    exact Or.inl ⟨h0, rfl⟩
  · rw [if_neg h0]
    refine Or.inr ⟨not_not.mp h0, ?_⟩
    by_cases h1 : (restrict_reply K fd m u).ret < 0
    · rw [if_pos h1]
      refine ⟨by simp [trace_after_toggle], ?_⟩
      constructor
      · intro h
        exact absurd h (restrict_errno_not_success _).1
      · intro h
        exact absurd h (not_le.mpr h1)
    · rw [if_neg h1]
      exact ⟨by simp [trace_after_toggle], fun _ => not_lt.mp h1, fun _ => rfl⟩

/-- Every call of `ll_ruleset_enforce` either stops early with a failure, having touched
neither the toggle nor the self-restriction channel, or goes through its last steps. -/
theorem enforce_reaches (K : Kernel) (ruleset : Option ll_ruleset) (flags : Nat) (t : Trace) :
    ∃ u : Trace, t <+: u ∧ restrict_events u = restrict_events t ∧
      toggle_calls u = toggle_calls t ∧ composed_rulesets u = composed_rulesets t ∧
      ((∃ e : ll_error_t, e ≠ LL_ERROR_OK ∧ ll_ruleset_enforce K ruleset flags t = (e, u)) ∨
        ∃ (fd : Int) (m : Nat),
          ll_ruleset_enforce K ruleset flags t = enforce_finish K fd m u) := by
  have hearly : ∀ e : ll_error_t, e ≠ LL_ERROR_OK →
      ∃ u : Trace, t <+: u ∧ restrict_events u = restrict_events t ∧
        toggle_calls u = toggle_calls t ∧ composed_rulesets u = composed_rulesets t ∧
        ((∃ e1 : ll_error_t, e1 ≠ LL_ERROR_OK ∧ (e, t) = (e1, u)) ∨
          ∃ (fd : Int) (m : Nat), (e, t) = enforce_finish K fd m u) :=
    fun e he => ⟨t, List.prefix_refl t, rfl, rfl, rfl, Or.inl ⟨e, he, rfl⟩⟩
  cases ruleset with
  | none => exact hearly _ (by decide)
  | some r =>
    rw [ll_ruleset_enforce_steps]
    split_ifs
    · exact hearly _ (by decide)
    · exact hearly _ (by decide)
    · exact hearly _ (by decide)
    · exact ⟨_, audit_extends K t, restrict_events_audit K t, toggle_calls_audit K t,
        composed_rulesets_audit K t, Or.inl ⟨_, by decide, rfl⟩⟩
    · exact ⟨_, audit_extends K t, restrict_events_audit K t, toggle_calls_audit K t,
        composed_rulesets_audit K t, Or.inr ⟨_, _, rfl⟩⟩
    · exact ⟨_, audit_extends K t, restrict_events_audit K t, toggle_calls_audit K t,
        composed_rulesets_audit K t, Or.inr ⟨_, _, rfl⟩⟩
    · exact ⟨t, List.prefix_refl t, rfl, rfl, rfl, Or.inr ⟨_, _, rfl⟩⟩

theorem restrict_events_pair (p r : Reply) (fd : Int) (m : Nat) :
    restrict_events [⟨.prctl_set_no_new_privs, p⟩, ⟨.landlock_restrict_self fd m, r⟩]
      = [(fd, m, r)] := by
  simp [restrict_events]

theorem composed_rulesets_pair (p r : Reply) (fd : Int) (m : Nat) :
    composed_rulesets [⟨.prctl_set_no_new_privs, p⟩, ⟨.landlock_restrict_self fd m, r⟩]
      = if 0 ≤ r.ret then 1 else 0 := by
  simp [composed_rulesets, List.countP_cons]

theorem toggle_calls_pair (p r : Reply) (fd : Int) (m : Nat) :
    toggle_calls [⟨.prctl_set_no_new_privs, p⟩, ⟨.landlock_restrict_self fd m, r⟩] = [p] := by
  simp [toggle_calls]

/-- C33: in one call of `ll_ruleset_enforce`, whatever the kernel answers: the
self-restriction channel is called at most once, and when it is, the call is the last
event of the call, right after a toggle call of this same call that returned 0; the
toggle is called at most once, and when it fails the result is `LL_ERROR_SYSTEM` and the
self-restriction channel is not called; the result is `LL_ERROR_OK` exactly when the
self-restriction channel was called and did not report a failure; and a call whose
result is not `LL_ERROR_OK` leaves the number of rulesets composed on the thread as it
was (a thread with none stays with none), while a call with `LL_ERROR_OK` adds one. -/
theorem enforce_toggle_then_restrict (K : Kernel) (ruleset : Option ll_ruleset) (flags : Nat)
    (t : Trace) :
    (restrict_events (ll_ruleset_enforce K ruleset flags t).2 = restrict_events t ∨
      ∃ (u : Trace) (fd : Int) (m : Nat) (p r : Reply), t <+: u ∧
        (ll_ruleset_enforce K ruleset flags t).2 =
          u ++ [⟨.prctl_set_no_new_privs, p⟩, ⟨.landlock_restrict_self fd m, r⟩] ∧
        p.ret = 0 ∧ restrict_events u = restrict_events t ∧
        toggle_calls u = toggle_calls t) ∧
    (toggle_calls (ll_ruleset_enforce K ruleset flags t).2 = toggle_calls t ∨
      ∃ p : Reply, toggle_calls (ll_ruleset_enforce K ruleset flags t).2 = toggle_calls t ++ [p] ∧
        (p.ret ≠ 0 → (ll_ruleset_enforce K ruleset flags t).1 = LL_ERROR_SYSTEM ∧
          restrict_events (ll_ruleset_enforce K ruleset flags t).2 = restrict_events t)) ∧
    ((ll_ruleset_enforce K ruleset flags t).1 = LL_ERROR_OK ↔
      ∃ (fd : Int) (m : Nat) (r : Reply),
        restrict_events (ll_ruleset_enforce K ruleset flags t).2
          = restrict_events t ++ [(fd, m, r)] ∧ 0 ≤ r.ret) ∧
    ((ll_ruleset_enforce K ruleset flags t).1 ≠ LL_ERROR_OK →
      composed_rulesets (ll_ruleset_enforce K ruleset flags t).2 = composed_rulesets t) ∧
    ((ll_ruleset_enforce K ruleset flags t).1 = LL_ERROR_OK →
      composed_rulesets (ll_ruleset_enforce K ruleset flags t).2 = composed_rulesets t + 1) := by
  obtain ⟨u, hpre, hre, htg, hco, hcase⟩ := enforce_reaches K ruleset flags t
  have hnil : ∀ x : Int × Nat × Reply, restrict_events t ≠ restrict_events t ++ [x] := by
    intro x h
    have := congrArg List.length h
    simp at this
  rcases hcase with ⟨e, he, heq⟩ | ⟨fd, m, heq⟩
  · -- an early failure
    rw [heq]
    refine ⟨Or.inl hre, Or.inl htg, ⟨fun h => absurd h he, ?_⟩, fun _ => hco,
      fun h => absurd h he⟩
    rintro ⟨fd, m, r, h, _⟩
    exact absurd (hre.symm.trans h) (hnil _)
  · rw [heq]
    rcases enforce_finish_shape K fd m u with ⟨h0, hfin⟩ | ⟨h0, htr, hok⟩
    · -- the toggle fails
      have hre1 : restrict_events (u ++ [⟨.prctl_set_no_new_privs,
          K u .prctl_set_no_new_privs⟩]) = restrict_events t := by
        rw [restrict_events_append, hre]; simp [restrict_events]
      have htg1 : toggle_calls (u ++ [⟨.prctl_set_no_new_privs,
          K u .prctl_set_no_new_privs⟩]) = toggle_calls t ++ [K u .prctl_set_no_new_privs] := by
        rw [toggle_calls_append, htg]; simp [toggle_calls]
      have hco1 : composed_rulesets (u ++ [⟨.prctl_set_no_new_privs,
          K u .prctl_set_no_new_privs⟩]) = composed_rulesets t := by
        rw [composed_rulesets_append, hco]; simp [composed_rulesets]
      rw [hfin]
      have hsys : LL_ERROR_SYSTEM ≠ LL_ERROR_OK := by decide
      refine ⟨Or.inl hre1, Or.inr ⟨_, htg1, fun _ => ⟨rfl, hre1⟩⟩,
        ⟨fun h => absurd h hsys, ?_⟩, fun _ => hco1, fun h => absurd h hsys⟩
      rintro ⟨fd1, m1, r, h, _⟩
      exact absurd (hre1.symm.trans h) (hnil _)
    · -- the toggle returns 0 and the self-restriction call follows
      have hre2 : restrict_events (enforce_finish K fd m u).2 =
          restrict_events t ++ [(fd, m, restrict_reply K fd m u)] := by
        rw [htr, restrict_events_append, hre, restrict_events_pair]
      have htg2 : toggle_calls (enforce_finish K fd m u).2 =
          toggle_calls t ++ [K u .prctl_set_no_new_privs] := by
        rw [htr, toggle_calls_append, htg, toggle_calls_pair]
      have hco2 : composed_rulesets (enforce_finish K fd m u).2 =
          composed_rulesets t + if 0 ≤ (restrict_reply K fd m u).ret then 1 else 0 := by
        rw [htr, composed_rulesets_append, hco, composed_rulesets_pair]
      refine ⟨Or.inr ⟨u, fd, m, _, _, hpre, htr, h0, hre, htg⟩,
        Or.inr ⟨_, htg2, fun h => absurd h0 h⟩, ⟨fun h => ⟨fd, m, _, hre2, hok.mp h⟩, ?_⟩,
        fun h => ?_, fun h => ?_⟩
      · rintro ⟨fd1, m1, r, h, hr⟩
        have h2 := List.append_cancel_left (hre2.symm.trans h)
        have h3 : restrict_reply K fd m u = r := by
          injection h2 with h2 _
          exact (Prod.mk.inj (Prod.mk.inj h2).2).2
        rw [← h3] at hr
        exact hok.mpr hr
      · rw [hco2, if_neg (fun hr => h (hok.mpr hr)), Nat.add_zero]
      · rw [hco2, if_pos (hok.mp h)]

/-- C33, at concrete inputs: with the toggle failing (every call fails with `EPERM`) the
result is `LL_ERROR_SYSTEM` after the one toggle call, and the self-restriction channel
is untouched; with a kernel that accepts, the toggle call is followed by the
self-restriction call and the result is `LL_ERROR_OK`. -/
theorem enforce_toggle_then_restrict_witness :
    ll_ruleset_enforce (failing_kernel EPERM) (some (sample_ruleset 6 LL_ABI_COMPAT_STRICT 0)) 0 []
      = (LL_ERROR_SYSTEM, [⟨.prctl_set_no_new_privs, ⟨-1, EPERM, 0⟩⟩]) ∧
    ll_ruleset_enforce (sample_kernel 6 1 0) (some (sample_ruleset 6 LL_ABI_COMPAT_STRICT 0)) 0 []
      = (LL_ERROR_OK, [⟨.prctl_set_no_new_privs, ⟨0, 0, 0⟩⟩,
          ⟨.landlock_restrict_self 3 0, ⟨0, 0, 0⟩⟩]) ∧
    composed_rulesets (ll_ruleset_enforce (failing_kernel EPERM)
      (some (sample_ruleset 6 LL_ABI_COMPAT_STRICT 0)) 0 []).2 = composed_rulesets [] ∧
    composed_rulesets (ll_ruleset_enforce (sample_kernel 6 1 0)
      (some (sample_ruleset 6 LL_ABI_COMPAT_STRICT 0)) 0 []).2 = composed_rulesets [] + 1 :=
  ⟨by decide, by decide,
   (enforce_toggle_then_restrict (failing_kernel EPERM)
      (some (sample_ruleset 6 LL_ABI_COMPAT_STRICT 0)) 0 []).2.2.2.1 (by decide),
   (enforce_toggle_then_restrict (sample_kernel 6 1 0)
      (some (sample_ruleset 6 LL_ABI_COMPAT_STRICT 0)) 0 []).2.2.2.2 (by decide)⟩

/-! ## Kernel handles as explicit state -/

theorem open_handles_append (t u : Trace) :
    open_handles (t ++ u) = u.foldl handles_step (open_handles t) := by
  simp [open_handles, List.foldl_append]

theorem returned_handles_append (t u : Trace) :
    returned_handles (t ++ u) = returned_handles t ++ returned_handles u := by
  simp [returned_handles, List.filterMap_append]

theorem close_calls_append (t u : Trace) :
    close_calls (t ++ u) = close_calls t ++ close_calls u := by
  simp [close_calls, List.filterMap_append]

/-- The probes of `ll_ruleset_create` open nothing and close nothing. -/
theorem handles_at_creation (K : Kernel) (a : ll_ruleset_attr_t) (t : Trace) :
    open_handles (trace_at_creation K a t) = open_handles t ∧
    returned_handles (trace_at_creation K a t) = returned_handles t ∧
    close_calls (trace_at_creation K a t) = close_calls t := by
  simp only [trace_at_creation, sys_snd, resolve_trace]
  split_ifs <;>
    simp [open_handles_append, returned_handles_append, close_calls_append, handles_step,
      returned_handles, close_calls, version_probe]

/-- A creation call that fails opens nothing. -/
theorem handles_after_failed_creation (K : Kernel) (a : ll_ruleset_attr_t) (t : Trace)
    (h : (creation_reply K a t).ret < 0) :
    open_handles (trace_after_creation K a t) = open_handles t ∧
    returned_handles (trace_after_creation K a t) = returned_handles t ∧
    close_calls (trace_after_creation K a t) = close_calls t := by
  have hA := handles_at_creation K a t
  have h' : ¬ 0 ≤ (K (trace_at_creation K a t) (creation_call K a t)).ret := not_le.mpr h
  simp only [trace_after_creation, sys_snd, open_handles_append, returned_handles_append,
    close_calls_append, hA.1, hA.2.1, hA.2.2]
  simp only [creation_call] at h' ⊢
  simp [handles_step, returned_handles, close_calls, h']

/-- A creation call that returns a handle, followed by the allocation: the handle is
open, and nothing has been closed. -/
theorem handles_after_alloc (K : Kernel) (a : ll_ruleset_attr_t) (t : Trace)
    (h : ¬ (creation_reply K a t).ret < 0) :
    open_handles (trace_after_alloc K a t) = (creation_reply K a t).ret :: open_handles t ∧
    returned_handles (trace_after_alloc K a t) =
      returned_handles t ++ [(creation_reply K a t).ret] ∧
    close_calls (trace_after_alloc K a t) = close_calls t := by
  have hA := handles_at_creation K a t
  have h' : 0 ≤ (K (trace_at_creation K a t) (creation_call K a t)).ret := not_lt.mp h
  simp only [trace_after_alloc, trace_after_creation, sys_snd, open_handles_append,
    returned_handles_append, close_calls_append, hA.1, hA.2.1, hA.2.2]
  simp only [creation_call, creation_reply] at h' ⊢
  simp [handles_step, returned_handles, close_calls, h']

/-- Closing the handle that the creation call returned, after the allocation. -/
theorem handles_after_release (K : Kernel) (a : ll_ruleset_attr_t) (t : Trace) (rest : Trace)
    (h : ¬ (creation_reply K a t).ret < 0)
    (hrest : rest = [] ∨ ∃ r : Reply, rest = [⟨.free, r⟩]) (c : Reply) :
    open_handles (trace_after_alloc K a t ++ ⟨.close (creation_reply K a t).ret, c⟩ :: rest)
      = open_handles t ∧
    returned_handles (trace_after_alloc K a t ++ ⟨.close (creation_reply K a t).ret, c⟩ :: rest)
      = returned_handles t ++ [(creation_reply K a t).ret] ∧
    close_calls (trace_after_alloc K a t ++ ⟨.close (creation_reply K a t).ret, c⟩ :: rest)
      = close_calls t ++ [(creation_reply K a t).ret] := by
  have hB := handles_after_alloc K a t h
  rw [open_handles_append, returned_handles_append, close_calls_append, hB.1, hB.2.1, hB.2.2]
  rcases hrest with rfl | ⟨r, rfl⟩ <;>
    simp [handles_step, returned_handles, close_calls]

/-- C34: with the open descriptors read off the history, a call of `ll_ruleset_create`
with a negative result leaves the open descriptors as they were before the call;
either the creation channel returned no handle during the call and nothing was closed,
or it returned exactly one handle and exactly that handle was closed, once; the latter
is the case for the allocation failure and for the strict partial-sandbox abort, where
the handle is the one the creation call returned.  And `ll_ruleset_close` on a null
ruleset makes no call. -/
theorem failing_create_releases_handle (K : Kernel) (a : ll_ruleset_attr_t)
    (out : Option (Option ll_ruleset)) (t : Trace)
    (hfail : LL_ERRORED (ll_ruleset_create K a out t).1 = true) :
    open_handles (ll_ruleset_create K a out t).2.2 = open_handles t ∧
    ((returned_handles (ll_ruleset_create K a out t).2.2 = returned_handles t ∧
        close_calls (ll_ruleset_create K a out t).2.2 = close_calls t) ∨
      ∃ fd : Int, 0 ≤ fd ∧
        returned_handles (ll_ruleset_create K a out t).2.2 = returned_handles t ++ [fd] ∧
        close_calls (ll_ruleset_create K a out t).2.2 = close_calls t ++ [fd]) ∧
    ((ll_ruleset_create K a out t).1 = LL_ERROR_OUT_OF_MEMORY ∨
        (ll_ruleset_create K a out t).1 = LL_ERROR_RESTRICT_PARTIAL_SANDBOX_STRICT →
      returned_handles (ll_ruleset_create K a out t).2.2
        = returned_handles t ++ [(creation_reply K a t).ret] ∧
      close_calls (ll_ruleset_create K a out t).2.2
        = close_calls t ++ [(creation_reply K a t).ret]) ∧
    ∀ u : Trace, ll_ruleset_close K none u = u := by
  cases out with
  | none => exact ⟨rfl, Or.inl ⟨rfl, rfl⟩, (fun h => by rcases h with h | h <;> cases h),
      fun _ => rfl⟩
  | some slot =>
    have hA := handles_at_creation K a t
    have hno : ∀ err : Int, ¬ (ll_error_from_create_ruleset_errno err = LL_ERROR_OUT_OF_MEMORY ∨
        ll_error_from_create_ruleset_errno err = LL_ERROR_RESTRICT_PARTIAL_SANDBOX_STRICT) := by
      intro err
      simp only [ll_error_from_create_ruleset_errno, ll_error_system, ll_error_with_errno]
      split_ifs <;> decide
    rw [ll_ruleset_create_steps] at hfail ⊢
    split_ifs at hfail ⊢ with h1 h2 h3 h4 h5 h6 h7
    · exact ⟨hA.1, Or.inl ⟨hA.2.1, hA.2.2⟩, fun h => absurd h (hno _), fun _ => rfl⟩
    · exact ⟨hA.1, Or.inl ⟨hA.2.1, hA.2.2⟩,
        (fun h => h.elim (fun h => nomatch h) (fun h => nomatch h)), fun _ => rfl⟩
    · exact ⟨hA.1, Or.inl ⟨hA.2.1, hA.2.2⟩,
        (fun h => h.elim (fun h => nomatch h) (fun h => nomatch h)), fun _ => rfl⟩
    · have hB := handles_after_failed_creation K a t h4
      exact ⟨hB.1, Or.inl ⟨hB.2.1, hB.2.2⟩, fun h => absurd h (hno _), fun _ => rfl⟩
    · have hC := handles_after_release K a t [] h4 (Or.inl rfl)
        (K (trace_after_alloc K a t) (.close (creation_reply K a t).ret))
      rw [sys_snd]
      exact ⟨hC.1, Or.inr ⟨_, not_lt.mp h4, hC.2.1, hC.2.2⟩, fun _ => ⟨hC.2.1, hC.2.2⟩,
        fun _ => rfl⟩
    · have hfd : (created_ruleset K a t).ruleset_fd ≥ 0 := not_lt.mp h4
      have hC := handles_after_release K a t
        [⟨.free, K (trace_after_alloc K a t ++
          [⟨.close (creation_reply K a t).ret,
            K (trace_after_alloc K a t) (.close (creation_reply K a t).ret)⟩]) .free⟩]
        h4 (Or.inr ⟨_, rfl⟩)
        (K (trace_after_alloc K a t) (.close (creation_reply K a t).ret))
      have htr : ll_ruleset_close K (some (created_ruleset K a t)) (trace_after_alloc K a t) =
          trace_after_alloc K a t ++
            ⟨.close (creation_reply K a t).ret,
              K (trace_after_alloc K a t) (.close (creation_reply K a t).ret)⟩ ::
            [⟨.free, K (trace_after_alloc K a t ++
              [⟨.close (creation_reply K a t).ret,
                K (trace_after_alloc K a t) (.close (creation_reply K a t).ret)⟩]) .free⟩] := by
        simp only [ll_ruleset_close, if_pos hfd, sys_snd, List.append_assoc]
        rfl
      rw [htr]
      exact ⟨hC.1, Or.inr ⟨_, not_lt.mp h4, hC.2.1, hC.2.2⟩, fun _ => ⟨hC.2.1, hC.2.2⟩,
        fun _ => rfl⟩
    · exact absurd hfail (show ¬ LL_ERRORED LL_ERROR_OK = true by decide)
    · exact absurd hfail (show ¬ LL_ERRORED LL_ERROR_OK_PARTIAL_SANDBOX = true by decide)
    · exact absurd hfail (show ¬ LL_ERRORED LL_ERROR_OK = true by decide)

/-- C34, at concrete inputs: the strict partial-sandbox abort (ABI 1, `READ_FILE` and
`REFER` requested) and the allocation failure both close descriptor 3, the handle the
creation call returned, and leave no descriptor open. -/
theorem failing_create_releases_handle_witness :
    (ll_ruleset_create (sample_kernel 1 1 0) (sample_attr 1 LL_ABI_COMPAT_STRICT 8196)
        (some none) []).2.2
      = [⟨version_probe, ⟨1, 0, 0⟩⟩,
         ⟨.landlock_create_ruleset (some ⟨4, 0, 0⟩) 24 0, ⟨3, 0, 0⟩⟩,
         ⟨.malloc, ⟨1, 0, 0⟩⟩, ⟨.close 3, ⟨0, 0, 0⟩⟩, ⟨.free, ⟨0, 0, 0⟩⟩] ∧
    open_handles (ll_ruleset_create (sample_kernel 1 1 0)
        (sample_attr 1 LL_ABI_COMPAT_STRICT 8196) (some none) []).2.2 = open_handles [] ∧
    close_calls (ll_ruleset_create (sample_kernel 6 0 0)
        (sample_attr 1 LL_ABI_COMPAT_BEST_EFFORT 4) (some none) []).2.2
      = close_calls [] ++ [(creation_reply (sample_kernel 6 0 0)
          (sample_attr 1 LL_ABI_COMPAT_BEST_EFFORT 4) []).ret] ∧
    (creation_reply (sample_kernel 6 0 0) (sample_attr 1 LL_ABI_COMPAT_BEST_EFFORT 4) []).ret
      = 3 :=
  ⟨by decide,
   (failing_create_releases_handle (sample_kernel 1 1 0)
      (sample_attr 1 LL_ABI_COMPAT_STRICT 8196) (some none) [] (by decide)).1,
   ((failing_create_releases_handle (sample_kernel 6 0 0)
      (sample_attr 1 LL_ABI_COMPAT_BEST_EFFORT 4) (some none) [] (by decide)).2.2.1
        (Or.inl (by decide))).2,
   by decide⟩

/-! ## Nothing beyond the kernel's ABI -/

theorem supported_access_fs_mono {v w : ll_abi_t} (h : v ≤ w) :
    bits_subset (ll_supported_access_fs v) (ll_supported_access_fs w) := by
  simp only [ll_supported_access_fs]
  split_ifs <;> first | decide | (exfalso; simp only [ll_abi_t] at *; omega)

theorem supported_access_net_mono {v w : ll_abi_t} (h : v ≤ w) :
    bits_subset (ll_supported_access_net v) (ll_supported_access_net w) := by
  simp only [ll_supported_access_net]
  split_ifs <;> first | decide | (exfalso; simp only [ll_abi_t] at *; omega)

theorem supported_scopes_mono {v w : ll_abi_t} (h : v ≤ w) :
    bits_subset (ll_supported_scopes v) (ll_supported_scopes w) := by
  simp only [ll_supported_scopes]
  split_ifs <;> first | decide | (exfalso; simp only [ll_abi_t] at *; omega)

theorem supported_restrict_self_flags_mono {v w : ll_abi_t} (h : v ≤ w) :
    bits_subset (ll_supported_restrict_self_flags v) (ll_supported_restrict_self_flags w) := by
  simp only [ll_supported_restrict_self_flags]
  split_ifs <;> first | decide | (exfalso; simp only [ll_abi_t] at *; omega)

theorem bits_subset_and_right (a b : Nat) : bits_subset (a &&& b) b := by
  rw [bits_subset_iff_testBit]
  intro i hi
  rw [Nat.testBit_and, Bool.and_eq_true] at hi
  exact hi.2

/-- Past the compatibility check of `ll_ruleset_create`, the effective ABI is the
smaller of the requested (resolved) ABI and the kernel ABI. -/
theorem effective_abi_eq_min (K : Kernel) (a : ll_ruleset_attr_t) (t : Trace)
    (h2 : ¬ (a.compat_mode = LL_ABI_COMPAT_STRICT ∧
      (probe_reply K a t).ret < policy_abi K a t)) :
    effective_abi K a t = min (policy_abi K a t) (probe_reply K a t).ret := by
  unfold effective_abi
  by_cases hlt : (probe_reply K a t).ret < policy_abi K a t
  · have hbe : a.compat_mode = LL_ABI_COMPAT_BEST_EFFORT := by
      cases hm : a.compat_mode with
      | LL_ABI_COMPAT_STRICT => exact absurd ⟨hm, hlt⟩ h2
      | LL_ABI_COMPAT_BEST_EFFORT => rfl
    rw [if_pos ⟨hbe, hlt⟩, min_eq_right (le_of_lt hlt)]
  · rw [if_neg (fun h => hlt h.2), min_eq_left (not_lt.mp hlt)]

/-- The flags `ll_ruleset_enforce` submits, if it submits any, are among the flags
supported at the ruleset's ABI. -/
theorem enforce_flags_within (K : Kernel) (r : ll_ruleset) (flags : Nat) (u : Trace) :
    restrict_calls (ll_ruleset_enforce K (some r) flags u).2 = restrict_calls u ∨
    ∃ m : Nat, restrict_calls (ll_ruleset_enforce K (some r) flags u).2
        = restrict_calls u ++ [(r.ruleset_fd, m)] ∧
      bits_subset m (ll_supported_restrict_self_flags r.abi) := by
  have key : ∀ (m : Nat) (v : Trace), restrict_calls v = restrict_calls u →
      bits_subset m (ll_supported_restrict_self_flags r.abi) →
      (restrict_calls (enforce_finish K r.ruleset_fd m v).2 = restrict_calls u ∨
        ∃ m1 : Nat, restrict_calls (enforce_finish K r.ruleset_fd m v).2
            = restrict_calls u ++ [(r.ruleset_fd, m1)] ∧
          bits_subset m1 (ll_supported_restrict_self_flags r.abi)) := by
    intro m v hv hsub
    rw [(enforce_finish_calls K r.ruleset_fd m v).2, hv]
    by_cases h0 : (K v .prctl_set_no_new_privs).ret = 0
    · rw [if_pos h0]
      exact Or.inr ⟨m, rfl, hsub⟩
    · rw [if_neg h0]
      exact Or.inl rfl
  have hzero : bits_subset 0 (ll_supported_restrict_self_flags r.abi) := Nat.zero_and _
  rw [ll_ruleset_enforce_steps]
  split_ifs
  · exact Or.inl rfl
  · exact Or.inl rfl
  · exact Or.inl rfl
  · exact Or.inl (restrict_calls_audit K u)
  · exact key _ _ (restrict_calls_audit K u) hzero
  · exact key _ _ (restrict_calls_audit K u) (bits_subset_and_right _ _)
  · exact key _ _ rfl (bits_subset_and_right _ _)

/-- C36: whatever the attribute, the mode and the kernel's answers, with `k` the kernel
ABI that `ll_ruleset_create` probed: when the call reaches the creation channel, `k` is
not negative, the effective ABI is the smaller of the requested (resolved) ABI and `k`,
and each of the three masks it submits is a subset of the mask supported for its class
at ABI `k`; and a ruleset it hands back has an ABI of at most `k`, so that every call of
`ll_ruleset_enforce` on it, with whatever flags and from whatever history, either does
not reach the self-restriction channel or submits flags that are a subset of the
restrict-self flags supported at ABI `k`.  The requested ABI is the attribute's own
unless that is the `latest` selector. -/
theorem never_beyond_kernel_abi (K : Kernel) (a : ll_ruleset_attr_t)
    (out : Option (Option ll_ruleset)) (t : Trace) :
    (creation_calls (ll_ruleset_create K a out t).2.2 = creation_calls t ∨
      (0 ≤ (probe_reply K a t).ret ∧
        effective_abi K a t = min (policy_abi K a t) (probe_reply K a t).ret ∧
        ∃ (m : landlock_ruleset_attr) (size fl : Nat),
          creation_calls (ll_ruleset_create K a out t).2.2
            = creation_calls t ++ [(m, size, fl)] ∧
          m = masked_access a.access (effective_abi K a t) ∧
          bits_subset m.handled_access_fs (ll_supported_access_fs (probe_reply K a t).ret) ∧
          bits_subset m.handled_access_net (ll_supported_access_net (probe_reply K a t).ret) ∧
          bits_subset m.scoped_ (ll_supported_scopes (probe_reply K a t).ret))) ∧
    (∀ r : ll_ruleset, (ll_ruleset_create K a out t).2.1 = some (some r) →
      r.abi ≤ (probe_reply K a t).ret ∧
      ∀ (flags : Nat) (u : Trace),
        restrict_calls (ll_ruleset_enforce K (some r) flags u).2 = restrict_calls u ∨
        ∃ m : Nat, restrict_calls (ll_ruleset_enforce K (some r) flags u).2
            = restrict_calls u ++ [(r.ruleset_fd, m)] ∧
          bits_subset m (ll_supported_restrict_self_flags (probe_reply K a t).ret)) ∧
    (a.abi ≠ LL_ABI_LATEST → policy_abi K a t = a.abi) := by
  rw [← and_assoc]
  refine ⟨?_, fun h => by simp only [policy_abi, ll_resolve_abi, if_neg h]⟩
  cases out with
  | none => exact ⟨Or.inl rfl, fun r hr => by cases hr⟩
  | some slot =>
    have hA := creation_calls_at_creation K a t
    have hB := creation_calls_after_creation K a t
    have hC := creation_calls_after_alloc K a t
    -- what holds once the compatibility check has been passed
    have hpast : ¬ (probe_reply K a t).ret < 0 →
        ¬ (a.compat_mode = LL_ABI_COMPAT_STRICT ∧
          (probe_reply K a t).ret < policy_abi K a t) →
        0 ≤ (probe_reply K a t).ret ∧
        effective_abi K a t = min (policy_abi K a t) (probe_reply K a t).ret ∧
        effective_abi K a t ≤ (probe_reply K a t).ret ∧
        bits_subset (masked_access a.access (effective_abi K a t)).handled_access_fs
          (ll_supported_access_fs (probe_reply K a t).ret) ∧
        bits_subset (masked_access a.access (effective_abi K a t)).handled_access_net
          (ll_supported_access_net (probe_reply K a t).ret) ∧
        bits_subset (masked_access a.access (effective_abi K a t)).scoped_
          (ll_supported_scopes (probe_reply K a t).ret) := by
      intro h1 h2
      have hmin := effective_abi_eq_min K a t h2
      have hle : effective_abi K a t ≤ (probe_reply K a t).ret := by
        rw [hmin]; exact min_le_right _ _
      exact ⟨not_lt.mp h1, hmin, hle,
        bits_subset_trans (bits_subset_and_right _ _) (supported_access_fs_mono hle),
        bits_subset_trans (bits_subset_and_right _ _) (supported_access_net_mono hle),
        bits_subset_trans (bits_subset_and_right _ _) (supported_scopes_mono hle)⟩
    have henf : ∀ r : ll_ruleset, r.abi ≤ (probe_reply K a t).ret →
        ∀ (flags : Nat) (u : Trace),
          restrict_calls (ll_ruleset_enforce K (some r) flags u).2 = restrict_calls u ∨
          ∃ m : Nat, restrict_calls (ll_ruleset_enforce K (some r) flags u).2
              = restrict_calls u ++ [(r.ruleset_fd, m)] ∧
            bits_subset m (ll_supported_restrict_self_flags (probe_reply K a t).ret) := by
      intro r hr flags u
      rcases enforce_flags_within K r flags u with h | ⟨m, hm, hsub⟩
      · exact Or.inl h
      · exact Or.inr ⟨m, hm, bits_subset_trans hsub (supported_restrict_self_flags_mono hr)⟩
    rw [ll_ruleset_create_steps]
    split_ifs with h1 h2 h3 h4 h5 h6 h7 h8
    · exact ⟨Or.inl hA, fun r hr => by simp at hr⟩
    · exact ⟨Or.inl hA, fun r hr => by simp at hr⟩
    · exact ⟨Or.inl hA, fun r hr => by simp at hr⟩
    · obtain ⟨p1, p2, _, p4, p5, p6⟩ := hpast h1 h2
      exact ⟨Or.inr ⟨p1, p2, masked_access a.access (effective_abi K a t), sizeof_landlock_ruleset_attr,
        u32_of_int (int_of_u32 a.flags), hB, rfl, p4, p5, p6⟩, fun r hr => by simp at hr⟩
    · obtain ⟨p1, p2, _, p4, p5, p6⟩ := hpast h1 h2
      refine ⟨Or.inr ⟨p1, p2, masked_access a.access (effective_abi K a t), sizeof_landlock_ruleset_attr,
        u32_of_int (int_of_u32 a.flags), ?_, rfl, p4, p5, p6⟩, fun r hr => by simp at hr⟩
      simp only [sys_snd, creation_calls_append, hC]
      simp [creation_calls]
    · obtain ⟨p1, p2, _, p4, p5, p6⟩ := hpast h1 h2
      refine ⟨Or.inr ⟨p1, p2, masked_access a.access (effective_abi K a t), sizeof_landlock_ruleset_attr,
        u32_of_int (int_of_u32 a.flags), ?_, rfl, p4, p5, p6⟩, fun r hr => by simp at hr⟩
      simp only [creation_calls_close, hC]
    · obtain ⟨p1, p2, p3, p4, p5, p6⟩ := hpast h1 h2
      refine ⟨Or.inr ⟨p1, p2, masked_access a.access (effective_abi K a t), sizeof_landlock_ruleset_attr,
        u32_of_int (int_of_u32 a.flags), hC, rfl, p4, p5, p6⟩, fun r hr => ?_⟩
      simp at hr
      subst hr
      exact ⟨p3, henf _ p3⟩
    · obtain ⟨p1, p2, p3, p4, p5, p6⟩ := hpast h1 h2
      refine ⟨Or.inr ⟨p1, p2, masked_access a.access (effective_abi K a t), sizeof_landlock_ruleset_attr,
        u32_of_int (int_of_u32 a.flags), hC, rfl, p4, p5, p6⟩, fun r hr => ?_⟩
      simp at hr
      subst hr
      exact ⟨p3, henf _ p3⟩
    · obtain ⟨p1, p2, p3, p4, p5, p6⟩ := hpast h1 h2
      refine ⟨Or.inr ⟨p1, p2, masked_access a.access (effective_abi K a t), sizeof_landlock_ruleset_attr,
        u32_of_int (int_of_u32 a.flags), hC, rfl, p4, p5, p6⟩, fun r hr => ?_⟩
      simp at hr
      subst hr
      exact ⟨p3, henf _ p3⟩

/-- C36, at a concrete input: best-effort mode asking for ABI 7 and `READ_FILE`, `REFER`
under a kernel of ABI 1: the ruleset handed back has ABI 1, and enforcing it with the
three logging flags submits flags 0, a subset of what ABI 1 supports (nothing). -/
theorem never_beyond_kernel_abi_witness :
    (ll_ruleset_create (sample_kernel 1 1 0) (sample_attr 7 LL_ABI_COMPAT_BEST_EFFORT 8196)
        (some none) []).2.1 = some (some ⟨3, 1, LL_ABI_COMPAT_BEST_EFFORT, 4, 0, 0⟩) ∧
    (probe_reply (sample_kernel 1 1 0) (sample_attr 7 LL_ABI_COMPAT_BEST_EFFORT 8196) []).ret
      = 1 ∧
    restrict_calls (ll_ruleset_enforce (sample_kernel 1 1 0)
        (some ⟨3, 1, LL_ABI_COMPAT_BEST_EFFORT, 4, 0, 0⟩) 7 []).2 = [(3, 0)] ∧
    ((1 : ll_abi_t) ≤ (probe_reply (sample_kernel 1 1 0)
        (sample_attr 7 LL_ABI_COMPAT_BEST_EFFORT 8196) []).ret ∧
      ∀ (flags : Nat) (u : Trace),
        restrict_calls (ll_ruleset_enforce (sample_kernel 1 1 0)
            (some ⟨3, 1, LL_ABI_COMPAT_BEST_EFFORT, 4, 0, 0⟩) flags u).2 = restrict_calls u ∨
        ∃ m : Nat, restrict_calls (ll_ruleset_enforce (sample_kernel 1 1 0)
            (some ⟨3, 1, LL_ABI_COMPAT_BEST_EFFORT, 4, 0, 0⟩) flags u).2
            = restrict_calls u ++ [((3 : Int), m)] ∧
          bits_subset m (ll_supported_restrict_self_flags
            (probe_reply (sample_kernel 1 1 0)
              (sample_attr 7 LL_ABI_COMPAT_BEST_EFFORT 8196) []).ret)) :=
  ⟨by decide, by decide, by decide,
   (never_beyond_kernel_abi (sample_kernel 1 1 0)
      (sample_attr 7 LL_ABI_COMPAT_BEST_EFFORT 8196) (some none) []).2.1
      ⟨3, 1, LL_ABI_COMPAT_BEST_EFFORT, 4, 0, 0⟩ (by decide)⟩

/-! ## The convenience groups -/

/-- At every ABI the filesystem table lacks `MAKE_SYM`, keeps some right of the read and
write groups, and does not keep all of them. -/
theorem group_request_cases (v : ll_abi_t) :
    ll_supported_access_fs v &&& LANDLOCK_ACCESS_FS_MAKE_SYM = 0 ∧
    (LL_ACCESS_GROUP_FS_READ ||| LL_ACCESS_GROUP_FS_WRITE) &&& ll_supported_access_fs v ≠ 0 ∧
    LL_ACCESS_GROUP_FS_READ ||| LL_ACCESS_GROUP_FS_WRITE ≠
      (LL_ACCESS_GROUP_FS_READ ||| LL_ACCESS_GROUP_FS_WRITE) &&& ll_supported_access_fs v ∧
    ¬ bits_subset LL_ACCESS_GROUP_FS_ALL (ll_supported_access_fs v) := by
  rcases supported_access_fs_cases v with ⟨_, e⟩ | ⟨_, e⟩ | ⟨_, _, e⟩ | ⟨_, e⟩ <;>
    rw [e] <;> decide

/-- C35 fails on the code: `MAKE_SYM`, a member of `LL_ACCESS_GROUP_FS_WRITE`, is in the
filesystem table at no ABI, so `LL_ACCESS_GROUP_FS_ALL` is a subset of the table at no
ABI.  Under a kernel of ABI 2 whose creation call succeeds, an attribute made with
(`LL_ABI_LATEST`, best-effort) whose filesystem mask is the read and write groups gives
`LL_ERROR_OK_PARTIAL_SANDBOX`, with `MAKE_SYM` dropped from the committed mask; and so
it is under every kernel whose probes answer at least 2 and whose creation call and
allocation succeed. -/
theorem fs_groups_lose_make_sym :
    (∀ v : ll_abi_t, ll_supported_access_fs v &&& LANDLOCK_ACCESS_FS_MAKE_SYM = 0) ∧
    (∀ v : ll_abi_t, ¬ bits_subset LL_ACCESS_GROUP_FS_ALL (ll_supported_access_fs v)) ∧
    bits_subset LANDLOCK_ACCESS_FS_MAKE_SYM LL_ACCESS_GROUP_FS_WRITE ∧
    ll_ruleset_create (sample_kernel 2 1 0)
        (set_access_fs (ll_ruleset_attr_create (sample_kernel 2 1 0) LL_ABI_LATEST
          LL_ABI_COMPAT_BEST_EFFORT []).1
          (LL_ACCESS_GROUP_FS_READ ||| LL_ACCESS_GROUP_FS_WRITE))
        (some none)
        (ll_ruleset_attr_create (sample_kernel 2 1 0) LL_ABI_LATEST
          LL_ABI_COMPAT_BEST_EFFORT []).2
      = (LL_ERROR_OK_PARTIAL_SANDBOX,
          some (some ⟨3, 2, LL_ABI_COMPAT_BEST_EFFORT, 12286, 0, 0⟩),
          [⟨version_probe, ⟨2, 0, 0⟩⟩,
           ⟨version_probe, ⟨2, 0, 0⟩⟩,
           ⟨.landlock_create_ruleset (some ⟨12286, 0, 0⟩) 24 0, ⟨3, 0, 0⟩⟩,
           ⟨.malloc, ⟨1, 0, 0⟩⟩]) ∧
    (LL_ACCESS_GROUP_FS_READ ||| LL_ACCESS_GROUP_FS_WRITE = 12286 ||| LANDLOCK_ACCESS_FS_MAKE_SYM) ∧
    ∀ (K : Kernel) (slot : Option ll_ruleset) (t0 : Trace),
      (∀ h, 2 ≤ (K h version_probe).ret) →
      (∀ h m size fl, 0 ≤ (K h (.landlock_create_ruleset (some m) size fl)).ret) →
      (∀ h, (K h .malloc).ret ≠ 0) →
      (ll_ruleset_create K
        (set_access_fs (ll_ruleset_attr_create K LL_ABI_LATEST LL_ABI_COMPAT_BEST_EFFORT t0).1
          (LL_ACCESS_GROUP_FS_READ ||| LL_ACCESS_GROUP_FS_WRITE))
        (some slot)
        (ll_ruleset_attr_create K LL_ABI_LATEST LL_ABI_COMPAT_BEST_EFFORT t0).2).1
        = LL_ERROR_OK_PARTIAL_SANDBOX := by
  refine ⟨fun v => (group_request_cases v).1, fun v => (group_request_cases v).2.2.2,
    by decide, by decide, by decide, ?_⟩
  intro K slot t0 hprobe hcreate halloc
  have h1 : ∀ (a : ll_ruleset_attr_t) (t : Trace), ¬ (probe_reply K a t).ret < 0 :=
    fun a t => not_lt.mpr (le_trans (by decide) (hprobe _))
  have h4 : ∀ (a : ll_ruleset_attr_t) (t : Trace), ¬ (creation_reply K a t).ret < 0 :=
    fun a t => not_lt.mpr (hcreate _ _ _ _)
  have h5 : ∀ (a : ll_ruleset_attr_t) (t : Trace), ¬ (alloc_reply K a t).ret = 0 :=
    fun a t => halloc _
  have h2 : ¬ ((set_access_fs (ll_ruleset_attr_create K LL_ABI_LATEST
      LL_ABI_COMPAT_BEST_EFFORT t0).1
      (LL_ACCESS_GROUP_FS_READ ||| LL_ACCESS_GROUP_FS_WRITE)).compat_mode
        = LL_ABI_COMPAT_STRICT) := fun h => ll_abi_compat_mode_t.noConfusion h
  have h3 : ∀ v, ¬ masks_empty (set_access_fs (ll_ruleset_attr_create K LL_ABI_LATEST
      LL_ABI_COMPAT_BEST_EFFORT t0).1
      (LL_ACCESS_GROUP_FS_READ ||| LL_ACCESS_GROUP_FS_WRITE)).access v :=
    fun v h => (group_request_cases v).2.1 h.1
  have h7 : ∀ v, masks_shrink (set_access_fs (ll_ruleset_attr_create K LL_ABI_LATEST
      LL_ABI_COMPAT_BEST_EFFORT t0).1
      (LL_ACCESS_GROUP_FS_READ ||| LL_ACCESS_GROUP_FS_WRITE)).access v :=
    fun v => Or.inl (group_request_cases v).2.2.1
  rw [ll_ruleset_create_steps, if_neg (h1 _ _), if_neg (fun h => h2 h.1), if_neg (h3 _),
    if_neg (h4 _ _), if_neg (h5 _ _), if_neg h2, if_pos (h7 _)]

end Liblandlock
